import Mathlib

/-!
# LuaSQL MySQL driver (`ls_mysql.c`): a shallow embedding

The C functions of `ls_mysql.c` are embedded as Lean functions with explicit
state passing.  The MySQL client library is not part of the driver: the
answers it gives during a call are an input of the embedded function (see
`Answers`), and the calls made to it are appended to a trace (see `World`).

An argument that the C code obtains with `luaL_checkudata`,
`luaL_checkinteger`, `luaL_checklstring` or `luaL_optstring` has the
corresponding Lean type; a call with an argument of another Lua type raises an
error in that check and is not represented.  Errors of the Lua runtime for
lack of memory are not represented either.  A step whose behaviour C leaves
undefined (a read past the end of an array, say) ends the function with
`Raise.undefined`.
-/

namespace LuaSQL

/-! ## Constants of the client library headers -/

/-- Value of `MYSQL_TYPE_DECIMAL` in `enum enum_field_types` of the client library header. -/
def MYSQL_TYPE_DECIMAL : Nat := 0
/-- Value of `MYSQL_TYPE_TINY` in `enum enum_field_types`. -/
def MYSQL_TYPE_TINY : Nat := 1
/-- Value of `MYSQL_TYPE_SHORT` in `enum enum_field_types`. -/
def MYSQL_TYPE_SHORT : Nat := 2
/-- Value of `MYSQL_TYPE_LONG` in `enum enum_field_types`. -/
def MYSQL_TYPE_LONG : Nat := 3
/-- Value of `MYSQL_TYPE_FLOAT` in `enum enum_field_types`. -/
def MYSQL_TYPE_FLOAT : Nat := 4
/-- Value of `MYSQL_TYPE_DOUBLE` in `enum enum_field_types`. -/
def MYSQL_TYPE_DOUBLE : Nat := 5
/-- Value of `MYSQL_TYPE_NULL` in `enum enum_field_types`. -/
def MYSQL_TYPE_NULL : Nat := 6
/-- Value of `MYSQL_TYPE_TIMESTAMP` in `enum enum_field_types`. -/
def MYSQL_TYPE_TIMESTAMP : Nat := 7
/-- Value of `MYSQL_TYPE_LONGLONG` in `enum enum_field_types`. -/
def MYSQL_TYPE_LONGLONG : Nat := 8
/-- Value of `MYSQL_TYPE_INT24` in `enum enum_field_types`. -/
def MYSQL_TYPE_INT24 : Nat := 9
/-- Value of `MYSQL_TYPE_DATE` in `enum enum_field_types`. -/
def MYSQL_TYPE_DATE : Nat := 10
/-- Value of `MYSQL_TYPE_TIME` in `enum enum_field_types`. -/
def MYSQL_TYPE_TIME : Nat := 11
/-- Value of `MYSQL_TYPE_DATETIME` in `enum enum_field_types`. -/
def MYSQL_TYPE_DATETIME : Nat := 12
/-- Value of `MYSQL_TYPE_YEAR` in `enum enum_field_types`. -/
def MYSQL_TYPE_YEAR : Nat := 13
/-- Value of `MYSQL_TYPE_NEWDATE` in `enum enum_field_types`. -/
def MYSQL_TYPE_NEWDATE : Nat := 14
/-- Value of `MYSQL_TYPE_VARCHAR` in `enum enum_field_types`. -/
def MYSQL_TYPE_VARCHAR : Nat := 15
/-- Value of `MYSQL_TYPE_BIT` in `enum enum_field_types`. -/
def MYSQL_TYPE_BIT : Nat := 16
/-- Value of `MYSQL_TYPE_JSON` in `enum enum_field_types`. -/
def MYSQL_TYPE_JSON : Nat := 245
/-- Value of `MYSQL_TYPE_NEWDECIMAL` in `enum enum_field_types`. -/
def MYSQL_TYPE_NEWDECIMAL : Nat := 246
/-- Value of `MYSQL_TYPE_ENUM` in `enum enum_field_types`. -/
def MYSQL_TYPE_ENUM : Nat := 247
/-- Value of `MYSQL_TYPE_SET` in `enum enum_field_types`. -/
def MYSQL_TYPE_SET : Nat := 248
/-- Value of `MYSQL_TYPE_TINY_BLOB` in `enum enum_field_types`. -/
def MYSQL_TYPE_TINY_BLOB : Nat := 249
/-- Value of `MYSQL_TYPE_MEDIUM_BLOB` in `enum enum_field_types`. -/
def MYSQL_TYPE_MEDIUM_BLOB : Nat := 250
/-- Value of `MYSQL_TYPE_LONG_BLOB` in `enum enum_field_types`. -/
def MYSQL_TYPE_LONG_BLOB : Nat := 251
/-- Value of `MYSQL_TYPE_BLOB` in `enum enum_field_types`. -/
def MYSQL_TYPE_BLOB : Nat := 252
/-- Value of `MYSQL_TYPE_VAR_STRING` in `enum enum_field_types`. -/
def MYSQL_TYPE_VAR_STRING : Nat := 253
/-- Value of `MYSQL_TYPE_STRING` in `enum enum_field_types`. -/
def MYSQL_TYPE_STRING : Nat := 254

/-- Get the internal database type of the given column (`getcolumntype`): the
`switch` over the type code, one `if` per group of `case` labels, the last
branch being `default`. -/
def getcolumntype (type : Nat) : String :=
  if type = MYSQL_TYPE_VAR_STRING ∨ type = MYSQL_TYPE_STRING then
    "string"
  else if type = MYSQL_TYPE_DECIMAL ∨ type = MYSQL_TYPE_SHORT ∨ type = MYSQL_TYPE_LONG
      ∨ type = MYSQL_TYPE_FLOAT ∨ type = MYSQL_TYPE_DOUBLE ∨ type = MYSQL_TYPE_LONGLONG
      ∨ type = MYSQL_TYPE_INT24 ∨ type = MYSQL_TYPE_YEAR ∨ type = MYSQL_TYPE_TINY then
    "number"
  else if type = MYSQL_TYPE_TINY_BLOB ∨ type = MYSQL_TYPE_MEDIUM_BLOB
      ∨ type = MYSQL_TYPE_LONG_BLOB ∨ type = MYSQL_TYPE_BLOB then
    "binary"
  else if type = MYSQL_TYPE_DATE ∨ type = MYSQL_TYPE_NEWDATE then
    "date"
  else if type = MYSQL_TYPE_DATETIME then
    "datetime"
  else if type = MYSQL_TYPE_TIME then
    "time"
  else if type = MYSQL_TYPE_TIMESTAMP then
    "timestamp"
  else if type = MYSQL_TYPE_ENUM ∨ type = MYSQL_TYPE_SET then
    "set"
  else if type = MYSQL_TYPE_NULL then
    "null"
  else
    "undefined"

/-- Value of `CR_UNKNOWN_ERROR` in the client library header `errmsg.h`. -/
def CR_UNKNOWN_ERROR : Int := 2000
/-- Value of `CR_SERVER_GONE_ERROR` in `errmsg.h`. -/
def CR_SERVER_GONE_ERROR : Int := 2006
/-- Value of `CR_SERVER_LOST` in `errmsg.h`. -/
def CR_SERVER_LOST : Int := 2013
/-- Value of `CR_COMMANDS_OUT_OF_SYNC` in `errmsg.h`. -/
def CR_COMMANDS_OUT_OF_SYNC : Int := 2014

/-- Value of `LUA_NOREF` in `lauxlib.h`. -/
def LUA_NOREF : Int := -2
/-- Value of `LUA_REFNIL` in `lauxlib.h`. -/
def LUA_REFNIL : Int := -1

/-! ## Machine integers (LP64: `int` has 32 bits, `long` and `lua_Integer` 64) -/

/-- Conversion to `unsigned int`: the value is reduced modulo `2^32`. -/
def to_unsigned (x : Int) : Nat := (x % 2 ^ 32).toNat

/-- Conversion to `size_t` or `unsigned long`: the value is reduced modulo
`2^64`. -/
def to_size_t (x : Int) : Nat := (x % 2 ^ 64).toNat

/-- The `int` that has the same 32 bits as the unsigned value `n`. -/
def int_of_bits (n : Nat) : Int :=
  if n % 2 ^ 32 < 2 ^ 31 then ((n % 2 ^ 32 : Nat) : Int) else ((n % 2 ^ 32 : Nat) : Int) - 2 ^ 32

/-- The `long int` that has the same 64 bits as the unsigned value `n`. -/
def long_of_bits (n : Nat) : Int :=
  if n % 2 ^ 64 < 2 ^ 63 then ((n % 2 ^ 64 : Nat) : Int) else ((n % 2 ^ 64 : Nat) : Int) - 2 ^ 64

/-- Conversion to `int`: the value is reduced modulo `2^32` into
`[-2^31, 2^31)`. -/
def to_int (x : Int) : Int := int_of_bits (to_unsigned x)

/-- Conversion to `long int` or `lua_Integer`: the value is reduced modulo
`2^64` into `[-2^63, 2^63)`. -/
def to_long (x : Int) : Int := long_of_bits (to_size_t x)

/-! ## Lua values, tables and the state of the world -/

/-- A Lua value.  A string is a sequence of bytes, each written as a `Char`;
a float is kept as its bit pattern (the driver only copies it); tables and
userdata are references. -/
inductive LuaValue where
  | nil
  | boolean (b : Bool)
  | integer (n : Int)
  | number (bits : Nat)
  | string (s : String)
  | table (addr : Nat)
  | userdata (addr : Nat)
  deriving DecidableEq, Repr

/-- The contents of a Lua table: the keys that hold a non-nil value. -/
abbrev LuaTable := List (LuaValue × LuaValue)

/-- Raw read of a key of a table; an absent key reads as nil. -/
def LuaTable.rawget : LuaTable → LuaValue → LuaValue
  | [], _ => .nil
  | (k1, v) :: t, k => if k1 = k then v else LuaTable.rawget t k

/-- The table without the key `k`. -/
def LuaTable.remove : LuaTable → LuaValue → LuaTable
  | [], _ => []
  | (k1, v) :: t, k => if k1 = k then LuaTable.remove t k else (k1, v) :: LuaTable.remove t k

/-- Raw write of a key of a table; writing nil removes the key. -/
def LuaTable.rawset (t : LuaTable) (k v : LuaValue) : LuaTable :=
  if v = .nil then t.remove k else (k, v) :: t.remove k

/-- A call that leaves the driver: to the client library, to `printf`, or the
release of a registry reference. -/
inductive Call where
  | mysql_fetch_row (res : Nat)
  | mysql_fetch_lengths (res : Nat)
  | mysql_fetch_fields (res : Nat)
  | mysql_free_result (res : Nat)
  | mysql_num_rows (res : Nat)
  | mysql_data_seek (res : Nat) (row : Int)
  | mysql_more_results (con : Nat)
  | mysql_next_result (con : Nat)
  | mysql_store_result (con : Nat)
  | mysql_errno (con : Nat)
  | mysql_error (con : Nat)
  | mysql_close (con : Nat)
  | mysql_real_query (con : Nat) (statement : String)
  | mysql_field_count (con : Nat)
  | mysql_affected_rows (con : Nat)
  | mysql_library_end
  | mysql_stmt_bind_param (stmt : Nat)
  | mysql_stmt_error (stmt : Nat)
  | mysql_stmt_fetch (stmt : Nat)
  | mysql_stmt_bind_result (stmt : Nat)
  | printf (text : String)
  | luaL_unref (ref : Int)
  deriving DecidableEq, Repr

/-- True for the calls that go to the MySQL client library. -/
def Call.isClientLibrary : Call → Bool
  | .printf _ => false
  | .luaL_unref _ => false
  | _ => true

/-- The state outside the driver objects: the Lua tables (a table's address is
its position), the registry slots handed out by `luaL_ref`, the number of
userdata blocks created so far, the number of stack slots `luaL_checkstack`
can still provide, and the trace of calls made so far (oldest first). -/
structure World where
  tables : List LuaTable
  registry : List (Int × LuaValue)
  udata : Nat
  stack_free : Nat
  trace : List Call
  deriving DecidableEq, Repr

/-- Record a call in the trace. -/
def World.call (W : World) (c : Call) : World :=
  { W with trace := W.trace ++ [c] }

/-- An error raised through the Lua runtime (`luaL_argerror`, `luaL_error`),
or a step whose behaviour C leaves undefined. -/
inductive Raise where
  | argerror (arg : Nat) (extramsg : String)
  | error (msg : String)
  | undefined (what : String)
  deriving DecidableEq, Repr

/-- What a driver function leaves behind: the values it returns to Lua (or the
error it raises), the object it worked on, and the world. -/
structure Outcome (α : Type) where
  ret : Except Raise (List LuaValue)
  obj : α
  W : World

/-- `lua_newtable`: a new empty table at a fresh address. -/
def lua_newtable (W : World) : Nat × World :=
  (W.tables.length, { W with tables := W.tables ++ [[]] })

/-- `lua_rawset` on the table at address `t`; Lua raises an error for a nil
key. -/
def lua_rawset (W : World) (t : Nat) (k v : LuaValue) : Except Raise Unit × World :=
  if k = .nil then (.error (.error "table index is nil"), W)
  else (.ok (), { W with tables := W.tables.set t ((W.tables.getD t []).rawset k v) })

/-- `lua_rawseti` on the table at address `t`. -/
def lua_rawseti (W : World) (t : Nat) (n : Int) (v : LuaValue) : World :=
  { W with tables := W.tables.set t ((W.tables.getD t []).rawset (.integer n) v) }

/-- `lua_rawgeti` on the value `tv`, which the C API requires to be a table. -/
def lua_rawgeti (W : World) (tv : LuaValue) (n : Int) : Except Raise LuaValue :=
  match tv with
  | .table t => .ok ((W.tables.getD t []).rawget (.integer n))
  | _ => .error (.undefined "lua_rawgeti on a value that is not a table")

/-- `lua_rawgeti (L, LUA_REGISTRYINDEX, ref)`. -/
def registry_get (W : World) (ref : Int) : LuaValue :=
  match W.registry.find? (fun e => e.1 = ref) with
  | some e => e.2
  | none => .nil

/-- `luaL_ref (L, LUA_REGISTRYINDEX)` on the value `v`: a nil value gives
`LUA_REFNIL`, any other value is stored under a positive key not in use. -/
def luaL_ref (W : World) (v : LuaValue) : Int × World :=
  if v = .nil then (LUA_REFNIL, W)
  else
    let r := W.registry.foldl (fun m e => max m e.1) 0 + 1
    (r, { W with registry := (r, v) :: W.registry })

/-- `luaL_unref (L, LUA_REGISTRYINDEX, ref)`: frees the slot when `ref >= 0`
and does nothing for `LUA_NOREF` and `LUA_REFNIL`. -/
def luaL_unref (W : World) (ref : Int) : World :=
  let W := W.call (.luaL_unref ref)
  if 0 ≤ ref then { W with registry := W.registry.filter (fun e => e.1 ≠ ref) } else W

/-- The C string behind a Lua string: the bytes before the first zero byte. -/
def c_str (s : String) : List Char := s.toList.takeWhile (fun c => c ≠ Char.ofNat 0)

/-- `strchr (s, c) != NULL` for a character `c` other than the terminator. -/
def strchr (s : List Char) (c : Char) : Bool := decide (c ∈ s)

/-- `luaL_optstring (L, arg, d)` for an argument that is absent (or nil) or a
string. -/
def luaL_optstring (arg : Option String) (d : String) : List Char :=
  match arg with
  | none => c_str d
  | some s => c_str s

/-- `lua_pushlstring (L, s, len)`: the string made of the first `len` bytes at
`s`; reading past the end of what is readable there is undefined. -/
def lua_pushlstring (s : List Char) (len : Nat) : Except Raise LuaValue :=
  if len ≤ s.length then .ok (.string (String.mk (s.take len)))
  else .error (.undefined "lua_pushlstring reads past the end of the buffer")

/-- The parts of `luasql.h` / `luasql.c` that the driver uses and that are not
in `ls_mysql.c`: the message prefix and the two helpers that build a failure
return. -/
structure luasql_h where
  LUASQL_PREFIX : String
  luasql_failmsg : String → String → List LuaValue
  luasql_faildirect : String → List LuaValue

/-! ## The client library seen from the driver -/

/-- A column description (`MYSQL_FIELD`), with the members the driver reads. -/
structure MYSQL_FIELD where
  name : String
  type : Nat
  length : Nat
  deriving DecidableEq, Repr

/-- A row as `mysql_fetch_row` returns it: per column either `NULL` (`none`)
or a pointer, given by the bytes readable at it. -/
abbrev MYSQL_ROW := List (Option (List Char))

/-- The answers of the client library to the calls a driver function makes.
Pointers are numbers, `0` is `NULL`. -/
structure Answers where
  mysql_fetch_row : Option MYSQL_ROW
  mysql_fetch_lengths : List Nat
  mysql_fetch_fields : List MYSQL_FIELD
  mysql_num_rows : Nat
  mysql_more_results : Bool
  mysql_next_result : Int
  mysql_store_result : Nat
  mysql_errno : Nat
  mysql_error : String
  mysql_real_query : Int
  mysql_field_count : Nat
  mysql_affected_rows : Nat
  mysql_stmt_bind_param : Bool
  mysql_stmt_error : String
  deriving DecidableEq, Repr

/-! ## Cursors -/

/-- The C structure `cur_data`.  `my_res` and `my_conn` are pointers. -/
structure cur_data where
  closed : Int
  conn : Int
  numcols : Int
  colnames : Int
  coltypes : Int
  my_res : Nat
  my_conn : Nat
  deriving DecidableEq, Repr

/-- Check for valid cursor (`getcursor`).  The userdata check of
`luaL_checkudata` is the type of the argument. -/
def getcursor (cur : cur_data) : Except Raise cur_data :=
  if cur.closed ≠ 0 then .error (.argerror 1 "cursor is closed") else .ok cur

/-- Push the value of a field of a row (`pushvalue`); `len` is a `long int`. -/
def pushvalue (row : Option (List Char)) (len : Int) : Except Raise LuaValue :=
  match row with
  | none => .ok .nil
  | some p => lua_pushlstring p (to_size_t len)

/-- The expression `pushvalue (L, row[i], lengths[i])`: both arrays are read
at `i` and the `unsigned long` length is passed as a `long int`. -/
def fetch_column (row : MYSQL_ROW) (lengths : List Nat) (i : Nat) : Except Raise LuaValue :=
  match row[i]?, lengths[i]? with
  | some cell, some len => pushvalue cell (to_long len)
  | _, _ => .error (.undefined "read past the end of the row")

/-- The call `sprintf (typename, "%.20s(%ld)", label, length)` into the
50-byte buffer `typename`. -/
def sprintf_typename (label : String) (length : Nat) : Except Raise String :=
  let text := String.mk (label.toList.take 20) ++ "(" ++ toString (to_long length) ++ ")"
  if text.length + 1 ≤ 50 then .ok text
  else .error (.undefined "sprintf writes past the end of typename")

/-- The end of the body of the loop of `create_colinfo`: the text `sprintf`
left in `typename` is pushed and stored at index `i` of the types table. -/
def create_colinfo_type (types : Nat) (i : Nat) (W : World) :
    Except Raise String → Except Raise Unit × World
  | .error e => (.error e, W)
  | .ok typename => (.ok (), lua_rawseti W types i (.string typename))

/-- The body of the loop of `create_colinfo` for the value `i` of the loop
variable. -/
def create_colinfo_step (fields : List MYSQL_FIELD) (names types : Nat) (i : Nat) (W : World) :
    Except Raise Unit × World :=
  match fields[i - 1]? with
  | none => (.error (.undefined "read past the end of the fields"), W)
  | some f =>
    create_colinfo_type types i (lua_rawseti W names i (.string f.name))
      (sprintf_typename (getcolumntype f.type) f.length)

/-- The loop of `create_colinfo`; the list holds the values of `i`, from 1. -/
def create_colinfo_loop (fields : List MYSQL_FIELD) (names types : Nat) :
    List Nat → World → Except Raise Unit × World
  | [], W => (.ok (), W)
  | i :: is, W =>
    match create_colinfo_step fields names types i W with
    | (.error e, W) => (.error e, W)
    | (.ok _, W) => create_colinfo_loop fields names types is W

/-- Creates the lists of fields names and fields types (`create_colinfo`). -/
def create_colinfo (W : World) (cur : cur_data) (A : Answers) :
    Except Raise Unit × cur_data × World :=
  let W := W.call (.mysql_fetch_fields cur.my_res)
  let fields := A.mysql_fetch_fields
  let (names, W) := lua_newtable W
  let (types, W) := lua_newtable W
  match create_colinfo_loop fields names types
      ((List.range cur.numcols.toNat).map (fun i => i + 1)) W with
  | (.error e, W) => (.error e, cur, W)
  | (.ok _, W) =>
    let (r1, W) := luaL_ref W (.table types)
    let cur := { cur with coltypes := r1 }
    let (r2, W) := luaL_ref W (.table names)
    let cur := { cur with colnames := r2 }
    (.ok (), cur, W)

/-- Closes the cursor and nullify all structure fields (`cur_nullify`). -/
def cur_nullify (W : World) (cur : cur_data) : cur_data × World :=
  let cur1 := { cur with closed := 1 }
  let W := W.call (.mysql_free_result cur1.my_res)
  let W := luaL_unref W cur1.conn
  let W := luaL_unref W cur1.colnames
  let W := luaL_unref W cur1.coltypes
  (cur1, W)

/-- The loop of `cur_fetch` that copies values to numerical indices of the
table at address `t`. -/
def fetch_numeric (row : MYSQL_ROW) (lengths : List Nat) (t : Nat) :
    List Nat → World → Except Raise Unit × World
  | [], W => (.ok (), W)
  | i :: is, W =>
    match fetch_column row lengths i with
    | .error e => (.error e, W)
    | .ok v => fetch_numeric row lengths t is (lua_rawseti W t (i + 1) v)

/-- The loop of `cur_fetch` that copies values to alphanumerical indices of
the table at address `t`; `names` is the value pushed from the registry. -/
def fetch_alpha (row : MYSQL_ROW) (lengths : List Nat) (t : Nat) (names : LuaValue) :
    List Nat → World → Except Raise Unit × World
  | [], W => (.ok (), W)
  | i :: is, W =>
    match lua_rawgeti W names (i + 1) with
    | .error e => (.error e, W)
    | .ok name =>
      match fetch_column row lengths i with
      | .error e => (.error e, W)
      | .ok v =>
        match lua_rawset W t name v with
        | (.error e, W) => (.error e, W)
        | (.ok _, W) => fetch_alpha row lengths t names is W

/-- The loop of `cur_fetch` that pushes the values of a row on the stack. -/
def fetch_values (row : MYSQL_ROW) (lengths : List Nat) : List Nat → Except Raise (List LuaValue)
  | [] => .ok []
  | i :: is =>
    match fetch_column row lengths i with
    | .error e => .error e
    | .ok v =>
      match fetch_values row lengths is with
      | .error e => .error e
      | .ok vs => .ok (v :: vs)

/-- The branch of `cur_fetch` taken when argument 2 is the table at address
`t`; `opts` is the mode string. -/
def cur_fetch_table (W : World) (cur : cur_data) (t : Nat) (opts : List Char)
    (row : MYSQL_ROW) (lengths : List Nat) (A : Answers) : Outcome cur_data :=
  let cols := List.range cur.numcols.toNat
  let step1 : Except Raise Unit × World :=
    if strchr opts 'n' then fetch_numeric row lengths t cols W else (.ok (), W)
  match step1 with
  | (.error e, W) => ⟨.error e, cur, W⟩
  | (.ok _, W) =>
    if strchr opts 'a' then
      let step2 : Except Raise Unit × cur_data × World :=
        if cur.colnames = LUA_NOREF then create_colinfo W cur A else (.ok (), cur, W)
      match step2 with
      | (.error e, cur, W) => ⟨.error e, cur, W⟩
      | (.ok _, cur, W) =>
        match fetch_alpha row lengths t (registry_get W cur.colnames) cols W with
        | (.error e, W) => ⟨.error e, cur, W⟩
        | (.ok _, W) => ⟨.ok [.table t], cur, W⟩
    else ⟨.ok [.table t], cur, W⟩

/-- Get another row of the given cursor (`cur_fetch`).  `arg2` is the second
argument (nil when absent), `arg3` the mode string when one is given. -/
def cur_fetch (H : luasql_h) (W : World) (cur : cur_data) (arg2 : LuaValue)
    (arg3 : Option String) (A : Answers) : Outcome cur_data :=
  match getcursor cur with
  | .error e => ⟨.error e, cur, W⟩
  | .ok _ =>
    let res := cur.my_res
    let W := W.call (.mysql_fetch_row res)
    match A.mysql_fetch_row with
    | none =>
      let (cur, W) := cur_nullify W cur
      ⟨.ok [.nil], cur, W⟩
    | some row =>
      let W := W.call (.mysql_fetch_lengths res)
      let lengths := A.mysql_fetch_lengths
      match arg2 with
      | .table t => cur_fetch_table W cur t (luaL_optstring arg3 "n") row lengths A
      | _ =>
        if cur.numcols ≤ W.stack_free then
          match fetch_values row lengths (List.range cur.numcols.toNat) with
          | .error e => ⟨.error e, cur, W⟩
          | .ok vs =>
            if 0 ≤ cur.numcols then ⟨.ok vs, cur, W⟩
            else ⟨.error (.undefined "negative number of results"), cur, W⟩
        else
          ⟨.error (.error ("stack overflow (" ++ H.LUASQL_PREFIX ++ "too many columns)")), cur, W⟩

/-- Get the next result from multiple statements (`cur_next_result`). -/
def cur_next_result (W : World) (cur : cur_data) (A : Answers) : Outcome cur_data :=
  match getcursor cur with
  | .error e => ⟨.error e, cur, W⟩
  | .ok _ =>
    let con := cur.my_conn
    let W := W.call (.mysql_more_results con)
    if A.mysql_more_results then
      let W := W.call (.mysql_next_result con)
      let status := A.mysql_next_result
      if status = 0 then
        let W := W.call (.mysql_free_result cur.my_res)
        let W := W.call (.mysql_store_result con)
        let cur := { cur with my_res := A.mysql_store_result }
        if cur.my_res ≠ 0 then ⟨.ok [.boolean true], cur, W⟩
        else
          let W := W.call (.mysql_errno con)
          let W := W.call (.mysql_error con)
          ⟨.ok [.boolean false, .integer A.mysql_errno, .string A.mysql_error], cur, W⟩
      else
        let name :=
          if status = CR_COMMANDS_OUT_OF_SYNC then "CR_COMMANDS_OUT_OF_SYNC"
          else if status = CR_SERVER_GONE_ERROR then "CR_SERVER_GONE_ERROR"
          else if status = CR_SERVER_LOST then "CR_SERVER_LOST"
          else if status = CR_UNKNOWN_ERROR then "CR_UNKNOWN_ERROR"
          else "Unknown"
        ⟨.ok [.boolean false, .integer status, .string name], cur, W⟩
    else ⟨.ok [.boolean false, .integer (-1)], cur, W⟩

/-- Check if next result is available (`cur_has_next_result`). -/
def cur_has_next_result (W : World) (cur : cur_data) (A : Answers) : Outcome cur_data :=
  match getcursor cur with
  | .error e => ⟨.error e, cur, W⟩
  | .ok _ =>
    let W := W.call (.mysql_more_results cur.my_conn)
    ⟨.ok [.boolean A.mysql_more_results], cur, W⟩

/-- Cursor object collector function (`cur_gc`). -/
def cur_gc (W : World) (cur : cur_data) : Outcome cur_data :=
  if cur.closed = 0 then
    let (cur, W) := cur_nullify W cur
    ⟨.ok [], cur, W⟩
  else ⟨.ok [], cur, W⟩

/-- Close the cursor on top of the stack (`cur_close`). -/
def cur_close (W : World) (cur : cur_data) : Outcome cur_data :=
  if cur.closed ≠ 0 then
    ⟨.ok [.boolean false, .string "cursor is already closed"], cur, W⟩
  else
    let (cur, W) := cur_nullify W cur
    ⟨.ok [.boolean true], cur, W⟩

/-- The member of `cur_data` that the macro `pushtable` names. -/
inductive ColInfo where
  | colnames
  | coltypes
  deriving DecidableEq, Repr

/-- Read the member of the cursor selected by `m`. -/
def ColInfo.ref (m : ColInfo) (cur : cur_data) : Int :=
  match m with
  | .colnames => cur.colnames
  | .coltypes => cur.coltypes

/-- Pushes a column information table on top of the stack (`_pushtable`). -/
def _pushtable (W : World) (cur : cur_data) (m : ColInfo) (A : Answers) :
    Except Raise LuaValue × cur_data × World :=
  let step : Except Raise Unit × cur_data × World :=
    if m.ref cur = LUA_NOREF then create_colinfo W cur A else (.ok (), cur, W)
  match step with
  | (.error e, cur, W) => (.error e, cur, W)
  | (.ok _, cur, W) => (.ok (registry_get W (m.ref cur)), cur, W)

/-- Return the list of field names (`cur_getcolnames`). -/
def cur_getcolnames (W : World) (cur : cur_data) (A : Answers) : Outcome cur_data :=
  match getcursor cur with
  | .error e => ⟨.error e, cur, W⟩
  | .ok _ =>
    match _pushtable W cur .colnames A with
    | (.error e, cur, W) => ⟨.error e, cur, W⟩
    | (.ok v, cur, W) => ⟨.ok [v], cur, W⟩

/-- Return the list of field types (`cur_getcoltypes`). -/
def cur_getcoltypes (W : World) (cur : cur_data) (A : Answers) : Outcome cur_data :=
  match getcursor cur with
  | .error e => ⟨.error e, cur, W⟩
  | .ok _ =>
    match _pushtable W cur .coltypes A with
    | (.error e, cur, W) => ⟨.error e, cur, W⟩
    | (.ok v, cur, W) => ⟨.ok [v], cur, W⟩

/-- Push the number of rows (`cur_numrows`).  The count goes through
`lua_Number`, which is exact below `2^53`. -/
def cur_numrows (W : World) (cur : cur_data) (A : Answers) : Outcome cur_data :=
  match getcursor cur with
  | .error e => ⟨.error e, cur, W⟩
  | .ok _ =>
    let W := W.call (.mysql_num_rows cur.my_res)
    ⟨.ok [.integer A.mysql_num_rows], cur, W⟩

/-- Seeks to an arbitrary row in a query result set (`cur_seek`); `rownum` is
the integer argument. -/
def cur_seek (W : World) (cur : cur_data) (rownum : Int) : Outcome cur_data :=
  match getcursor cur with
  | .error e => ⟨.error e, cur, W⟩
  | .ok _ =>
    let W := W.call (.mysql_data_seek cur.my_res rownum)
    ⟨.ok [], cur, W⟩

/-- Create a new Cursor object and push it on top of the stack
(`create_cursor`); `conn` is the value at the stack index of the connection. -/
def create_cursor (W : World) (my_conn : Nat) (conn : LuaValue) (result : Nat) (cols : Int) :
    LuaValue × cur_data × World :=
  let ud := LuaValue.userdata W.udata
  let W := { W with udata := W.udata + 1 }
  let cur : cur_data :=
    { closed := 0, conn := LUA_NOREF, numcols := cols, colnames := LUA_NOREF,
      coltypes := LUA_NOREF, my_res := result, my_conn := my_conn }
  let (r, W) := luaL_ref W conn
  (ud, { cur with conn := r }, W)

/-- A call of one of the methods that `create_metatables` registers for
cursors, with its arguments and the answers the client library gives. -/
inductive CursorOp where
  | gc
  | close
  | getcolnames (A : Answers)
  | getcoltypes (A : Answers)
  | fetch (arg2 : LuaValue) (arg3 : Option String) (A : Answers)
  | numrows (A : Answers)
  | seek (rownum : Int)
  | nextresult (A : Answers)
  | hasnextresult (A : Answers)

/-- The function `cursor_methods` binds to the method (`__gc` and `__close`
are both `cur_gc`). -/
def CursorOp.run (H : luasql_h) (op : CursorOp) (W : World) (cur : cur_data) : Outcome cur_data :=
  match op with
  | .gc => cur_gc W cur
  | .close => cur_close W cur
  | .getcolnames A => cur_getcolnames W cur A
  | .getcoltypes A => cur_getcoltypes W cur A
  | .fetch arg2 arg3 A => cur_fetch H W cur arg2 arg3 A
  | .numrows A => cur_numrows W cur A
  | .seek rownum => cur_seek W cur rownum
  | .nextresult A => cur_next_result W cur A
  | .hasnextresult A => cur_has_next_result W cur A

/-- Apply a sequence of method calls to a cursor, one after the other; the
result is the cursor and the world after the last call. -/
def CursorOp.runAll (H : luasql_h) : List CursorOp → World → cur_data → cur_data × World
  | [], W, cur => (cur, W)
  | op :: ops, W, cur => CursorOp.runAll H ops (op.run H W cur).W (op.run H W cur).obj

/-! ## Statement cursors -/

/-- The C structure `stmt_cur_data`.  `stmt`, `bind` and `my_res` are
pointers; `fields` is the array the client library returned; each entry of
`row_data` is the block `malloc` gave for a column, with its contents, or
`none` once the block has been freed. -/
structure stmt_cur_data where
  closed : Int
  stmt : Nat
  num_fields : Int
  bind : Nat
  my_res : Nat
  fields : List MYSQL_FIELD
  row_data : List (Option (List Char))
  lengths : List Nat
  is_null : List Bool
  stmt_ref : Int
  deriving DecidableEq, Repr

/-- The function `stmt_cur_nullify`, for a pointer that is not `NULL`. -/
def stmt_cur_nullify (W : World) (cur : stmt_cur_data) : stmt_cur_data × World :=
  if cur.closed ≠ 0 then (cur, W)
  else
    let cur1 : stmt_cur_data := { cur with closed := 1 }
    let cur2 : stmt_cur_data := { cur1 with
      row_data := cur1.row_data.enum.map
        (fun e => if (e.1 : Int) < cur1.num_fields then none else e.2) }
    if cur2.my_res ≠ 0 then (cur2, W.call (.mysql_free_result cur2.my_res))
    else (cur2, W)

/-- The collector of statement cursors (`stmt_cur_gc`). -/
def stmt_cur_gc (W : World) (cur : stmt_cur_data) : Outcome stmt_cur_data :=
  if cur.closed = 0 then
    let (cur, W) := stmt_cur_nullify W cur
    ⟨.ok [], cur, W⟩
  else ⟨.ok [], cur, W⟩

/-- Close the cursor on top of the stack (`stmt_cur_close`). -/
def stmt_cur_close (W : World) (cur : stmt_cur_data) : Outcome stmt_cur_data :=
  if cur.closed ≠ 0 then
    ⟨.ok [.boolean false, .string "cursor is already closed"], cur, W⟩
  else
    let (cur, W) := stmt_cur_nullify W cur
    ⟨.ok [.boolean true], cur, W⟩

/-- The bytes of the C string that starts a block: those before the first
zero byte. -/
def c_bytes (b : List Char) : List Char := b.takeWhile (fun c => c ≠ Char.ofNat 0)

/-- `lua_settable` on the table at address `t`, for a table without a
metatable (the driver only uses it on tables it has just created): the raw
write. -/
def lua_settable (W : World) (t : Nat) (k v : LuaValue) : Except Raise Unit × World :=
  lua_rawset W t k v

/-- What `mysql_stmt_fetch` does, seen from the driver: the status it returns
and, through the pointers that `create_stmt_cursor` bound, the bytes it writes
at the start of each column buffer and the contents it leaves in the arrays
`lengths` and `is_null`. -/
structure stmt_fetch_answer where
  status : Int
  written : List (List Char)
  lengths : List Nat
  is_null : List Bool
  deriving DecidableEq, Repr

/-- A block after the client library wrote `written` at its start: the block
keeps its size, the library writes at most `buffer_length` bytes, which is the
size of the block. -/
def write_block (old written : List Char) : List Char :=
  (written ++ old.drop written.length).take old.length

/-- The column buffers after the client library wrote to them; a block that
was freed stays freed. -/
def write_blocks : List (Option (List Char)) → List (List Char) → List (Option (List Char))
  | [], _ => []
  | b :: bs, [] => b :: bs
  | b :: bs, w :: ws => b.map (fun old => write_block old w) :: write_blocks bs ws

/-- The statement cursor after `mysql_stmt_fetch` wrote through the bound
pointers. -/
def stmt_fetch_write (cur : stmt_cur_data) (F : stmt_fetch_answer) : stmt_cur_data :=
  { cur with row_data := write_blocks cur.row_data F.written, lengths := F.lengths,
             is_null := F.is_null }

/-- The key that the loop of `stmt_cur_fetch` pushes for column `i`. -/
def stmt_cur_fetch_key (opts : List Char) (cur : stmt_cur_data) (i : Nat) :
    Except Raise LuaValue :=
  if strchr opts 'n' then .ok (.integer ((i : Int) + 1))
  else
    match cur.fields[i]? with
    | some f => .ok (.string f.name)
    | none => .error (.undefined "read past the end of the fields")

/-- The value that the loop of `stmt_cur_fetch` pushes for column `i`, with
the cursor after the write of the terminator: nil when `is_null[i]` is set,
else the C string at the start of the column buffer once
`row_data[i][lengths[i]]` has been set to zero. -/
def stmt_cur_fetch_value (cur : stmt_cur_data) (i : Nat) :
    Except Raise LuaValue × stmt_cur_data :=
  match cur.is_null[i]? with
  | none => (.error (.undefined "read past the end of is_null"), cur)
  | some true => (.ok .nil, cur)
  | some false =>
    match cur.lengths[i]?, cur.row_data[i]? with
    | some len, some (some block) =>
      if len < block.length then
        (.ok (.string (String.mk (c_bytes (block.set len (Char.ofNat 0))))),
          { cur with row_data := cur.row_data.set i (some (block.set len (Char.ofNat 0))) })
      else (.error (.undefined "write past the end of the column buffer"), cur)
    | some _, some none => (.error (.undefined "use of a freed column buffer"), cur)
    | _, _ => (.error (.undefined "read past the end of lengths or row_data"), cur)

/-- The body of the loop of `stmt_cur_fetch` for column `i`; `t` is the
address of the new table. -/
def stmt_cur_fetch_column (opts : List Char) (t i : Nat) (cur : stmt_cur_data) (W : World) :
    Except Raise Unit × stmt_cur_data × World :=
  match stmt_cur_fetch_key opts cur i with
  | .error e => (.error e, cur, W)
  | .ok k =>
    match stmt_cur_fetch_value cur i with
    | (.error e, cur) => (.error e, cur, W)
    | (.ok v, cur) =>
      match lua_settable W t k v with
      | (.error e, W) => (.error e, cur, W)
      | (.ok _, W) => (.ok (), cur, W)

/-- The loop of `stmt_cur_fetch`. -/
def stmt_cur_fetch_loop (opts : List Char) (t : Nat) :
    List Nat → stmt_cur_data → World → Except Raise Unit × stmt_cur_data × World
  | [], cur, W => (.ok (), cur, W)
  | i :: is, cur, W =>
    match stmt_cur_fetch_column opts t i cur W with
    | (.error e, cur, W) => (.error e, cur, W)
    | (.ok _, cur, W) => stmt_cur_fetch_loop opts t is cur W

/-- The statement cursor method `fetch` (`stmt_cur_fetch`); `arg2` is the
mode string when one is given. -/
def stmt_cur_fetch (W : World) (cur : stmt_cur_data) (arg2 : Option String)
    (F : stmt_fetch_answer) : Outcome stmt_cur_data :=
  let W := W.call (.mysql_stmt_fetch cur.stmt)
  let cur := stmt_fetch_write cur F
  if F.status ≠ 0 then
    let (cur, W) := stmt_cur_nullify W cur
    ⟨.ok [.nil], cur, W⟩
  else
    let opts := luaL_optstring arg2 "n"
    let (t, W) := lua_newtable W
    match stmt_cur_fetch_loop opts t (List.range cur.num_fields.toNat) cur W with
    | (.error e, cur, W) => ⟨.error e, cur, W⟩
    | (.ok _, cur, W) => ⟨.ok [.table t], cur, W⟩

/-- The loop of `stmt_cur_fields`. -/
def stmt_cur_fields_loop (cur : stmt_cur_data) (t : Nat) :
    List Nat → World → Except Raise Unit × World
  | [], W => (.ok (), W)
  | i :: is, W =>
    match cur.fields[i]? with
    | none => (.error (.undefined "read past the end of the fields"), W)
    | some f =>
      match lua_settable W t (.integer ((i : Int) + 1)) (.string f.name) with
      | (.error e, W) => (.error e, W)
      | (.ok _, W) => stmt_cur_fields_loop cur t is W

/-- The statement cursor method `fields` (`stmt_cur_fields`). -/
def stmt_cur_fields (W : World) (cur : stmt_cur_data) : Outcome stmt_cur_data :=
  let (t, W) := lua_newtable W
  match stmt_cur_fields_loop cur t (List.range cur.num_fields.toNat) W with
  | (.error e, W) => ⟨.error e, cur, W⟩
  | (.ok _, W) => ⟨.ok [.table t], cur, W⟩

/-- The function `create_stmt_cursor`.  `self` is the value at stack index 1,
`bind_fails` tells whether `mysql_stmt_bind_result` returns non-zero.  What
new memory holds is indeterminate: `closed0` stands for the member `closed`
of the new userdata, `fill` for every byte of a new column buffer, and the
new arrays `lengths` and `is_null` are taken to hold zeros. -/
def create_stmt_cursor (W : World) (self : LuaValue) (stmt result : Nat) (num_fields : Int)
    (fields : List MYSQL_FIELD) (bind_fails : Bool) (closed0 : Int) (fill : Char) :
    Outcome stmt_cur_data :=
  let ud := LuaValue.userdata W.udata
  let W := { W with udata := W.udata + 1 }
  let cur : stmt_cur_data :=
    { closed := closed0, stmt := stmt, num_fields := num_fields, bind := 0, my_res := result,
      fields := fields,
      row_data := (List.range num_fields.toNat).map (fun _ => some (List.replicate 1024 fill)),
      lengths := List.replicate num_fields.toNat 0,
      is_null := List.replicate num_fields.toNat false,
      stmt_ref := LUA_NOREF }
  let W := W.call (.mysql_stmt_bind_result stmt)
  if bind_fails then
    let (cur, W) := stmt_cur_nullify W cur
    ⟨.error (.error "Couldn't bind stmt with result"), cur, W⟩
  else
    let cur := { cur with closed := 0 }
    let (r, W) := luaL_ref W self
    ⟨.ok [ud], { cur with stmt_ref := r }, W⟩

/-! ## Connections and environments -/

/-- The C structure `env_data`. -/
structure env_data where
  closed : Int
  deriving DecidableEq, Repr

/-- The C structure `conn_data`.  `my_conn` is a pointer. -/
structure conn_data where
  closed : Int
  env : Int
  my_conn : Nat
  deriving DecidableEq, Repr

/-- Check for valid connection (`getconnection`). -/
def getconnection (conn : conn_data) : Except Raise conn_data :=
  if conn.closed ≠ 0 then .error (.argerror 1 "connection is closed") else .ok conn

/-- The collector of connections (`conn_gc`). -/
def conn_gc (W : World) (conn : conn_data) : Outcome conn_data :=
  if conn.closed = 0 then
    let conn := { conn with closed := 1 }
    let W := luaL_unref W conn.env
    let W := W.call (.mysql_close conn.my_conn)
    ⟨.ok [], conn, W⟩
  else ⟨.ok [], conn, W⟩

/-- Close a Connection object (`conn_close`). -/
def conn_close (W : World) (conn : conn_data) : Outcome conn_data :=
  if conn.closed ≠ 0 then
    ⟨.ok [.boolean false, .string "Connection is already closed"], conn, W⟩
  else
    let conn := { conn with closed := 1 }
    ⟨.ok [.boolean true], conn, W⟩

/-- Execute an SQL statement (`conn_execute`).  `self` is the address of the
connection userdata (stack index 1), `statement` the string argument.  The
object of the outcome is the cursor created, when one is. -/
def conn_execute (H : luasql_h) (W : World) (conn : conn_data) (self : Nat)
    (statement : String) (A : Answers) : Outcome (Option cur_data) :=
  match getconnection conn with
  | .error e => ⟨.error e, none, W⟩
  | .ok _ =>
    let W := W.call (.mysql_real_query conn.my_conn statement)
    if A.mysql_real_query ≠ 0 then
      let W := W.call (.mysql_error conn.my_conn)
      ⟨.ok (H.luasql_failmsg "error executing query. MySQL: " A.mysql_error), none, W⟩
    else
      let W := W.call (.mysql_store_result conn.my_conn)
      let res := A.mysql_store_result
      let W := W.call (.mysql_field_count conn.my_conn)
      let num_cols := A.mysql_field_count
      if res ≠ 0 then
        let (ud, cur, W) := create_cursor W conn.my_conn (.userdata self) res (to_int num_cols)
        ⟨.ok [ud], some cur, W⟩
      else if num_cols = 0 then
        let W := W.call (.mysql_affected_rows conn.my_conn)
        ⟨.ok [.integer (to_long A.mysql_affected_rows)], none, W⟩
      else
        let W := W.call (.mysql_error conn.my_conn)
        ⟨.ok (H.luasql_failmsg "error retrieving result. MySQL: " A.mysql_error), none, W⟩

/-- The collector of environments (`env_gc`). -/
def env_gc (W : World) (env : env_data) : Outcome env_data :=
  if env.closed = 0 then ⟨.ok [], { env with closed := 1 }, W⟩
  else ⟨.ok [], env, W⟩

/-- Close environment object (`env_close`). -/
def env_close (W : World) (env : env_data) : Outcome env_data :=
  if env.closed ≠ 0 then
    ⟨.ok [.boolean false, .string "env is already closed"], env, W⟩
  else
    let W := W.call .mysql_library_end
    let env := { env with closed := 1 }
    ⟨.ok [.boolean true], env, W⟩

/-! ## Prepared statements -/

/-- Where the member `buffer` of a `MYSQL_BIND` points: nowhere, or at a
member of the entry `index` of `params_data` (for `str`, at the block that
member points to). -/
inductive Buffer where
  | null
  | integer (index : Nat)
  | number (index : Nat)
  | boolean (index : Nat)
  | str (index : Nat)
  deriving DecidableEq, Repr

/-- The members of `MYSQL_BIND` that the driver writes. -/
structure MYSQL_BIND where
  buffer_type : Nat
  buffer : Buffer
  buffer_length : Nat
  deriving DecidableEq, Repr

/-- An entry of the array `params_data` of `stmt_data`: `integer` is an
`int`, `number` a `double` (its bit pattern), `boolean` a `char`, `str` a
pointer to a block holding a C string (`none` for `NULL`), `size` an
`unsigned long`. -/
structure param_data where
  integer : Int
  number : Nat
  boolean : Int
  str : Option (List Char)
  size : Nat
  deriving DecidableEq, Repr

/-- The C structure `stmt_data`.  `stmt` is a pointer, `num_params` an
`unsigned int`. -/
structure stmt_data where
  closed : Int
  stmt : Nat
  params : List MYSQL_BIND
  num_params : Nat
  conn : Int
  params_data : List param_data
  deriving DecidableEq, Repr

/-- The statement method `bind` (`stmt_bind`).  `arg2` is the integer the
check of argument 2 returns (a 64-bit `lua_Integer`), `arg3` the value to
bind. -/
def stmt_bind (H : luasql_h) (W : World) (stmt : stmt_data) (arg2 : Int) (arg3 : LuaValue)
    (A : Answers) : Outcome stmt_data :=
  let index : Int := to_int (to_long (arg2 - 1))
  if index < 0 ∨ stmt.num_params ≤ to_unsigned index then
    ⟨.error (.error "Invalid parameter index"), stmt, W⟩
  else
    let i := index.toNat
    match stmt.params[i]?, stmt.params_data[i]? with
    | some param, some data =>
      let written : Option (MYSQL_BIND × param_data) :=
        match arg3 with
        | .integer v =>
          some ({ param with buffer_type := MYSQL_TYPE_LONG, buffer := .integer i,
                             buffer_length := 4 },
                { data with integer := to_int v })
        | .number bits =>
          some ({ param with buffer_type := MYSQL_TYPE_DOUBLE, buffer := .number i,
                             buffer_length := 8 },
                { data with number := bits })
        | .string s =>
          some ({ param with buffer_type := MYSQL_TYPE_STRING, buffer := .str i,
                             buffer_length := (c_str s).length },
                { data with str := some (c_str s) })
        | .boolean b =>
          some ({ param with buffer_type := MYSQL_TYPE_TINY, buffer := .boolean i,
                             buffer_length := 1 },
                { data with boolean := if b then 1 else 0 })
        | .nil => some ({ param with buffer_type := MYSQL_TYPE_NULL }, data)
        | _ => none
      match written with
      | none =>
        ⟨.ok (H.luasql_faildirect "error executing query. Invalid parameter type"), stmt, W⟩
      | some (param, data) =>
        let stmt := { stmt with params := stmt.params.set i param,
                                params_data := stmt.params_data.set i data }
        let W := W.call (.mysql_stmt_bind_param stmt.stmt)
        if A.mysql_stmt_bind_param then
          let W := W.call (.mysql_stmt_error stmt.stmt)
          let W := W.call (.printf ("[ERROR] mysql_stmt_bind_param() failed: "
            ++ A.mysql_stmt_error ++ "\n"))
          let W := W.call (.mysql_stmt_error stmt.stmt)
          ⟨.ok (H.luasql_failmsg "error executing query (stmt_bind_param). MySQL: "
            A.mysql_stmt_error), stmt, W⟩
        else ⟨.ok [.boolean true], stmt, W⟩
    | _, _ => ⟨.error (.undefined "access past the end of the parameter arrays"), stmt, W⟩

/-- The Lua value `pushvalue` is meant to produce for a cell of a row and its
length: nil for `NULL`, else the string of the first `n` bytes. -/
def cell_value (cell : Option (List Char)) (n : Nat) : LuaValue :=
  match cell with
  | none => .nil
  | some b => .string (String.mk (b.take n))

/-! ## Vocabulary of the statements and concrete inputs -/

/-- A row of `n` columns as the client library hands it out: both arrays have
`n` entries, every length is an `unsigned long`, and at least that many bytes
are readable at every pointer that is not `NULL`. -/
def row_ok (n : Nat) (row : MYSQL_ROW) (lengths : List Nat) : Prop :=
  row.length = n ∧ lengths.length = n ∧
    ∀ i, i < n → lengths.getD i 0 < 2 ^ 64 ∧
      ∀ b, row.getD i none = some b → lengths.getD i 0 ≤ b.length

/-- Raw read of key `k` of the table at address `t`. -/
def World.rawget (W : World) (t : Nat) (k : LuaValue) : LuaValue :=
  (W.tables.getD t []).rawget k

/-- The table after a sequence of raw writes, first write first. -/
def LuaTable.write_all (T : LuaTable) (ws : List (LuaValue × LuaValue)) : LuaTable :=
  ws.foldl (fun T w => T.rawset w.1 w.2) T

/-- The world after a sequence of raw writes to the table at address `t`. -/
def World.write_all (W : World) (t : Nat) (ws : List (LuaValue × LuaValue)) : World :=
  { W with tables := W.tables.set t ((W.tables.getD t []).write_all ws) }


/-- The column names the cursor uses are those of its result: the client
library describes the result of the cursor by `n` fields whose names are
`names`, and either no column information is cached yet, or the cached table
of names, which is not the table `t` itself, holds these names at the keys
`1..n`. -/
def names_known (W : World) (cur : cur_data) (A : Answers) (n t : Nat) (names : List String) :
    Prop :=
  A.mysql_fetch_fields.length = n
  ∧ A.mysql_fetch_fields.map (fun f => f.name) = names
  ∧ (cur.colnames = LUA_NOREF
    ∨ (cur.colnames ≠ LUA_NOREF ∧ ∃ a, registry_get W cur.colnames = .table a ∧ a ≠ t
        ∧ ∀ i, i < n → W.rawget a (.integer ((i : Int) + 1)) = .string (names.getD i "")))

/-- The writes of `cur_fetch` to numerical indices, in order. -/
def numeric_writes (n : Nat) (row : MYSQL_ROW) (lengths : List Nat) :
    List (LuaValue × LuaValue) :=
  (List.range n).map (fun (i : Nat) =>
    (.integer ((i : Int) + 1), cell_value (row.getD i none) (lengths.getD i 0)))

/-- The writes of `cur_fetch` to alphanumerical indices, in order. -/
def alpha_writes (n : Nat) (row : MYSQL_ROW) (lengths : List Nat) (names : List String) :
    List (LuaValue × LuaValue) :=
  (List.range n).map (fun (i : Nat) =>
    (.string (names.getD i ""), cell_value (row.getD i none) (lengths.getD i 0)))

/-- An instance of the helpers, used to evaluate the driver on concrete
inputs: the prefix is "LuaSQL: " and a failure return is nil followed by the
prefix and the message. -/
def example_luasql : luasql_h :=
  { LUASQL_PREFIX := "LuaSQL: ",
    luasql_failmsg := fun err m => [.nil, .string ("LuaSQL: " ++ err ++ m)],
    luasql_faildirect := fun err => [.nil, .string ("LuaSQL: " ++ err)] }

/-- A world with one table, `{old = 7}`, at address 0, one registry slot that
holds the connection userdata, and room for 20 more stack slots. -/
def example_world : World :=
  { tables := [[(.string "old", .integer 7)]], registry := [(1, .userdata 0)], udata := 1,
    stack_free := 20, trace := [] }

/-- An open cursor with two columns and no cached column information. -/
def example_cursor : cur_data :=
  { closed := 0, conn := 1, numcols := 2, colnames := LUA_NOREF, coltypes := LUA_NOREF,
    my_res := 100, my_conn := 200 }

/-- A row of two columns: three bytes with a zero byte in the middle (and the
terminator after them), and `NULL`. -/
def example_row : MYSQL_ROW := [some ['a', Char.ofNat 0, 'b', Char.ofNat 0], none]

/-- Answers of the client library: the row `example_row`, described by the
fields `id` and `name`. -/
def example_answers : Answers :=
  { mysql_fetch_row := some example_row,
    mysql_fetch_lengths := [3, 0],
    mysql_fetch_fields := [⟨"id", 3, 11⟩, ⟨"name", 253, 255⟩],
    mysql_num_rows := 1,
    mysql_more_results := false,
    mysql_next_result := -1,
    mysql_store_result := 0,
    mysql_errno := 0,
    mysql_error := "",
    mysql_real_query := 0,
    mysql_field_count := 2,
    mysql_affected_rows := 0,
    mysql_stmt_bind_param := false,
    mysql_stmt_error := "" }

/-- The cursor methods that start with `getcursor`. -/
def CursorOp.guarded : CursorOp → Bool
  | .gc => false
  | .close => false
  | _ => true


/-- Answers of the client library when the rows are exhausted. -/
def example_answers_end : Answers := { example_answers with mysql_fetch_row := none }


/-- An open connection whose environment reference is the registry slot 1 of
`example_world`. -/
def example_conn : conn_data := { closed := 0, env := 1, my_conn := 200 }

/-- Answers of the client library to a query that stores a result set of two
columns. -/
def example_answers_query : Answers := { example_answers with mysql_store_result := 100 }

/-- A prepared statement with one parameter, nothing bound yet. -/
def example_stmt : stmt_data :=
  { closed := 0, stmt := 300, params := [⟨0, .null, 0⟩], num_params := 1, conn := 1,
    params_data := [⟨0, 0, 0, none, 0⟩] }

/-- Answers of the client library when a second result set, of one column
named `total`, follows: `mysql_next_result` succeeds and the result is stored
under the handle 101; its rows have one cell. -/
def example_answers_next : Answers :=
  { example_answers with
    mysql_more_results := true,
    mysql_next_result := 0,
    mysql_store_result := 101,
    mysql_field_count := 1,
    mysql_fetch_fields := [⟨"total", 8, 20⟩],
    mysql_fetch_row := some [some ['7', Char.ofNat 0]],
    mysql_fetch_lengths := [1] }

/-- The text `sprintf` is asked to write for a field: the label of its type,
cut to 20 bytes, "(", the length as a `long int` in decimal, and ")". -/
def typename_text (f : MYSQL_FIELD) : String :=
  String.mk ((getcolumntype f.type).toList.take 20) ++ "(" ++ toString (to_long f.length) ++ ")"

/-- A statement cursor as `create_stmt_cursor` leaves it for a result of one
column named `bio`: open, with one column buffer of 1024 bytes. -/
def example_stmt_cursor : stmt_cur_data :=
  (create_stmt_cursor example_world (.userdata 0) 300 100 1 [⟨"bio", 253, 1024⟩] false 0 'z').obj

/-- The world after `create_stmt_cursor` made `example_stmt_cursor`. -/
def example_stmt_world : World :=
  (create_stmt_cursor example_world (.userdata 0) 300 100 1 [⟨"bio", 253, 1024⟩] false 0 'z').W

/-- A successful `mysql_stmt_fetch` of a column value of three bytes with a
zero byte in the middle; the client library adds a terminator after them. -/
def example_fetch_zero : stmt_fetch_answer :=
  { status := 0, written := [['a', Char.ofNat 0, 'b', Char.ofNat 0]], lengths := [3],
    is_null := [false] }

/-- A successful `mysql_stmt_fetch` of a column value of three bytes without a
zero byte. -/
def example_fetch_text : stmt_fetch_answer :=
  { status := 0, written := [['a', 'b', 'c', Char.ofNat 0]], lengths := [3],
    is_null := [false] }

/-- A successful `mysql_stmt_fetch` of a column value of exactly 1024 bytes:
it fills the column buffer, nothing is cut, and no terminator is added. -/
def example_fetch_full : stmt_fetch_answer :=
  { status := 0, written := [List.replicate 1024 'x'], lengths := [1024], is_null := [false] }

/-- A `mysql_stmt_fetch` that finds no more rows (`MYSQL_NO_DATA`, 100) and
writes nothing. -/
def example_fetch_end : stmt_fetch_answer :=
  { status := 100, written := [], lengths := [0], is_null := [false] }

/-- The example statement cursor after `stmt_cur_close`. -/
def example_stmt_closed : stmt_cur_data :=
  (stmt_cur_close example_stmt_world example_stmt_cursor).obj

/-- The world after `stmt_cur_close` on the example statement cursor. -/
def example_stmt_closed_world : World :=
  (stmt_cur_close example_stmt_world example_stmt_cursor).W

/-- True for the calls that release something a cursor holds:
`mysql_free_result` and `luaL_unref`. -/
def Call.isRelease : Call → Bool
  | .mysql_free_result _ => true
  | .luaL_unref _ => true
  | _ => false

/-- True for the calls of `luaL_unref`. -/
def Call.isUnref : Call → Bool
  | .luaL_unref _ => true
  | _ => false

/-- The result handle a call of `mysql_free_result` is given. -/
def Call.freed : Call → Option Nat
  | .mysql_free_result h => some h
  | _ => none

/-- The result handle that a method call installs in an open cursor: the one
`mysql_store_result` returns to `nextresult` when there are more results and
`mysql_next_result` returns 0. -/
def CursorOp.stored : CursorOp → Option Nat
  | .nextresult A =>
    if A.mysql_more_results = true ∧ A.mysql_next_result = 0 then some A.mysql_store_result
    else none
  | _ => none

/-- The world `W1` comes from `W` by steps that release nothing: the trace
grew by calls other than `mysql_free_result` and `luaL_unref`, and every
registry slot of `W` is still there. -/
def Quiet (W W1 : World) : Prop :=
  ∃ d, W1.trace = W.trace ++ d ∧ (∀ c ∈ d, c.isRelease = false)
    ∧ ∀ e ∈ W.registry, e ∈ W1.registry

/-- The references of a cursor are told apart: the references to the column
information are not the reference to the connection, and that one, when it is
a slot, is in the registry. -/
def RefInv (cur : cur_data) (W : World) : Prop :=
  cur.colnames ≠ cur.conn ∧ cur.coltypes ≠ cur.conn
    ∧ (0 ≤ cur.conn → ∃ v, (cur.conn, v) ∈ W.registry)

/-- The cursor `cur1` in the world `W1` comes from `cur` in `W` by steps that
release nothing and leave the closed flag, the connection reference and the
result handle as they were. -/
def Keeps (cur : cur_data) (W : World) (cur1 : cur_data) (W1 : World) : Prop :=
  Quiet W W1 ∧ cur1.closed = cur.closed ∧ cur1.conn = cur.conn
    ∧ cur1.my_res = cur.my_res ∧ (RefInv cur W → RefInv cur1 W1)

/-- A sequence of method calls on a cursor: a fetch that finds a row, a
`nextresult` that installs the result 101, `close`, the finalizer, and a
fetch on the closed cursor. -/
def example_ops : List CursorOp :=
  [.fetch .nil none example_answers, .nextresult example_answers_next, .close, .gc,
    .fetch .nil none example_answers]

/-- Answers of the client library for a result whose two columns are both
named `id`, as in a join of two tables on their `id` columns: the row holds
"1" and "2". -/
def example_answers_twin : Answers :=
  { example_answers with
    mysql_fetch_fields := [⟨"id", 3, 11⟩, ⟨"id", 3, 11⟩],
    mysql_fetch_row := some [some ['1', Char.ofNat 0], some ['2', Char.ofNat 0]],
    mysql_fetch_lengths := [1, 1] }

/-- Answers of the client library when a second result set follows whose two
columns are named `total` and `city`: `mysql_next_result` succeeds, the result
is stored under the handle 101, and its row holds "7" and "Rome". -/
def example_answers_renamed : Answers :=
  { example_answers with
    mysql_more_results := true,
    mysql_next_result := 0,
    mysql_store_result := 101,
    mysql_fetch_fields := [⟨"total", 8, 20⟩, ⟨"city", 253, 255⟩],
    mysql_fetch_row := some [some ['7', Char.ofNat 0], some ['R', 'o', 'm', 'e', Char.ofNat 0]],
    mysql_fetch_lengths := [1, 4] }

/-! ## Column type labels -/

theorem getcolumntype_mem (t : Nat) :
    getcolumntype t ∈ ["string", "number", "binary", "date", "datetime", "time",
      "timestamp", "set", "null", "undefined"] := by
  unfold getcolumntype
  split_ifs <;> simp

/-- C1, as stated, fails: no collection of at most four labels holds every
label `getcolumntype` returns; the type codes 253, 0, 249, 10 and 12 already
give five different labels. -/
theorem getcolumntype_more_than_four_labels :
    ¬ ∃ labels : List String, labels.length ≤ 4 ∧ ∀ t : Nat, getcolumntype t ∈ labels := by
  rintro ⟨labels, hlen, hall⟩
  have hsub : (["string", "number", "binary", "date", "datetime"] : List String).toFinset
      ⊆ labels.toFinset := by
    intro l hl
    simp only [List.mem_toFinset, List.mem_cons, List.mem_singleton, List.not_mem_nil,
      or_false] at hl
    rw [List.mem_toFinset]
    rcases hl with h | h | h | h | h
    · have := hall 253; rwa [show getcolumntype 253 = "string" by decide, ← h] at this
    · have := hall 0; rwa [show getcolumntype 0 = "number" by decide, ← h] at this
    · have := hall 249; rwa [show getcolumntype 249 = "binary" by decide, ← h] at this
    · have := hall 10; rwa [show getcolumntype 10 = "date" by decide, ← h] at this
    · have := hall 12; rwa [show getcolumntype 12 = "datetime" by decide, ← h] at this
  have h5 : (["string", "number", "binary", "date", "datetime"] : List String).toFinset.card
      = 5 := by decide
  have hle := Finset.card_le_card hsub
  have hcard := List.toFinset_card_le labels
  omega

/-- C1, amended: over all type codes, the labels `getcolumntype` returns are
exactly ten different strings. -/
theorem getcolumntype_ten_labels :
    ∃ labels : List String, labels.length = 10 ∧ labels.Nodup ∧
      ∀ l : String, l ∈ labels ↔ ∃ t : Nat, getcolumntype t = l := by
  refine ⟨["string", "number", "binary", "date", "datetime", "time",
      "timestamp", "set", "null", "undefined"], rfl, by decide, ?_⟩
  intro l
  constructor
  · intro hl
    simp only [List.mem_cons, List.mem_singleton, List.not_mem_nil, or_false] at hl
    rcases hl with h | h | h | h | h | h | h | h | h | h <;> subst h
    · exact ⟨253, by decide⟩
    · exact ⟨0, by decide⟩
    · exact ⟨249, by decide⟩
    · exact ⟨10, by decide⟩
    · exact ⟨12, by decide⟩
    · exact ⟨11, by decide⟩
    · exact ⟨7, by decide⟩
    · exact ⟨247, by decide⟩
    · exact ⟨6, by decide⟩
    · exact ⟨246, by decide⟩
  · rintro ⟨t, rfl⟩
    exact getcolumntype_mem t

/-- C2: `getcolumntype` is total and is this table: VAR_STRING and STRING
give "string"; DECIMAL, SHORT, LONG, FLOAT, DOUBLE, LONGLONG, INT24, YEAR and
TINY give "number"; the four BLOB codes give "binary"; DATE and NEWDATE give
"date"; DATETIME, TIME, TIMESTAMP give "datetime", "time", "timestamp"; ENUM
and SET give "set"; NULL gives "null"; every other code gives "undefined",
among them NEWDECIMAL, VARCHAR, BIT and JSON. -/
theorem getcolumntype_table :
    (getcolumntype MYSQL_TYPE_VAR_STRING = "string" ∧ getcolumntype MYSQL_TYPE_STRING = "string")
    ∧ (getcolumntype MYSQL_TYPE_DECIMAL = "number" ∧ getcolumntype MYSQL_TYPE_SHORT = "number"
      ∧ getcolumntype MYSQL_TYPE_LONG = "number" ∧ getcolumntype MYSQL_TYPE_FLOAT = "number"
      ∧ getcolumntype MYSQL_TYPE_DOUBLE = "number" ∧ getcolumntype MYSQL_TYPE_LONGLONG = "number"
      ∧ getcolumntype MYSQL_TYPE_INT24 = "number" ∧ getcolumntype MYSQL_TYPE_YEAR = "number"
      ∧ getcolumntype MYSQL_TYPE_TINY = "number")
    ∧ (getcolumntype MYSQL_TYPE_TINY_BLOB = "binary"
      ∧ getcolumntype MYSQL_TYPE_MEDIUM_BLOB = "binary"
      ∧ getcolumntype MYSQL_TYPE_LONG_BLOB = "binary" ∧ getcolumntype MYSQL_TYPE_BLOB = "binary")
    ∧ (getcolumntype MYSQL_TYPE_DATE = "date" ∧ getcolumntype MYSQL_TYPE_NEWDATE = "date")
    ∧ getcolumntype MYSQL_TYPE_DATETIME = "datetime"
    ∧ getcolumntype MYSQL_TYPE_TIME = "time"
    ∧ getcolumntype MYSQL_TYPE_TIMESTAMP = "timestamp"
    ∧ (getcolumntype MYSQL_TYPE_ENUM = "set" ∧ getcolumntype MYSQL_TYPE_SET = "set")
    ∧ getcolumntype MYSQL_TYPE_NULL = "null"
    ∧ (∀ t : Nat,
        t ∉ [MYSQL_TYPE_VAR_STRING, MYSQL_TYPE_STRING, MYSQL_TYPE_DECIMAL, MYSQL_TYPE_SHORT,
          MYSQL_TYPE_LONG, MYSQL_TYPE_FLOAT, MYSQL_TYPE_DOUBLE, MYSQL_TYPE_LONGLONG,
          MYSQL_TYPE_INT24, MYSQL_TYPE_YEAR, MYSQL_TYPE_TINY, MYSQL_TYPE_TINY_BLOB,
          MYSQL_TYPE_MEDIUM_BLOB, MYSQL_TYPE_LONG_BLOB, MYSQL_TYPE_BLOB, MYSQL_TYPE_DATE,
          MYSQL_TYPE_NEWDATE, MYSQL_TYPE_DATETIME, MYSQL_TYPE_TIME, MYSQL_TYPE_TIMESTAMP,
          MYSQL_TYPE_ENUM, MYSQL_TYPE_SET, MYSQL_TYPE_NULL] →
        getcolumntype t = "undefined")
    ∧ (getcolumntype MYSQL_TYPE_NEWDECIMAL = "undefined"
      ∧ getcolumntype MYSQL_TYPE_VARCHAR = "undefined"
      ∧ getcolumntype MYSQL_TYPE_BIT = "undefined"
      ∧ getcolumntype MYSQL_TYPE_JSON = "undefined") := by
  refine ⟨by decide, by decide, by decide, by decide, by decide, by decide, by decide,
    by decide, by decide, ?_, by decide⟩
  intro t ht
  simp only [List.mem_cons, List.mem_singleton, List.not_mem_nil, or_false, not_or] at ht
  obtain ⟨h1, h2, h3, h4, h5, h6, h7, h8, h9, h10, h11, h12, h13, h14, h15, h16, h17, h18,
    h19, h20, h21, h22, h23⟩ := ht
  unfold getcolumntype
  simp [h1, h2, h3, h4, h5, h6, h7, h8, h9, h10, h11, h12, h13, h14, h15, h16, h17, h18,
    h19, h20, h21, h22, h23]

/-! ## Fetching a row -/

theorem to_size_t_to_long (n : Nat) (h : n < 2 ^ 64) : to_size_t (to_long (n : Int)) = n := by
  unfold to_long long_of_bits to_size_t
  norm_num at h ⊢
  split_ifs <;> omega

theorem fetch_column_ok (row : MYSQL_ROW) (lengths : List Nat) (i n : Nat)
    (cell : Option (List Char)) (hr : row[i]? = some cell) (hl : lengths[i]? = some n)
    (hn : n < 2 ^ 64) (hb : ∀ b, cell = some b → n ≤ b.length) :
    fetch_column row lengths i = .ok (cell_value cell n) := by
  unfold fetch_column
  rw [hr, hl]
  cases cell with
  | none => rfl
  | some b =>
    simp only [pushvalue, cell_value, lua_pushlstring, to_size_t_to_long n hn]
    rw [if_pos (hb b rfl)]

theorem fetch_column_of_row_ok (n : Nat) (row : MYSQL_ROW) (lengths : List Nat)
    (h : row_ok n row lengths) (i : Nat) (hi : i < n) :
    fetch_column row lengths i = .ok (cell_value (row.getD i none) (lengths.getD i 0)) := by
  obtain ⟨h1, h2, h3⟩ := h
  have hr : row[i]? = some (row.getD i none) := by
    rw [List.getD_eq_getElem?_getD, List.getElem?_eq_getElem (by omega)]; rfl
  have hl : lengths[i]? = some (lengths.getD i 0) := by
    rw [List.getD_eq_getElem?_getD, List.getElem?_eq_getElem (by omega)]; rfl
  exact fetch_column_ok row lengths i _ _ hr hl (h3 i hi).1 (h3 i hi).2

theorem fetch_values_of_row_ok (n : Nat) (row : MYSQL_ROW) (lengths : List Nat)
    (h : row_ok n row lengths) (cols : List Nat) (hc : ∀ i ∈ cols, i < n) :
    fetch_values row lengths cols
      = .ok (cols.map (fun i => cell_value (row.getD i none) (lengths.getD i 0))) := by
  induction cols with
  | nil => rfl
  | cons i cols ih =>
    have hi : i < n := hc i (List.mem_cons_self _ _)
    have ih2 := ih (fun j hj => hc j (List.mem_cons_of_mem _ hj))
    simp only [fetch_values, fetch_column_of_row_ok n row lengths h i hi, ih2, List.map_cons]


theorem cell_value_eq_nil_iff (cell : Option (List Char)) (n : Nat) :
    cell_value cell n = .nil ↔ cell = none := by
  cases cell <;> simp [cell_value]

/-- C3: on an open cursor with `n` columns, when the client library returns a
row (of `n` columns, with its lengths) and argument 2 is not a table,
`cur_fetch` returns exactly `n` values in column order; value `i` is nil if
and only if `row[i]` is `NULL`, and otherwise it is the string made of the
first `lengths[i]` bytes at `row[i]`, which has exactly `lengths[i]` bytes
whatever those bytes are.  The cursor is left as it was. -/
theorem cur_fetch_returns_row_values (H : luasql_h) (W : World) (cur : cur_data)
    (arg2 : LuaValue) (arg3 : Option String) (A : Answers) (row : MYSQL_ROW) (n : Nat)
    (hopen : cur.closed = 0) (hcols : cur.numcols = (n : Int))
    (harg : ∀ t, arg2 ≠ .table t)
    (hrow : A.mysql_fetch_row = some row)
    (hok : row_ok n row A.mysql_fetch_lengths)
    (hstack : n ≤ W.stack_free) :
    ∃ vs : List LuaValue,
      (cur_fetch H W cur arg2 arg3 A).ret = .ok vs
      ∧ (cur_fetch H W cur arg2 arg3 A).obj = cur
      ∧ vs.length = n
      ∧ ∀ i, i < n → ∃ v, vs[i]? = some v
          ∧ (v = .nil ↔ row.getD i none = none)
          ∧ ∀ b, row.getD i none = some b →
              v = .string (String.mk (b.take (A.mysql_fetch_lengths.getD i 0)))
              ∧ (String.mk (b.take (A.mysql_fetch_lengths.getD i 0))).length
                  = A.mysql_fetch_lengths.getD i 0 := by
  have hvals := fetch_values_of_row_ok n row A.mysql_fetch_lengths hok (List.range n)
    (fun i hi => List.mem_range.mp hi)
  have hret : cur_fetch H W cur arg2 arg3 A
      = ⟨.ok ((List.range n).map
          (fun i => cell_value (row.getD i none) (A.mysql_fetch_lengths.getD i 0))), cur,
          (W.call (.mysql_fetch_row cur.my_res)).call (.mysql_fetch_lengths cur.my_res)⟩ := by
    unfold cur_fetch
    simp only [getcursor, hopen, hrow]
    cases arg2 <;> simp_all [World.call]
  refine ⟨_, by rw [hret], by rw [hret], by simp, ?_⟩
  intro i hi
  refine ⟨cell_value (row.getD i none) (A.mysql_fetch_lengths.getD i 0), ?_,
    cell_value_eq_nil_iff _ _, ?_⟩
  · simp [hi]
  · intro b hb
    rw [hb]
    refine ⟨rfl, ?_⟩
    have := (hok.2.2 i hi).2 b hb
    simp only [String.length, List.length_take]
    omega


/-! ## Tables -/

theorem LuaTable.rawget_remove (T : LuaTable) (k k1 : LuaValue) :
    (T.remove k).rawget k1 = if k = k1 then .nil else T.rawget k1 := by
  induction T with
  | nil => simp [LuaTable.remove, LuaTable.rawget]
  | cons e T ih =>
    obtain ⟨a, b⟩ := e
    by_cases h : a = k
    · simp only [LuaTable.remove, h, if_true, ih, LuaTable.rawget]
      by_cases hk : k = k1 <;> simp [hk]
    · simp only [LuaTable.remove, h, if_false, LuaTable.rawget, ih]
      by_cases hk : k = k1
      · subst hk; simp [h]
      · simp [hk]

theorem LuaTable.rawget_rawset (T : LuaTable) (k v k1 : LuaValue) :
    (T.rawset k v).rawget k1 = if k = k1 then v else T.rawget k1 := by
  unfold LuaTable.rawset
  by_cases hv : v = .nil
  · simp only [hv, if_true, LuaTable.rawget_remove]
  · simp only [hv, if_false, LuaTable.rawget, LuaTable.rawget_remove]
    by_cases hk : k = k1 <;> simp [hk]

theorem LuaTable.rawget_append_of_not_mem (l1 l2 : LuaTable) (k : LuaValue)
    (h : ∀ e ∈ l1, e.1 ≠ k) : LuaTable.rawget (l1 ++ l2) k = LuaTable.rawget l2 k := by
  induction l1 with
  | nil => rfl
  | cons e l1 ih =>
    obtain ⟨a, b⟩ := e
    have ha : a ≠ k := h (a, b) (List.mem_cons_self _ _)
    simp only [List.cons_append, LuaTable.rawget, ha, if_false]
    exact ih (fun e he => h e (List.mem_cons_of_mem _ he))

theorem LuaTable.rawget_append_of_mem (l1 l2 l3 : LuaTable) (k : LuaValue)
    (h : ∃ e ∈ l1, e.1 = k) : LuaTable.rawget (l1 ++ l2) k = LuaTable.rawget (l1 ++ l3) k := by
  induction l1 with
  | nil => obtain ⟨e, he, _⟩ := h; simp at he
  | cons e l1 ih =>
    obtain ⟨a, b⟩ := e
    by_cases ha : a = k
    · simp [LuaTable.rawget, ha]
    · simp only [List.cons_append, LuaTable.rawget, ha, if_false]
      apply ih
      obtain ⟨e, he, hk⟩ := h
      rcases List.mem_cons.mp he with h3 | h3
      · rw [h3] at hk; exact absurd hk ha
      · exact ⟨e, h3, hk⟩

theorem LuaTable.rawget_write_all (ws : List (LuaValue × LuaValue)) (T : LuaTable)
    (k : LuaValue) :
    (T.write_all ws).rawget k = LuaTable.rawget (ws.reverse ++ T) k := by
  induction ws generalizing T with
  | nil => rfl
  | cons w ws ih =>
    obtain ⟨a, b⟩ := w
    have h1 : LuaTable.write_all T ((a, b) :: ws) = LuaTable.write_all (T.rawset a b) ws := rfl
    rw [h1, ih, List.reverse_cons, List.append_assoc]
    by_cases hm : ∀ e ∈ ws.reverse, e.1 ≠ k
    · rw [LuaTable.rawget_append_of_not_mem _ _ _ hm, LuaTable.rawget_append_of_not_mem _ _ _ hm,
        LuaTable.rawget_rawset]
      simp [LuaTable.rawget]
    · exact LuaTable.rawget_append_of_mem _ _ _ _ (by
        by_contra hcon
        exact hm (fun e he h2 => hcon ⟨e, he, h2⟩))

/-- After a sequence of writes, a key written at position `i` and not written
again later holds the value written at `i`. -/
theorem LuaTable.rawget_write_all_last (ws : List (LuaValue × LuaValue)) (T : LuaTable)
    (i : Nat) (k v : LuaValue) (hi : ws[i]? = some (k, v))
    (hlast : ∀ j e, i < j → ws[j]? = some e → e.1 ≠ k) :
    (T.write_all ws).rawget k = v := by
  rw [LuaTable.rawget_write_all]
  induction ws using List.reverseRecOn with
  | nil => simp at hi
  | append_singleton ws w ih =>
    rw [List.reverse_append, List.reverse_singleton, List.singleton_append, List.cons_append]
    by_cases hlen : i < ws.length
    · have hw : w.1 ≠ k := by
        apply hlast ws.length w hlen
        simp
      obtain ⟨a, b⟩ := w
      simp only at hw
      simp only [LuaTable.rawget, hw, if_false]
      apply ih
      · rw [List.getElem?_append_left hlen] at hi; exact hi
      · intro j e hj he
        apply hlast j e hj
        have hj2 : j < ws.length := by
          by_contra hcon
          rw [List.getElem?_eq_none (by omega)] at he
          exact Option.noConfusion he
        rw [List.getElem?_append_left hj2]; exact he
    · have hi2 : i = ws.length := by
        by_contra hcon
        rw [List.getElem?_eq_none (by simp; omega)] at hi
        exact Option.noConfusion hi
      subst hi2
      simp at hi
      subst hi
      simp [LuaTable.rawget]

/-- After a sequence of writes, a key that was not written reads as before. -/
theorem LuaTable.rawget_write_all_other (ws : List (LuaValue × LuaValue)) (T : LuaTable)
    (k : LuaValue) (h : ∀ e ∈ ws, e.1 ≠ k) :
    (T.write_all ws).rawget k = T.rawget k := by
  rw [LuaTable.rawget_write_all]
  exact LuaTable.rawget_append_of_not_mem _ _ _ (fun e he => h e (List.mem_reverse.mp he))


theorem getD_set_self (l : List LuaTable) (t : Nat) (x : LuaTable) (h : t < l.length) :
    (l.set t x).getD t [] = x := by
  simp [List.getD_eq_getElem?_getD, List.getElem?_set, h]

theorem getD_set_ne (l : List LuaTable) (t t1 : Nat) (x : LuaTable) (h : t ≠ t1) :
    (l.set t x).getD t1 [] = l.getD t1 [] := by
  simp [List.getD_eq_getElem?_getD, List.getElem?_set, h]

theorem set_getD_self (l : List LuaTable) (t : Nat) : l.set t (l.getD t []) = l := by
  apply List.ext_getElem?
  intro i
  by_cases h : t = i
  · subst h
    by_cases h2 : t < l.length
    · simp [List.getElem?_set, h2, List.getD_eq_getElem?_getD]
    · simp [List.getElem?_set, h2]
      omega
  · simp [List.getElem?_set, h]

theorem World.write_all_nil (W : World) (t : Nat) : W.write_all t [] = W := by
  unfold World.write_all
  simp only [LuaTable.write_all, List.foldl_nil, set_getD_self]

theorem World.write_all_append (W : World) (t : Nat) (ws1 ws2 : List (LuaValue × LuaValue))
    (h : t < W.tables.length) :
    (W.write_all t ws1).write_all t ws2 = W.write_all t (ws1 ++ ws2) := by
  unfold World.write_all
  simp only [getD_set_self _ _ _ h, LuaTable.write_all, List.foldl_append, List.set_set]

theorem World.write_all_length (W : World) (t : Nat) (ws : List (LuaValue × LuaValue)) :
    (W.write_all t ws).tables.length = W.tables.length := by
  simp [World.write_all]

theorem World.rawget_write_all_self (W : World) (t : Nat) (ws : List (LuaValue × LuaValue))
    (k : LuaValue) (h : t < W.tables.length) :
    (W.write_all t ws).rawget t k = ((W.tables.getD t []).write_all ws).rawget k := by
  simp only [World.write_all, World.rawget, getD_set_self _ _ _ h]

theorem World.getD_write_all_ne (W : World) (t t1 : Nat) (ws : List (LuaValue × LuaValue))
    (h : t ≠ t1) : (W.write_all t ws).tables.getD t1 [] = W.tables.getD t1 [] := by
  simp only [World.write_all, getD_set_ne _ _ _ _ h]

theorem lua_rawseti_eq (W : World) (t : Nat) (n : Int) (v : LuaValue) :
    lua_rawseti W t n v = W.write_all t [(.integer n, v)] := rfl

theorem lua_rawset_eq (W : World) (t : Nat) (k v : LuaValue) (hk : k ≠ .nil) :
    lua_rawset W t k v = (.ok (), W.write_all t [(k, v)]) := by
  simp only [lua_rawset, hk, if_false, World.write_all, LuaTable.write_all, List.foldl_cons,
    List.foldl_nil]

theorem fetch_numeric_eq (n : Nat) (row : MYSQL_ROW) (lengths : List Nat)
    (hok : row_ok n row lengths) (t : Nat) (cols : List Nat) (hc : ∀ i ∈ cols, i < n)
    (W : World) (ht : t < W.tables.length) :
    fetch_numeric row lengths t cols W
      = (.ok (), W.write_all t (cols.map (fun (i : Nat) =>
          (.integer ((i : Int) + 1), cell_value (row.getD i none) (lengths.getD i 0))))) := by
  induction cols generalizing W with
  | nil => simp [fetch_numeric, World.write_all_nil]
  | cons i cols ih =>
    have hi : i < n := hc i (List.mem_cons_self _ _)
    simp only [fetch_numeric, fetch_column_of_row_ok n row lengths hok i hi, lua_rawseti_eq]
    rw [ih (fun j hj => hc j (List.mem_cons_of_mem _ hj)) _
      (by rw [World.write_all_length]; exact ht), World.write_all_append _ _ _ _ ht]
    rfl

theorem fetch_alpha_eq (n : Nat) (row : MYSQL_ROW) (lengths : List Nat)
    (hok : row_ok n row lengths) (t a : Nat) (names : List String) (hat : t ≠ a)
    (cols : List Nat) (W : World) (ht : t < W.tables.length)
    (hc : ∀ i ∈ cols, i < n ∧
      (W.tables.getD a []).rawget (.integer ((i : Int) + 1)) = .string (names.getD i "")) :
    fetch_alpha row lengths t (.table a) cols W
      = (.ok (), W.write_all t (cols.map (fun (i : Nat) =>
          (.string (names.getD i ""), cell_value (row.getD i none) (lengths.getD i 0))))) := by
  induction cols generalizing W with
  | nil => simp [fetch_alpha, World.write_all_nil]
  | cons i cols ih =>
    have hi := hc i (List.mem_cons_self _ _)
    simp only [fetch_alpha, lua_rawgeti, hi.2, fetch_column_of_row_ok n row lengths hok i hi.1]
    rw [lua_rawset_eq _ _ _ _ (by simp)]
    simp only
    rw [ih _ (by rw [World.write_all_length]; exact ht), World.write_all_append _ _ _ _ ht]
    · rfl
    · intro j hj
      rw [World.getD_write_all_ne _ _ _ _ hat]
      exact hc j (List.mem_cons_of_mem _ hj)


/-! ## Column information -/

theorem to_long_range (x : Int) : -(2 : Int) ^ 63 ≤ to_long x ∧ to_long x < 2 ^ 63 := by
  unfold to_long long_of_bits to_size_t
  norm_num
  split_ifs <;> omega

theorem int_toString_length (x : Int) (h1 : -(2 : Int) ^ 63 ≤ x) (h2 : x < 2 ^ 63) :
    (toString x).length ≤ 20 := by
  cases x with
  | ofNat m =>
    have hm : m < 10 ^ 19 := by
      have : (m : Int) < 2 ^ 63 := h2
      norm_num at this ⊢
      omega
    have := Nat.repr_length m 19 (by norm_num) hm
    show (Nat.repr m).length ≤ 20
    omega
  | negSucc m =>
    have hm : m + 1 < 10 ^ 19 := by
      have : -(2 : Int) ^ 63 ≤ Int.negSucc m := h1
      rw [Int.negSucc_eq] at this
      norm_num at this ⊢
      omega
    have := Nat.repr_length (m + 1) 19 (by norm_num) hm
    have h5 : toString (Int.negSucc m) = "-" ++ Nat.repr (m + 1) := rfl
    rw [h5, String.length_append]
    have h3 : "-".length = 1 := rfl
    omega

theorem sprintf_typename_ok (label : String) (length : Nat) :
    sprintf_typename label length
      = .ok (String.mk (label.toList.take 20) ++ "(" ++ toString (to_long length) ++ ")") := by
  unfold sprintf_typename
  have h1 := int_toString_length (to_long length) (to_long_range _).1 (to_long_range _).2
  have h2 : (String.mk (label.toList.take 20)).length ≤ 20 := by
    simp only [String.length, List.length_take]
    omega
  have h3 : "(".length = 1 := rfl
  have h4 : ")".length = 1 := rfl
  simp only [String.length_append]
  rw [if_pos (by omega)]

theorem create_colinfo_loop_spec (fields : List MYSQL_FIELD) (names types : Nat)
    (hnt : names ≠ types) (cols : List Nat) (W : World) (hn : names < W.tables.length)
    (hc : ∀ i ∈ cols, 1 ≤ i ∧ i ≤ fields.length) :
    ∃ W1, create_colinfo_loop fields names types cols W = (.ok (), W1)
      ∧ W1.tables.length = W.tables.length ∧ W1.registry = W.registry ∧ W1.udata = W.udata
      ∧ W1.stack_free = W.stack_free ∧ W1.trace = W.trace
      ∧ (∀ t, t ≠ names → t ≠ types → W1.tables.getD t [] = W.tables.getD t [])
      ∧ W1.tables.getD names [] = (W.tables.getD names []).write_all (cols.map
          (fun (i : Nat) => (.integer (i : Int),
            .string ((fields.map (fun f => f.name)).getD (i - 1) "")))) := by
  induction cols generalizing W with
  | nil => exact ⟨W, rfl, rfl, rfl, rfl, rfl, rfl, fun _ _ _ => rfl, rfl⟩
  | cons i cols ih =>
    have hi := hc i (List.mem_cons_self _ _)
    have hlt : i - 1 < fields.length := by omega
    obtain ⟨W1, h1, h2, h3, h4, h5, h6, h7, h8⟩ :=
      ih ((W.write_all names [(.integer (i : Int), .string fields[i - 1].name)]).write_all types
        [(.integer (i : Int), .string (String.mk ((getcolumntype fields[i - 1].type).toList.take 20)
          ++ "(" ++ toString (to_long fields[i - 1].length) ++ ")"))])
        (by rw [World.write_all_length, World.write_all_length]; exact hn)
        (fun j hj => hc j (List.mem_cons_of_mem _ hj))
    refine ⟨W1, ?_, ?_, ?_, ?_, ?_, ?_, ?_, ?_⟩
    · rw [create_colinfo_loop]
      unfold create_colinfo_step
      rw [List.getElem?_eq_getElem hlt]
      simp only [sprintf_typename_ok, create_colinfo_type, lua_rawseti_eq]
      exact h1
    · rw [h2, World.write_all_length, World.write_all_length]
    · rw [h3]; rfl
    · rw [h4]; rfl
    · rw [h5]; rfl
    · rw [h6]; rfl
    · intro t ht1 ht2
      rw [h7 t ht1 ht2, World.getD_write_all_ne _ _ _ _ (Ne.symm ht2),
        World.getD_write_all_ne _ _ _ _ (Ne.symm ht1)]
    · rw [h8, World.getD_write_all_ne _ _ _ _ (Ne.symm hnt)]
      simp only [World.write_all, getD_set_self _ _ _ hn, List.map_cons, LuaTable.write_all,
        List.foldl_cons, List.foldl_nil, List.getD_eq_getElem?_getD, List.getElem?_map,
        List.getElem?_eq_getElem hlt, Option.map_some', Option.getD_some]



theorem registry_get_cons (W : World) (r : Int) (v : LuaValue) (rest : List (Int × LuaValue)) :
    registry_get { W with registry := (r, v) :: rest } r = v := by
  simp [registry_get, List.find?]

theorem create_colinfo_spec (W : World) (cur : cur_data) (A : Answers) (n : Nat)
    (hcols : cur.numcols = (n : Int)) (hf : A.mysql_fetch_fields.length = n) :
    ∃ cur1 W1, create_colinfo W cur A = (.ok (), cur1, W1)
      ∧ cur1.closed = cur.closed ∧ cur1.numcols = cur.numcols ∧ cur1.my_res = cur.my_res
      ∧ registry_get W1 cur1.colnames = .table W.tables.length
      ∧ W.tables.length < W1.tables.length
      ∧ (∀ t, t < W.tables.length → W1.tables.getD t [] = W.tables.getD t [])
      ∧ (∀ i, i < n → (W1.tables.getD W.tables.length []).rawget (.integer ((i : Int) + 1))
          = .string ((A.mysql_fetch_fields.map (fun f => f.name)).getD i "")) := by
  have hW0 : ∃ W0 : World, W0 = World.mk (W.tables ++ [[]] ++ [[]]) W.registry W.udata
      W.stack_free (W.trace ++ [.mysql_fetch_fields cur.my_res]) := ⟨_, rfl⟩
  obtain ⟨W0, hW0⟩ := hW0
  have hlen0 : W0.tables.length = W.tables.length + 2 := by
    rw [hW0]; simp
  have hc : ∀ i ∈ (List.range n).map (fun i => i + 1),
      1 ≤ i ∧ i ≤ A.mysql_fetch_fields.length := by
    intro i hi
    simp only [List.mem_map, List.mem_range] at hi
    obtain ⟨j, hj, rfl⟩ := hi
    omega
  obtain ⟨W1, h1, h2, h3, h4, h5, h6, h7, h8⟩ :=
    create_colinfo_loop_spec A.mysql_fetch_fields W.tables.length (W.tables.length + 1)
      (by omega) ((List.range n).map (fun i => i + 1)) W0 (by omega) hc
  have hrun : create_colinfo W cur A
      = (.ok (), { cur with
            coltypes := (luaL_ref W1 (.table (W.tables.length + 1))).1,
            colnames := (luaL_ref (luaL_ref W1 (.table (W.tables.length + 1))).2
              (.table W.tables.length)).1 },
          (luaL_ref (luaL_ref W1 (.table (W.tables.length + 1))).2 (.table W.tables.length)).2) := by
    unfold create_colinfo
    simp only [lua_newtable, hcols, Int.toNat_ofNat, World.call, List.length_append,
      List.length_singleton]
    rw [hW0] at h1
    rw [h1]
  refine ⟨_, _, hrun, rfl, rfl, rfl, ?_, ?_, ?_, ?_⟩
  · simp only [luaL_ref, reduceCtorEq, if_false]
    exact registry_get_cons _ _ _ _
  · simp only [luaL_ref, reduceCtorEq, if_false]
    omega
  · intro t ht
    simp only [luaL_ref, reduceCtorEq, if_false]
    rw [h7 t (by omega) (by omega), hW0]
    simp only [List.getD_eq_getElem?_getD, List.append_assoc]
    rw [List.getElem?_append_left ht]
  · intro i hi
    simp only [luaL_ref, reduceCtorEq, if_false]
    rw [h8]
    have h0 : W0.tables.getD W.tables.length [] = [] := by
      rw [hW0]
      simp only [List.getD_eq_getElem?_getD, List.append_assoc]
      rw [List.getElem?_append_right (le_refl _)]
      simp
    rw [h0]
    apply LuaTable.rawget_write_all_last _ _ i
    · simp [List.getElem?_map, List.getElem?_range hi, List.getD_eq_getElem?_getD]
    · intro j e hj he
      simp only [List.getElem?_map, List.map_map] at he
      by_cases hjn : j < n
      · simp [List.getElem?_range hjn] at he
        rw [← he]
        simp
        omega
      · rw [List.getElem?_eq_none (by simp; omega)] at he
        simp at he

theorem names_known_transfer (W W1 : World) (cur : cur_data) (A : Answers) (n t : Nat)
    (names : List String) (hk : names_known W cur A n t names)
    (hr : W1.registry = W.registry)
    (htab : ∀ a, a ≠ t → W1.tables.getD a [] = W.tables.getD a []) :
    names_known W1 cur A n t names := by
  obtain ⟨hl, hm, hk⟩ := hk
  refine ⟨hl, hm, ?_⟩
  rcases hk with h | ⟨h1, a, h2, h3, h4⟩
  · exact Or.inl h
  · refine Or.inr ⟨h1, a, ?_, h3, ?_⟩
    · simp only [registry_get, hr] at h2 ⊢; exact h2
    · intro i hi
      simp only [World.rawget, htab a h3]
      exact h4 i hi

theorem cur_fetch_alpha_part (W1 : World) (cur : cur_data) (A : Answers) (n t : Nat)
    (names : List String) (row : MYSQL_ROW) (hcols : cur.numcols = (n : Int))
    (hok : row_ok n row A.mysql_fetch_lengths) (ht : t < W1.tables.length)
    (hk : names_known W1 cur A n t names) :
    ∃ cur2 W2 W3,
      (if cur.colnames = LUA_NOREF then create_colinfo W1 cur A else (.ok (), cur, W1))
        = (.ok (), cur2, W2)
      ∧ fetch_alpha row A.mysql_fetch_lengths t (registry_get W2 cur2.colnames) (List.range n) W2
        = (.ok (), W3)
      ∧ W3.tables.getD t []
        = (W1.tables.getD t []).write_all (alpha_writes n row A.mysql_fetch_lengths names) := by
  obtain ⟨hl, h3, hk⟩ := hk
  rcases hk with h1 | ⟨h1, a, h2, h3a, h4⟩
  · obtain ⟨cur2, W2, e1, _, _, _, e5, e6, e7, e8⟩ := create_colinfo_spec W1 cur A n hcols hl
    have ht2 : t < W2.tables.length := by omega
    have hfa := fetch_alpha_eq n row A.mysql_fetch_lengths hok t W1.tables.length names
      (by omega) (List.range n) W2 ht2
      (fun i hi => ⟨List.mem_range.mp hi, by rw [e8 i (List.mem_range.mp hi), h3]⟩)
    refine ⟨cur2, W2, W2.write_all t (alpha_writes n row A.mysql_fetch_lengths names),
      ?_, ?_, ?_⟩
    · rw [if_pos h1, e1]
    · rw [e5]; exact hfa
    · simp only [World.write_all, getD_set_self _ _ _ ht2, e7 t ht]
  · have hfa := fetch_alpha_eq n row A.mysql_fetch_lengths hok t a names
      (Ne.symm h3a) (List.range n) W1 ht
      (fun i hi => ⟨List.mem_range.mp hi, h4 i (List.mem_range.mp hi)⟩)
    refine ⟨cur, W1, W1.write_all t (alpha_writes n row A.mysql_fetch_lengths names),
      ?_, ?_, ?_⟩
    · rw [if_neg h1]
    · rw [h2]; exact hfa
    · simp only [World.write_all, getD_set_self _ _ _ ht]

theorem cur_fetch_table_writes (H : luasql_h) (W : World) (cur : cur_data) (t : Nat)
    (arg3 : Option String) (A : Answers) (row : MYSQL_ROW) (n : Nat) (names : List String)
    (hopen : cur.closed = 0) (hcols : cur.numcols = (n : Int))
    (hrow : A.mysql_fetch_row = some row)
    (hok : row_ok n row A.mysql_fetch_lengths)
    (ht : t < W.tables.length)
    (hnames : strchr (luaL_optstring arg3 "n") 'a' = true → names_known W cur A n t names) :
    (cur_fetch H W cur (.table t) arg3 A).ret = .ok [.table t]
    ∧ (cur_fetch H W cur (.table t) arg3 A).W.tables.getD t []
        = ((W.tables.getD t []).write_all
            (if strchr (luaL_optstring arg3 "n") 'n' = true
              then numeric_writes n row A.mysql_fetch_lengths else [])).write_all
            (if strchr (luaL_optstring arg3 "n") 'a' = true
              then alpha_writes n row A.mysql_fetch_lengths names else [])
    ∧ (strchr (luaL_optstring arg3 "n") 'n' = false → strchr (luaL_optstring arg3 "n") 'a' = false →
        (cur_fetch H W cur (.table t) arg3 A).W.tables = W.tables) := by
  have hmem : ∀ i ∈ List.range n, i < n := fun i hi => List.mem_range.mp hi
  unfold cur_fetch
  simp only [getcursor, hopen, hrow, ne_eq, not_true_eq_false, if_false]
  unfold cur_fetch_table
  simp only [hcols, Int.toNat_ofNat]
  generalize luaL_optstring arg3 "n" = opts at hnames ⊢
  have ht0 : t < ((W.call (.mysql_fetch_row cur.my_res)).call
      (.mysql_fetch_lengths cur.my_res)).tables.length := ht
  generalize hW0 : (W.call (.mysql_fetch_row cur.my_res)).call
      (.mysql_fetch_lengths cur.my_res) = W0 at ht0 ⊢
  have hW0t : W0.tables = W.tables := by rw [← hW0]; rfl
  have hW0r : W0.registry = W.registry := by rw [← hW0]; rfl
  cases hn : strchr opts 'n' <;> cases ha : strchr opts 'a'
  · simp only [Bool.false_eq_true, if_false, LuaTable.write_all, List.foldl_nil, hW0t, true_and,
      implies_true, and_self]
  · have hk : names_known W0 cur A n t names :=
      names_known_transfer W W0 cur A n t names (hnames ha) hW0r (fun a _ => by rw [hW0t])
    obtain ⟨cur2, W2, W3, e1, e2, e3⟩ :=
      cur_fetch_alpha_part W0 cur A n t names row hcols hok ht0 hk
    simp only [Bool.false_eq_true, if_false, if_true, e1, e2, LuaTable.write_all, List.foldl_nil,
      true_and, e3, hW0t, Bool.true_eq_false, false_implies, implies_true, and_self]
  · simp only [if_true, Bool.false_eq_true, if_false,
      fetch_numeric_eq n row A.mysql_fetch_lengths hok t (List.range n) hmem W0 ht0,
      World.write_all, hW0t, getD_set_self _ _ _ ht, true_and, Bool.true_eq_false,
      false_implies, and_true, numeric_writes, LuaTable.write_all, List.foldl_nil]
  · have hW1 := fetch_numeric_eq n row A.mysql_fetch_lengths hok t (List.range n) hmem W0 ht0
    have hk : names_known (W0.write_all t (numeric_writes n row A.mysql_fetch_lengths)) cur A n t
        names :=
      names_known_transfer W _ cur A n t names (hnames ha) hW0r
        (fun a ha2 => by rw [World.getD_write_all_ne _ _ _ _ (Ne.symm ha2), hW0t])
    obtain ⟨cur2, W2, W3, e1, e2, e3⟩ :=
      cur_fetch_alpha_part _ cur A n t names row hcols hok
        (by rw [World.write_all_length]; exact ht0) hk
    simp only [if_true, hW1]
    simp only [numeric_writes] at e1 e2 e3
    simp only [e1, e2, true_and, e3, Bool.true_eq_false, false_implies, and_true]
    simp only [World.write_all, hW0t, getD_set_self _ _ _ ht, numeric_writes]


theorem numeric_writes_get (n : Nat) (row : MYSQL_ROW) (lengths : List Nat) (i : Nat)
    (hi : i < n) :
    (numeric_writes n row lengths)[i]?
      = some (.integer ((i : Int) + 1), cell_value (row.getD i none) (lengths.getD i 0)) := by
  simp [numeric_writes, List.getElem?_map, List.getElem?_range hi]

theorem alpha_writes_get (n : Nat) (row : MYSQL_ROW) (lengths : List Nat) (names : List String)
    (i : Nat) (hi : i < n) :
    (alpha_writes n row lengths names)[i]?
      = some (.string (names.getD i ""), cell_value (row.getD i none) (lengths.getD i 0)) := by
  simp [alpha_writes, List.getElem?_map, List.getElem?_range hi]

theorem numeric_writes_key (n : Nat) (row : MYSQL_ROW) (lengths : List Nat)
    (e : LuaValue × LuaValue) (he : e ∈ numeric_writes n row lengths) :
    ∃ i, i < n ∧ e.1 = .integer ((i : Int) + 1) := by
  simp only [numeric_writes, List.mem_map, List.mem_range] at he
  obtain ⟨i, hi, rfl⟩ := he
  exact ⟨i, hi, rfl⟩

theorem alpha_writes_key (n : Nat) (row : MYSQL_ROW) (lengths : List Nat) (names : List String)
    (e : LuaValue × LuaValue) (he : e ∈ alpha_writes n row lengths names) :
    ∃ i, i < n ∧ e.1 = .string (names.getD i "") := by
  simp only [alpha_writes, List.mem_map, List.mem_range] at he
  obtain ⟨i, hi, rfl⟩ := he
  exact ⟨i, hi, rfl⟩

/-- C4, amended: take an open cursor with `n` columns whose result has the
`n` fields named `names`, a row the client library returns, and a table `t`
given as argument 2.  When the mode has 'a', the cursor either has no cached
column names yet, or its cached table of names is not `t` and holds the names
of this result (`names_known`).  Then `cur_fetch` returns that same table.
With `opts` the mode (the C string of argument 3, and "n" when it is
absent): if `opts` contains 'n', key `i+1` of `t` holds the value of column
`i`, for every column; if `opts` contains 'a', the key equal to the name of
column `i` holds the value of column `i` unless a later column has the same
name (so it holds the value of the last column of that name); every key that
is not written in this way keeps its value; and when `opts` contains neither
letter no table is modified at all. -/
theorem cur_fetch_into_table (H : luasql_h) (W : World) (cur : cur_data) (t : Nat)
    (arg3 : Option String) (A : Answers) (row : MYSQL_ROW) (n : Nat) (names : List String)
    (hopen : cur.closed = 0) (hcols : cur.numcols = (n : Int))
    (hrow : A.mysql_fetch_row = some row)
    (hok : row_ok n row A.mysql_fetch_lengths)
    (ht : t < W.tables.length)
    (hnames : 'a' ∈ luaL_optstring arg3 "n" → names_known W cur A n t names) :
    (cur_fetch H W cur (.table t) arg3 A).ret = .ok [.table t]
    ∧ (∀ i, i < n → 'n' ∈ luaL_optstring arg3 "n" →
        (cur_fetch H W cur (.table t) arg3 A).W.rawget t (.integer ((i : Int) + 1))
          = cell_value (row.getD i none) (A.mysql_fetch_lengths.getD i 0))
    ∧ (∀ i, i < n → 'a' ∈ luaL_optstring arg3 "n" →
        (∀ j, i < j → j < n → names.getD j "" ≠ names.getD i "") →
        (cur_fetch H W cur (.table t) arg3 A).W.rawget t (.string (names.getD i ""))
          = cell_value (row.getD i none) (A.mysql_fetch_lengths.getD i 0))
    ∧ (∀ k : LuaValue,
        ¬ ('n' ∈ luaL_optstring arg3 "n" ∧ ∃ i, i < n ∧ k = .integer ((i : Int) + 1)) →
        ¬ ('a' ∈ luaL_optstring arg3 "n" ∧ ∃ i, i < n ∧ k = .string (names.getD i "")) →
        (cur_fetch H W cur (.table t) arg3 A).W.rawget t k = W.rawget t k)
    ∧ ('n' ∉ luaL_optstring arg3 "n" → 'a' ∉ luaL_optstring arg3 "n" →
        (cur_fetch H W cur (.table t) arg3 A).W.tables = W.tables)
    ∧ (arg3 = none → luaL_optstring arg3 "n" = ['n']) := by
  obtain ⟨h1, h2, h3⟩ := cur_fetch_table_writes H W cur t arg3 A row n names hopen hcols hrow hok
    ht (fun h => hnames (by simpa [strchr] using h))
  have hdef : arg3 = none → luaL_optstring arg3 "n" = ['n'] := by
    intro h
    subst h
    decide
  generalize luaL_optstring arg3 "n" = opts at h1 h2 h3 hnames hdef ⊢
  simp only [strchr, decide_eq_true_eq, decide_eq_false_iff_not] at h2 h3
  refine ⟨h1, ?_, ?_, ?_, h3, hdef⟩
  · intro i hi hn
    rw [World.rawget, h2, if_pos hn, LuaTable.rawget_write_all_other]
    · exact LuaTable.rawget_write_all_last _ _ i _ _
        (numeric_writes_get n row _ i hi) (by
          intro j e hj he
          by_cases hjn : j < n
          · rw [numeric_writes_get n row _ j hjn] at he
            cases he
            simp only [ne_eq, LuaValue.integer.injEq]
            omega
          · rw [List.getElem?_eq_none (by simp [numeric_writes]; omega)] at he
            cases he)
    · intro e he
      split_ifs at he with ha
      · obtain ⟨j, _, hj⟩ := alpha_writes_key n row _ names e he
        rw [hj]; simp
      · simp at he
  · intro i hi ha hlast
    rw [World.rawget, h2, if_pos ha]
    exact LuaTable.rawget_write_all_last _ _ i _ _
      (alpha_writes_get n row _ names i hi) (by
        intro j e hj he
        by_cases hjn : j < n
        · rw [alpha_writes_get n row _ names j hjn] at he
          cases he
          simp only [ne_eq, LuaValue.string.injEq]
          exact hlast j hj hjn
        · rw [List.getElem?_eq_none (by simp [alpha_writes]; omega)] at he
          cases he)
  · intro k hkn hka
    rw [World.rawget, h2, LuaTable.rawget_write_all_other, LuaTable.rawget_write_all_other]
    · rfl
    · intro e he hek
      split_ifs at he with hn
      · obtain ⟨j, hj, hje⟩ := numeric_writes_key n row _ e he
        exact hkn ⟨hn, j, hj, by rw [← hek, hje]⟩
      · simp at he
    · intro e he hek
      split_ifs at he with ha
      · obtain ⟨j, hj, hje⟩ := alpha_writes_key n row _ names e he
        exact hka ⟨ha, j, hj, by rw [← hek, hje]⟩
      · simp at he

theorem example_row_ok : row_ok 2 example_row example_answers.mysql_fetch_lengths := by
  refine ⟨rfl, rfl, ?_⟩
  intro i hi
  interval_cases i
  · refine ⟨by decide, ?_⟩
    intro b hb
    simp only [example_row, List.getD_cons_zero, Option.some.injEq] at hb
    subst hb
    decide
  · refine ⟨by decide, ?_⟩
    intro b hb
    simp [example_row] at hb

/-- Witness of C3: the hypotheses hold for the two-column example row, and
`cur_fetch` returns two values for it. -/
theorem cur_fetch_returns_row_values_witness :
    row_ok 2 example_row example_answers.mysql_fetch_lengths
    ∧ ∃ vs : List LuaValue,
        (cur_fetch example_luasql example_world example_cursor .nil none example_answers).ret
          = .ok vs ∧ vs.length = 2 :=
  ⟨example_row_ok,
    (cur_fetch_returns_row_values example_luasql example_world example_cursor .nil none
      example_answers example_row 2 rfl rfl (fun t h => LuaValue.noConfusion h) rfl
      example_row_ok (by decide)).imp (fun _ h => ⟨h.1, h.2.2.1⟩)⟩

theorem cur_fetch_example_values :
    (cur_fetch example_luasql example_world example_cursor .nil none example_answers).ret
      = .ok [.string (String.mk ['a', Char.ofNat 0, 'b']), .nil] := by
  rfl

theorem example_names_known :
    names_known example_world example_cursor example_answers 2 0 ["id", "name"] :=
  ⟨rfl, rfl, Or.inl rfl⟩

/-- Witness of C4: the hypotheses hold for the example row and the table at
address 0 with the mode "na"; `cur_fetch` returns that table, and its key
`id`, the name of column 0, holds the three bytes of column 0. -/
theorem cur_fetch_into_table_witness :
    row_ok 2 example_row example_answers.mysql_fetch_lengths
    ∧ names_known example_world example_cursor example_answers 2 0 ["id", "name"]
    ∧ (cur_fetch example_luasql example_world example_cursor (.table 0) (some "na")
        example_answers).ret = .ok [.table 0]
    ∧ (cur_fetch example_luasql example_world example_cursor (.table 0) (some "na")
        example_answers).W.rawget 0 (.string "id")
        = .string (String.mk ['a', Char.ofNat 0, 'b']) :=
  ⟨example_row_ok, example_names_known,
    (cur_fetch_into_table example_luasql example_world example_cursor 0 (some "na")
      example_answers example_row 2 ["id", "name"] rfl rfl rfl example_row_ok (by decide)
      (fun _ => example_names_known)).1,
    (cur_fetch_into_table example_luasql example_world example_cursor 0 (some "na")
      example_answers example_row 2 ["id", "name"] rfl rfl rfl example_row_ok (by decide)
      (fun _ => example_names_known)).2.2.1 0 (by decide) (by decide)
      (fun j h1 h2 => by interval_cases j; decide)⟩

theorem cur_fetch_example_table :
    (cur_fetch example_luasql example_world example_cursor (.table 0) (some "na")
        example_answers).W.tables.getD 0 []
      = [(.string "id", .string (String.mk ['a', Char.ofNat 0, 'b'])),
         (.integer 1, .string (String.mk ['a', Char.ofNat 0, 'b'])),
         (.string "old", .integer 7)] := by
  rfl


theorem cur_fetch_example_cached_names :
    (cur_fetch example_luasql
        (cur_getcolnames example_world example_cursor example_answers).W
        (cur_getcolnames example_world example_cursor example_answers).obj
        (.table 0) (some "a") example_answers).W.tables.getD 0 []
      = [(.string "id", .string (String.mk ['a', Char.ofNat 0, 'b'])),
         (.string "old", .integer 7)]
    ∧ (cur_getcolnames example_world example_cursor example_answers).ret = .ok [.table 1]
    ∧ (cur_getcolnames example_world example_cursor example_answers).W.tables.getD 1 []
      = [(.integer 2, .string "name"), (.integer 1, .string "id")]
    ∧ (cur_getcoltypes example_world example_cursor example_answers).W.tables.getD 2 []
      = [(.integer 2, .string "string(255)"), (.integer 1, .string "number(11)")] := by
  refine ⟨rfl, rfl, rfl, rfl⟩

/-- C4 as stated fails: for a result whose two columns are both named `id`
and a row that holds "1" and "2", `cur_fetch` with the table at address 0 and
the mode "a" returns that table, but the key equal to the name of column 0
holds "2", the value of column 1, and not "1", the value of column 0: the
writes go in column order and the later column of the same name wins. -/
theorem cur_fetch_duplicate_column_name :
    example_cursor.closed = 0
    ∧ example_answers_twin.mysql_fetch_fields.map (fun f => f.name) = ["id", "id"]
    ∧ fetch_column [some ['1', Char.ofNat 0], some ['2', Char.ofNat 0]] [1, 1] 0
        = .ok (.string "1")
    ∧ (cur_fetch example_luasql example_world example_cursor (.table 0) (some "a")
        example_answers_twin).ret = .ok [.table 0]
    ∧ (cur_fetch example_luasql example_world example_cursor (.table 0) (some "a")
        example_answers_twin).W.tables.getD 0 []
        = [(.string "id", .string "2"), (.string "old", .integer 7)]
    ∧ (cur_fetch example_luasql example_world example_cursor (.table 0) (some "a")
        example_answers_twin).W.rawget 0 (.string "id") = .string "2"
    ∧ LuaValue.string "2" ≠ .string "1" := by
  refine ⟨rfl, rfl, rfl, rfl, rfl, by decide, by decide⟩

/-- When the table given to `cur_fetch` is the cached table of column names
itself (the one `getcolnames` returned, at address 1) and the mode is "na",
the numerical writes replace the names by the values of the row before the
names are read: the value of column 0 is stored under the key that is this
value, and the nil value of column 1 is used as a key, which raises the Lua
error "table index is nil". -/
theorem cur_fetch_into_names_table :
    (cur_getcolnames example_world example_cursor example_answers).ret = .ok [.table 1]
    ∧ (cur_fetch example_luasql
        (cur_getcolnames example_world example_cursor example_answers).W
        (cur_getcolnames example_world example_cursor example_answers).obj
        (.table 1) (some "na") example_answers).ret = .error (.error "table index is nil")
    ∧ (cur_fetch example_luasql
        (cur_getcolnames example_world example_cursor example_answers).W
        (cur_getcolnames example_world example_cursor example_answers).obj
        (.table 1) (some "na") example_answers).W.tables.getD 1 []
        = [(.string (String.mk ['a', Char.ofNat 0, 'b']),
              .string (String.mk ['a', Char.ofNat 0, 'b'])),
           (.integer 1, .string (String.mk ['a', Char.ofNat 0, 'b']))] := by
  refine ⟨rfl, rfl, rfl⟩

set_option maxRecDepth 100000 in
/-- The condition `names_known` leaves out the cursor whose cached names are
those of an earlier result: after `getcolnames` cached the names `id` and
`name` and `nextresult` installed a result whose columns are `total` and
`city`, `cur_fetch` with the mode "a" stores the values of the new row under
the old names, and `names_known` holds for no list of names there. -/
theorem cur_fetch_stale_names :
    (cur_fetch example_luasql
        (cur_next_result (cur_getcolnames example_world example_cursor example_answers).W
          (cur_getcolnames example_world example_cursor example_answers).obj
          example_answers_renamed).W
        (cur_next_result (cur_getcolnames example_world example_cursor example_answers).W
          (cur_getcolnames example_world example_cursor example_answers).obj
          example_answers_renamed).obj
        (.table 0) (some "a") example_answers_renamed).W.tables.getD 0 []
      = [(.string "name", .string "Rome"), (.string "id", .string "7"),
          (.string "old", .integer 7)]
    ∧ ∀ names, ¬ names_known
        (cur_next_result (cur_getcolnames example_world example_cursor example_answers).W
          (cur_getcolnames example_world example_cursor example_answers).obj
          example_answers_renamed).W
        (cur_next_result (cur_getcolnames example_world example_cursor example_answers).W
          (cur_getcolnames example_world example_cursor example_answers).obj
          example_answers_renamed).obj
        example_answers_renamed 2 0 names := by
  refine ⟨rfl, ?_⟩
  rintro names ⟨_, hn, h⟩
  rcases h with h | ⟨_, a, ha, _, hall⟩
  · exact absurd h (by decide)
  · have h1 : registry_get
        (cur_next_result (cur_getcolnames example_world example_cursor example_answers).W
          (cur_getcolnames example_world example_cursor example_answers).obj
          example_answers_renamed).W
        (cur_next_result (cur_getcolnames example_world example_cursor example_answers).W
          (cur_getcolnames example_world example_cursor example_answers).obj
          example_answers_renamed).obj.colnames = .table 1 := rfl
    rw [h1] at ha
    have ha1 : a = 1 := (LuaValue.table.inj ha).symm
    subst ha1
    have h0 := hall 0 (by decide)
    rw [← hn] at h0
    have h2 : (cur_next_result (cur_getcolnames example_world example_cursor example_answers).W
          (cur_getcolnames example_world example_cursor example_answers).obj
          example_answers_renamed).W.rawget 1 (.integer ((0 : Nat) + 1 : Int))
        = .string "id" := by decide
    rw [h2] at h0
    exact absurd h0 (by decide)

/-! ## Use after the end of the rows -/

theorem CursorOp.run_closed (H : luasql_h) (op : CursorOp) (W : World) (cur : cur_data)
    (hc : cur.closed ≠ 0) : (op.run H W cur).obj = cur ∧ (op.run H W cur).W = W := by
  cases op <;>
    simp [CursorOp.run, cur_gc, cur_close, cur_getcolnames, cur_getcoltypes, cur_fetch,
      cur_numrows, cur_seek, cur_next_result, cur_has_next_result, getcursor, hc]

theorem CursorOp.run_closed_guarded (H : luasql_h) (op : CursorOp) (W : World) (cur : cur_data)
    (hc : cur.closed ≠ 0) (hg : op.guarded = true) :
    (op.run H W cur).ret = .error (.argerror 1 "cursor is closed") := by
  cases op <;>
    simp [CursorOp.run, cur_getcolnames, cur_getcoltypes, cur_fetch,
      cur_numrows, cur_seek, cur_next_result, cur_has_next_result, getcursor, hc,
      CursorOp.guarded] at hg ⊢

theorem CursorOp.runAll_closed (H : luasql_h) (ops : List CursorOp) (W : World) (cur : cur_data)
    (hc : cur.closed ≠ 0) : CursorOp.runAll H ops W cur = (cur, W) := by
  induction ops with
  | nil => rfl
  | cons op ops ih =>
    simp only [CursorOp.runAll, (CursorOp.run_closed H op W cur hc).1,
      (CursorOp.run_closed H op W cur hc).2, ih]

theorem cur_nullify_spec (W : World) (cur : cur_data) :
    (cur_nullify W cur).1 = { cur with closed := 1 }
    ∧ (cur_nullify W cur).2.trace = W.trace ++ [.mysql_free_result cur.my_res,
        .luaL_unref cur.conn, .luaL_unref cur.colnames, .luaL_unref cur.coltypes]
    ∧ (∀ r, r = cur.conn ∨ r = cur.colnames ∨ r = cur.coltypes → 0 ≤ r →
        ∀ e ∈ (cur_nullify W cur).2.registry, e.1 ≠ r)
    ∧ (cur_nullify W cur).2.tables = W.tables := by
  refine ⟨rfl, ?_, ?_, ?_⟩
  · simp only [cur_nullify, luaL_unref, World.call]
    split_ifs <;> simp
  · intro r hr h0 e he
    simp only [cur_nullify, luaL_unref, World.call] at he
    rcases hr with h | h | h <;> subst h <;> split_ifs at he <;>
      simp only [List.mem_filter, decide_eq_true_eq] at he <;> tauto
  · simp only [cur_nullify, luaL_unref, World.call]
    split_ifs <;> rfl

/-- C5: when the client library reports no further row, `cur_fetch` on an
open cursor returns the single value nil and leaves the cursor closed: closed
is 1, `mysql_free_result` was called on the result set, and the registry
references of the connection, the column names and the column types were
released (each slot that was held is gone from the registry).  After that,
whatever methods are called on the cursor in between, every call of fetch,
getcolnames, getcoltypes, numrows, seek, nextresult or hasnextresult raises
the argument error "cursor is closed" for argument 1 and leaves the world as
it was: no call is made to the client library. -/
theorem cur_fetch_end_closes_cursor (H : luasql_h) (W : World) (cur : cur_data)
    (arg2 : LuaValue) (arg3 : Option String) (A : Answers)
    (hopen : cur.closed = 0) (hrow : A.mysql_fetch_row = none) :
    (cur_fetch H W cur arg2 arg3 A).ret = .ok [.nil]
    ∧ (cur_fetch H W cur arg2 arg3 A).obj = { cur with closed := 1 }
    ∧ (cur_fetch H W cur arg2 arg3 A).W.trace
        = W.trace ++ [.mysql_fetch_row cur.my_res, .mysql_free_result cur.my_res,
            .luaL_unref cur.conn, .luaL_unref cur.colnames, .luaL_unref cur.coltypes]
    ∧ (∀ r, r = cur.conn ∨ r = cur.colnames ∨ r = cur.coltypes → 0 ≤ r →
        ∀ e ∈ (cur_fetch H W cur arg2 arg3 A).W.registry, e.1 ≠ r)
    ∧ ∀ (ops : List CursorOp) (op : CursorOp), op.guarded = true →
        (op.run H
            (CursorOp.runAll H ops (cur_fetch H W cur arg2 arg3 A).W
              (cur_fetch H W cur arg2 arg3 A).obj).2
            (CursorOp.runAll H ops (cur_fetch H W cur arg2 arg3 A).W
              (cur_fetch H W cur arg2 arg3 A).obj).1).ret
          = .error (.argerror 1 "cursor is closed")
        ∧ (op.run H
            (CursorOp.runAll H ops (cur_fetch H W cur arg2 arg3 A).W
              (cur_fetch H W cur arg2 arg3 A).obj).2
            (CursorOp.runAll H ops (cur_fetch H W cur arg2 arg3 A).W
              (cur_fetch H W cur arg2 arg3 A).obj).1).W
          = (cur_fetch H W cur arg2 arg3 A).W := by
  have hrun : cur_fetch H W cur arg2 arg3 A
      = ⟨.ok [.nil], (cur_nullify (W.call (.mysql_fetch_row cur.my_res)) cur).1,
          (cur_nullify (W.call (.mysql_fetch_row cur.my_res)) cur).2⟩ := by
    unfold cur_fetch
    simp only [getcursor, hopen, hrow, ne_eq, not_true_eq_false, if_false]
  obtain ⟨n1, n2, n3, _⟩ := cur_nullify_spec (W.call (.mysql_fetch_row cur.my_res)) cur
  rw [hrun]
  refine ⟨rfl, n1, ?_, n3, ?_⟩
  · show (cur_nullify (W.call (.mysql_fetch_row cur.my_res)) cur).2.trace = _
    rw [n2]
    simp only [World.call, List.append_assoc, List.singleton_append]
  · intro ops op hg
    have hc : (cur_nullify (W.call (.mysql_fetch_row cur.my_res)) cur).1.closed ≠ 0 := by
      rw [n1]; exact one_ne_zero
    simp only [CursorOp.runAll_closed H ops _ _ hc]
    exact ⟨CursorOp.run_closed_guarded H op _ _ hc hg, (CursorOp.run_closed H op _ _ hc).2⟩

/-- Witness of C5: on the example cursor, the fetch that finds no row returns
nil, and a fetch after a `close` and a `numrows` raises "cursor is closed". -/
theorem cur_fetch_end_closes_cursor_witness :
    (cur_fetch example_luasql example_world example_cursor .nil none example_answers_end).ret
      = .ok [.nil]
    ∧ ((CursorOp.fetch .nil none example_answers).run example_luasql
        (CursorOp.runAll example_luasql [.close, .numrows example_answers]
          (cur_fetch example_luasql example_world example_cursor .nil none
            example_answers_end).W
          (cur_fetch example_luasql example_world example_cursor .nil none
            example_answers_end).obj).2
        (CursorOp.runAll example_luasql [.close, .numrows example_answers]
          (cur_fetch example_luasql example_world example_cursor .nil none
            example_answers_end).W
          (cur_fetch example_luasql example_world example_cursor .nil none
            example_answers_end).obj).1).ret
      = .error (.argerror 1 "cursor is closed") :=
  ⟨(cur_fetch_end_closes_cursor example_luasql example_world example_cursor .nil none
      example_answers_end rfl rfl).1,
   ((cur_fetch_end_closes_cursor example_luasql example_world example_cursor .nil none
      example_answers_end rfl rfl).2.2.2.2 [.close, .numrows example_answers]
      (.fetch .nil none example_answers) rfl).1⟩

/-! ## Closing -/

/-- C6: each of `cur_close`, `stmt_cur_close`, `conn_close` and `env_close`,
called on an open object, returns the single value true and sets closed to 1;
called on a closed object it returns false and its message ("cursor is
already closed" for both cursors, "Connection is already closed", "env is
already closed"), leaves the world as it was (so no call is made to the
client library) and leaves the object as it was. -/
theorem close_methods (W : World) (cur : cur_data) (scur : stmt_cur_data) (conn : conn_data)
    (env : env_data) :
    (cur.closed = 0 →
      (cur_close W cur).ret = .ok [.boolean true] ∧ (cur_close W cur).obj.closed = 1)
    ∧ (cur.closed ≠ 0 →
      (cur_close W cur).ret = .ok [.boolean false, .string "cursor is already closed"]
      ∧ (cur_close W cur).W = W ∧ (cur_close W cur).obj = cur)
    ∧ (scur.closed = 0 →
      (stmt_cur_close W scur).ret = .ok [.boolean true] ∧ (stmt_cur_close W scur).obj.closed = 1)
    ∧ (scur.closed ≠ 0 →
      (stmt_cur_close W scur).ret = .ok [.boolean false, .string "cursor is already closed"]
      ∧ (stmt_cur_close W scur).W = W ∧ (stmt_cur_close W scur).obj = scur)
    ∧ (conn.closed = 0 →
      (conn_close W conn).ret = .ok [.boolean true] ∧ (conn_close W conn).obj.closed = 1)
    ∧ (conn.closed ≠ 0 →
      (conn_close W conn).ret = .ok [.boolean false, .string "Connection is already closed"]
      ∧ (conn_close W conn).W = W ∧ (conn_close W conn).obj = conn)
    ∧ (env.closed = 0 →
      (env_close W env).ret = .ok [.boolean true] ∧ (env_close W env).obj.closed = 1)
    ∧ (env.closed ≠ 0 →
      (env_close W env).ret = .ok [.boolean false, .string "env is already closed"]
      ∧ (env_close W env).W = W ∧ (env_close W env).obj = env) := by
  refine ⟨?_, ?_, ?_, ?_, ?_, ?_, ?_, ?_⟩
  · intro h
    simp [cur_close, h, cur_nullify]
  · intro h
    simp [cur_close, h]
  · intro h
    simp only [stmt_cur_close, stmt_cur_nullify, h, ne_eq, not_true_eq_false, if_false]
    split_ifs <;> simp
  · intro h
    simp [stmt_cur_close, h]
  · intro h
    simp [conn_close, h]
  · intro h
    simp [conn_close, h]
  · intro h
    simp [env_close, h]
  · intro h
    simp [env_close, h]

theorem conn_close_then_gc (W : World) (conn : conn_data) (h : conn.closed = 0) :
    (conn_close W conn).W = W
    ∧ (conn_gc (conn_close W conn).W (conn_close W conn).obj).W = W
    ∧ (conn_gc W conn).W.trace = W.trace ++ [.luaL_unref conn.env, .mysql_close conn.my_conn] := by
  simp only [conn_close, conn_gc, h, ne_eq, not_true_eq_false, if_false, if_true, one_ne_zero,
    luaL_unref, World.call, true_and]
  split_ifs <;> simp

/-- C7 fails on the code: on the open example connection `conn_close` returns
true but makes no call at all, and the finalizer `conn_gc` run after it finds
the connection closed and makes no call either, so `mysql_close` is never
called on the handle and the environment reference stays in the registry;
`conn_gc` alone, on the same open connection, releases the reference and
calls `mysql_close` once. -/
theorem conn_close_leaves_handle_open :
    (conn_close example_world example_conn).ret = .ok [.boolean true]
    ∧ (conn_close example_world example_conn).W.trace = []
    ∧ (conn_gc (conn_close example_world example_conn).W
        (conn_close example_world example_conn).obj).W.trace = []
    ∧ (conn_gc (conn_close example_world example_conn).W
        (conn_close example_world example_conn).obj).W.registry = [(1, .userdata 0)]
    ∧ (conn_gc example_world example_conn).W.trace = [.luaL_unref 1, .mysql_close 200]
    ∧ (conn_gc example_world example_conn).W.registry = [] := by
  refine ⟨rfl, rfl, rfl, rfl, rfl, rfl⟩

/-! ## Executing a statement -/

theorem to_int_of_lt (n : Nat) (h : n < 2 ^ 31) : to_int (n : Int) = n := by
  unfold to_int int_of_bits to_unsigned
  norm_num at h ⊢
  split_ifs <;> omega

theorem to_long_of_lt (n : Nat) (h : n < 2 ^ 63) : to_long (n : Int) = n := by
  unfold to_long long_of_bits to_size_t
  norm_num at h ⊢
  split_ifs <;> omega

/-- C8: on an open connection, `conn_execute` returns one of these outcomes,
chosen by the answers of the client library alone.  If `mysql_real_query`
fails: the failure built by `luasql_failmsg` from "error executing query.
MySQL: " and the library error.  Otherwise, if a result set was stored: one
value, a new cursor that is open, has `numcols` equal to the field count (as
an `int`, the same number below `2^31`), has both column information
references unset, and holds the result set and the connection handle.
Otherwise, if the field count is 0: the single integer
`mysql_affected_rows` (as a `lua_Integer`, the same number below `2^63`).
Otherwise: the failure built from "error retrieving result. MySQL: " and the
library error. -/
theorem conn_execute_outcomes (H : luasql_h) (W : World) (conn : conn_data) (self : Nat)
    (statement : String) (A : Answers) (hopen : conn.closed = 0) :
    (A.mysql_real_query ≠ 0 →
      (conn_execute H W conn self statement A).ret
        = .ok (H.luasql_failmsg "error executing query. MySQL: " A.mysql_error)
      ∧ (conn_execute H W conn self statement A).obj = none)
    ∧ (A.mysql_real_query = 0 → A.mysql_store_result ≠ 0 →
      ∃ cur : cur_data,
        (conn_execute H W conn self statement A).obj = some cur
        ∧ (conn_execute H W conn self statement A).ret = .ok [.userdata W.udata]
        ∧ cur.closed = 0
        ∧ cur.numcols = to_int A.mysql_field_count
        ∧ (A.mysql_field_count < 2 ^ 31 → cur.numcols = A.mysql_field_count)
        ∧ cur.colnames = LUA_NOREF ∧ cur.coltypes = LUA_NOREF
        ∧ cur.my_res = A.mysql_store_result ∧ cur.my_conn = conn.my_conn)
    ∧ (A.mysql_real_query = 0 → A.mysql_store_result = 0 → A.mysql_field_count = 0 →
      (conn_execute H W conn self statement A).ret
        = .ok [.integer (to_long A.mysql_affected_rows)]
      ∧ (A.mysql_affected_rows < 2 ^ 63 →
          (conn_execute H W conn self statement A).ret = .ok [.integer A.mysql_affected_rows])
      ∧ (conn_execute H W conn self statement A).obj = none)
    ∧ (A.mysql_real_query = 0 → A.mysql_store_result = 0 → A.mysql_field_count ≠ 0 →
      (conn_execute H W conn self statement A).ret
        = .ok (H.luasql_failmsg "error retrieving result. MySQL: " A.mysql_error)
      ∧ (conn_execute H W conn self statement A).obj = none) := by
  refine ⟨?_, ?_, ?_, ?_⟩
  · intro h
    simp [conn_execute, getconnection, hopen, h]
  · intro h1 h2
    refine ⟨(create_cursor
      (((W.call (.mysql_real_query conn.my_conn statement)).call
        (.mysql_store_result conn.my_conn)).call (.mysql_field_count conn.my_conn))
      conn.my_conn (.userdata self) A.mysql_store_result (to_int A.mysql_field_count)).2.1,
      ?_, ?_, ?_⟩
    · simp only [conn_execute, getconnection, hopen, h1, h2, ne_eq, not_true_eq_false,
        not_false_eq_true, if_false, if_true]
    · simp only [conn_execute, getconnection, hopen, h1, h2, ne_eq, not_true_eq_false,
        not_false_eq_true, if_false, if_true, create_cursor, World.call]
    · simp only [create_cursor, World.call, luaL_ref, reduceCtorEq, if_false, true_and]
      exact ⟨fun h => to_int_of_lt _ h, trivial⟩
  · intro h1 h2 h3
    simp only [conn_execute, getconnection, hopen, h1, h2, h3, ne_eq, not_true_eq_false,
      if_false, if_true, true_and, and_true]
    intro h
    rw [to_long_of_lt _ h]
  · intro h1 h2 h3
    simp [conn_execute, getconnection, hopen, h1, h2, h3]

/-- Witness of C8: on the open example connection, a query whose result set
is stored gives a new open cursor with two columns. -/
theorem conn_execute_outcomes_witness :
    example_conn.closed = 0
    ∧ ∃ cur : cur_data,
        (conn_execute example_luasql example_world example_conn 0 "SELECT id, name FROM t"
          example_answers_query).obj = some cur
        ∧ cur.closed = 0 ∧ cur.numcols = 2 :=
  ⟨rfl,
    ((conn_execute_outcomes example_luasql example_world example_conn 0 "SELECT id, name FROM t"
      example_answers_query rfl).2.1 rfl (by decide)).imp
      (fun _ h => ⟨h.1, h.2.2.1, h.2.2.2.2.1 (by decide)⟩)⟩


/-! ## Binding a parameter -/

theorem to_int_to_long_of_range (x : Int) (h1 : -(2 : Int) ^ 31 ≤ x) (h2 : x < 2 ^ 31) :
    to_int (to_long x) = x := by
  unfold to_int int_of_bits to_unsigned to_long long_of_bits to_size_t
  norm_num at h1 h2 ⊢
  split_ifs <;> omega

theorem to_int_of_range (x : Int) (h1 : -(2 : Int) ^ 31 ≤ x) (h2 : x < 2 ^ 31) :
    to_int x = x := by
  unfold to_int int_of_bits to_unsigned
  norm_num at h1 h2 ⊢
  split_ifs <;> omega

/-- The index check of `stmt_bind` for an index `n` such that `n - 1` is an
`int`: the error "Invalid parameter index" is raised exactly when `n < 1` or
`n > num_params`. -/
theorem stmt_bind_index_check (H : luasql_h) (W : World) (stmt : stmt_data) (n : Int)
    (arg3 : LuaValue) (A : Answers) (h1 : -(2 : Int) ^ 31 < n) (h2 : n ≤ 2 ^ 31) :
    (stmt_bind H W stmt n arg3 A).ret = .error (.error "Invalid parameter index")
      ↔ (n < 1 ∨ (stmt.num_params : Int) < n) := by
  have hidx : to_int (to_long (n - 1)) = n - 1 :=
    to_int_to_long_of_range (n - 1) (by omega) (by omega)
  unfold stmt_bind
  simp only [hidx]
  by_cases hlo : n - 1 < 0
  · simp only [hlo, true_or, if_true, true_iff]
    left; omega
  · have hu : to_unsigned (n - 1) = (n - 1).toNat := by
      unfold to_unsigned
      norm_num at h2 ⊢
      omega
    by_cases hhi : stmt.num_params ≤ (n - 1).toNat
    · simp only [hu, hhi, or_true, if_true, true_iff]
      right; omega
    · simp only [hlo, hu, hhi, or_self, if_false]
      have hneg : ¬ (n < 1 ∨ (stmt.num_params : Int) < n) := by omega
      simp only [hneg, iff_false]
      split
      · split
        · simp
        · split_ifs <;> simp
      · simp

/-- The integer branch of `stmt_bind` for a value that is an `int`: the bind
entry of the parameter gets the type `MYSQL_TYPE_LONG` and points at the
`integer` member of the parameter's persistent slot, which holds the value;
no other entry of either array changes. -/
theorem stmt_bind_integer_in_int_range (H : luasql_h) (W : World) (stmt : stmt_data) (n : Int)
    (v : Int) (A : Answers) (hn1 : 1 ≤ n) (hn2 : n ≤ stmt.num_params)
    (hp : stmt.num_params < 2 ^ 31) (hl1 : stmt.params.length = stmt.num_params)
    (hl2 : stmt.params_data.length = stmt.num_params)
    (hv1 : -(2 : Int) ^ 31 ≤ v) (hv2 : v < 2 ^ 31) :
    ∃ param data,
      stmt.params[(n - 1).toNat]? = some param
      ∧ stmt.params_data[(n - 1).toNat]? = some data
      ∧ (stmt_bind H W stmt n (.integer v) A).obj.params
          = stmt.params.set (n - 1).toNat
              { param with buffer_type := MYSQL_TYPE_LONG, buffer := .integer (n - 1).toNat,
                           buffer_length := 4 }
      ∧ (stmt_bind H W stmt n (.integer v) A).obj.params_data
          = stmt.params_data.set (n - 1).toNat { data with integer := v } := by
  have hidx : to_int (to_long (n - 1)) = n - 1 := by
    norm_num at hp
    exact to_int_to_long_of_range (n - 1) (by norm_num; omega) (by norm_num; omega)
  have hu : to_unsigned (n - 1) = (n - 1).toNat := by
    unfold to_unsigned
    norm_num at hp ⊢
    omega
  have hi1 : (n - 1).toNat < stmt.params.length := by omega
  have hi2 : (n - 1).toNat < stmt.params_data.length := by omega
  refine ⟨stmt.params[(n - 1).toNat], stmt.params_data[(n - 1).toNat],
    List.getElem?_eq_getElem hi1, List.getElem?_eq_getElem hi2, ?_, ?_⟩
  · unfold stmt_bind
    simp only [hidx, hu, List.getElem?_eq_getElem hi1, List.getElem?_eq_getElem hi2]
    rw [if_neg (by omega)]
    split_ifs <;> rfl
  · unfold stmt_bind
    simp only [hidx, hu, List.getElem?_eq_getElem hi1, List.getElem?_eq_getElem hi2,
      to_int_of_range v hv1 hv2]
    rw [if_neg (by omega)]
    split_ifs <;> rfl

/-- C9 fails on the code: with one parameter, the index `2^32 + 1` is larger
than `num_params`, yet `stmt_bind` raises no error: the index becomes 0 when
it is converted to `int`, the call returns true, and slot 0 of both arrays is
written. -/
theorem stmt_bind_accepts_index_beyond_num_params :
    (4294967297 : Int) > example_stmt.num_params
    ∧ (stmt_bind example_luasql example_world example_stmt 4294967297 (.integer 5)
        example_answers).ret = .ok [.boolean true]
    ∧ (stmt_bind example_luasql example_world example_stmt 4294967297 (.integer 5)
        example_answers).obj.params = [⟨MYSQL_TYPE_LONG, .integer 0, 4⟩]
    ∧ (stmt_bind example_luasql example_world example_stmt 4294967297 (.integer 5)
        example_answers).obj.params_data = [⟨5, 0, 0, none, 0⟩] := by
  refine ⟨by decide, rfl, rfl, rfl⟩

/-- C10 fails on the code: binding the Lua integer `2^32` to parameter 1
leaves the type `MYSQL_TYPE_LONG` and a buffer that holds 0, and binding
`2^31` leaves a buffer that holds `-2^31`: the value is stored in an `int`. -/
theorem stmt_bind_truncates_integer :
    (stmt_bind example_luasql example_world example_stmt 1 (.integer 4294967296)
        example_answers).ret = .ok [.boolean true]
    ∧ (stmt_bind example_luasql example_world example_stmt 1 (.integer 4294967296)
        example_answers).obj.params = [⟨MYSQL_TYPE_LONG, .integer 0, 4⟩]
    ∧ (stmt_bind example_luasql example_world example_stmt 1 (.integer 4294967296)
        example_answers).obj.params_data = [⟨0, 0, 0, none, 0⟩]
    ∧ (stmt_bind example_luasql example_world example_stmt 1 (.integer 2147483648)
        example_answers).obj.params_data = [⟨-2147483648, 0, 0, none, 0⟩] := by
  refine ⟨rfl, rfl, rfl, rfl⟩

/-! ## The next result set -/

/-- C12: on an open cursor `cur_next_result` returns exactly one of these.
When the client library reports no more results: false and -1, with the
cursor unchanged.  When `mysql_next_result` returns 0 and a result set is
stored: true, after `mysql_free_result` on the old result and with the new
one installed.  When `mysql_next_result` returns 0 and no result set is
stored: false, `mysql_errno` and `mysql_error`.  When `mysql_next_result`
returns another status: false, the status and a name, which is
"CR_COMMANDS_OUT_OF_SYNC", "CR_SERVER_GONE_ERROR", "CR_SERVER_LOST" or
"CR_UNKNOWN_ERROR" for the status equal to that code and "Unknown" for every
other status; the cursor is unchanged. -/
theorem cur_next_result_outcomes (W : World) (cur : cur_data) (A : Answers)
    (hopen : cur.closed = 0) :
    (A.mysql_more_results = false →
      (cur_next_result W cur A).ret = .ok [.boolean false, .integer (-1)]
      ∧ (cur_next_result W cur A).obj = cur)
    ∧ (A.mysql_more_results = true → A.mysql_next_result = 0 → A.mysql_store_result ≠ 0 →
      (cur_next_result W cur A).ret = .ok [.boolean true]
      ∧ (cur_next_result W cur A).obj = { cur with my_res := A.mysql_store_result }
      ∧ (cur_next_result W cur A).W.trace
          = W.trace ++ [.mysql_more_results cur.my_conn, .mysql_next_result cur.my_conn,
              .mysql_free_result cur.my_res, .mysql_store_result cur.my_conn])
    ∧ (A.mysql_more_results = true → A.mysql_next_result = 0 → A.mysql_store_result = 0 →
      (cur_next_result W cur A).ret
        = .ok [.boolean false, .integer A.mysql_errno, .string A.mysql_error])
    ∧ (A.mysql_more_results = true → A.mysql_next_result ≠ 0 →
      ∃ name : String,
        (cur_next_result W cur A).ret
          = .ok [.boolean false, .integer A.mysql_next_result, .string name]
        ∧ (cur_next_result W cur A).obj = cur
        ∧ (A.mysql_next_result = CR_COMMANDS_OUT_OF_SYNC → name = "CR_COMMANDS_OUT_OF_SYNC")
        ∧ (A.mysql_next_result = CR_SERVER_GONE_ERROR → name = "CR_SERVER_GONE_ERROR")
        ∧ (A.mysql_next_result = CR_SERVER_LOST → name = "CR_SERVER_LOST")
        ∧ (A.mysql_next_result = CR_UNKNOWN_ERROR → name = "CR_UNKNOWN_ERROR")
        ∧ (A.mysql_next_result ≠ CR_COMMANDS_OUT_OF_SYNC →
            A.mysql_next_result ≠ CR_SERVER_GONE_ERROR →
            A.mysql_next_result ≠ CR_SERVER_LOST →
            A.mysql_next_result ≠ CR_UNKNOWN_ERROR → name = "Unknown")) := by
  refine ⟨?_, ?_, ?_, ?_⟩
  · intro h
    simp [cur_next_result, getcursor, hopen, h]
  · intro h1 h2 h3
    simp [cur_next_result, getcursor, hopen, h1, h2, h3, World.call]
  · intro h1 h2 h3
    simp [cur_next_result, getcursor, hopen, h1, h2, h3]
  · intro h1 h2
    refine ⟨(if A.mysql_next_result = CR_COMMANDS_OUT_OF_SYNC then "CR_COMMANDS_OUT_OF_SYNC"
      else if A.mysql_next_result = CR_SERVER_GONE_ERROR then "CR_SERVER_GONE_ERROR"
      else if A.mysql_next_result = CR_SERVER_LOST then "CR_SERVER_LOST"
      else if A.mysql_next_result = CR_UNKNOWN_ERROR then "CR_UNKNOWN_ERROR"
      else "Unknown"), ?_, ?_, ?_, ?_, ?_, ?_, ?_⟩
    · simp only [cur_next_result, getcursor, hopen, h1, h2, ne_eq, not_true_eq_false, if_false,
        if_true]
    · simp only [cur_next_result, getcursor, hopen, h1, h2, ne_eq, not_true_eq_false, if_false,
        if_true]
    · intro h; simp [h]
    · intro h; rw [h]; decide
    · intro h; rw [h]; decide
    · intro h; rw [h]; decide
    · intro h3 h4 h5 h6; simp [h3, h4, h5, h6]

/-- Witness of C12: on the open example cursor, when a second result set is
stored, `cur_next_result` returns true and installs the handle 101. -/
theorem cur_next_result_outcomes_witness :
    example_cursor.closed = 0
    ∧ (cur_next_result example_world example_cursor example_answers_next).ret
        = .ok [.boolean true]
    ∧ (cur_next_result example_world example_cursor example_answers_next).obj.my_res = 101 :=
  ⟨rfl,
    ((cur_next_result_outcomes example_world example_cursor example_answers_next rfl).2.1
      rfl rfl (by decide)).1,
    by rw [((cur_next_result_outcomes example_world example_cursor example_answers_next rfl).2.1
      rfl rfl (by decide)).2.1]; rfl⟩

theorem cur_next_result_keeps_column_info (W : World) (cur : cur_data) (A : Answers) :
    (cur_next_result W cur A).obj.numcols = cur.numcols
    ∧ (cur_next_result W cur A).obj.colnames = cur.colnames
    ∧ (cur_next_result W cur A).obj.coltypes = cur.coltypes := by
  unfold cur_next_result getcursor
  by_cases h1 : cur.closed = 0
  · by_cases h2 : A.mysql_more_results = true
    · by_cases h3 : A.mysql_next_result = 0
      · by_cases h4 : A.mysql_store_result = 0 <;> simp [h1, h2, h3, h4]
      · simp [h1, h2, h3]
    · simp [h1, h2]
  · simp [h1]

/-- C15 fails on the code: the example cursor has two columns and, after
`getcolnames`, cached column information (names in the table at address 1).
`cur_next_result` then succeeds and installs a result set of one column named
`total`, but the cursor still has `numcols` 2 and the same `colnames` and
`coltypes` references: `getcolnames` still returns the table with the old
names `id` and `name`, and a fetch reads two cells from the one-cell row,
past its end. -/
theorem cur_next_result_keeps_stale_columns :
    (cur_next_result (cur_getcolnames example_world example_cursor example_answers).W
        (cur_getcolnames example_world example_cursor example_answers).obj
        example_answers_next).ret = .ok [.boolean true]
    ∧ (cur_next_result (cur_getcolnames example_world example_cursor example_answers).W
        (cur_getcolnames example_world example_cursor example_answers).obj
        example_answers_next).obj
      = { closed := 0, conn := 1, numcols := 2, colnames := 3, coltypes := 2, my_res := 101,
          my_conn := 200 }
    ∧ example_answers_next.mysql_field_count = 1
    ∧ (cur_getcolnames
        (cur_next_result (cur_getcolnames example_world example_cursor example_answers).W
          (cur_getcolnames example_world example_cursor example_answers).obj
          example_answers_next).W
        (cur_next_result (cur_getcolnames example_world example_cursor example_answers).W
          (cur_getcolnames example_world example_cursor example_answers).obj
          example_answers_next).obj
        example_answers_next).ret = .ok [.table 1]
    ∧ (cur_next_result (cur_getcolnames example_world example_cursor example_answers).W
        (cur_getcolnames example_world example_cursor example_answers).obj
        example_answers_next).W.tables.getD 1 []
      = [(.integer 2, .string "name"), (.integer 1, .string "id")]
    ∧ (cur_fetch example_luasql
        (cur_next_result (cur_getcolnames example_world example_cursor example_answers).W
          (cur_getcolnames example_world example_cursor example_answers).obj
          example_answers_next).W
        (cur_next_result (cur_getcolnames example_world example_cursor example_answers).W
          (cur_getcolnames example_world example_cursor example_answers).obj
          example_answers_next).obj
        .nil none example_answers_next).ret
      = .error (.undefined "read past the end of the row") := by
  refine ⟨rfl, rfl, rfl, rfl, rfl, rfl⟩

/-! ## The lists of column names and types -/

theorem registry_max_ge (l : List (Int × LuaValue)) (m0 : Int) :
    m0 ≤ l.foldl (fun m e => max m e.1) m0
    ∧ ∀ e ∈ l, e.1 ≤ l.foldl (fun m e => max m e.1) m0 := by
  induction l generalizing m0 with
  | nil => simp
  | cons a l ih =>
    obtain ⟨h1, h2⟩ := ih (max m0 a.1)
    refine ⟨le_trans (le_max_left _ _) h1, ?_⟩
    intro e he
    rcases List.mem_cons.mp he with h | h
    · rw [h]; exact le_trans (le_max_right _ _) h1
    · exact h2 e h

theorem luaL_ref_fresh (W : World) (v : LuaValue) (hv : v ≠ .nil) :
    1 ≤ (luaL_ref W v).1 ∧ (∀ e ∈ W.registry, e.1 < (luaL_ref W v).1)
    ∧ (luaL_ref W v).2 = { W with registry := ((luaL_ref W v).1, v) :: W.registry } := by
  simp only [luaL_ref, hv, if_false]
  obtain ⟨h1, h2⟩ := registry_max_ge W.registry 0
  refine ⟨by omega, fun e he => ?_, trivial⟩
  have := h2 e he
  omega

theorem label_fits (t : Nat) :
    String.mk ((getcolumntype t).toList.take 20) = getcolumntype t
    ∧ (getcolumntype t).length ≤ 9 := by
  have h := getcolumntype_mem t
  simp only [List.mem_cons, List.mem_singleton, List.not_mem_nil, or_false] at h
  rcases h with h | h | h | h | h | h | h | h | h | h <;> rw [h] <;> exact ⟨rfl, by decide⟩

theorem typename_text_eq (f : MYSQL_FIELD) (h : f.length < 2 ^ 63) :
    typename_text f = getcolumntype f.type ++ "(" ++ toString f.length ++ ")" := by
  unfold typename_text
  rw [(label_fits f.type).1, to_long_of_lt _ h]
  rfl

theorem create_colinfo_loop_types (fields : List MYSQL_FIELD) (names types : Nat)
    (hnt : names ≠ types) (cols : List Nat) (W : World) (hty : types < W.tables.length)
    (hc : ∀ i ∈ cols, 1 ≤ i ∧ i ≤ fields.length) :
    (create_colinfo_loop fields names types cols W).2.tables.getD types []
      = (W.tables.getD types []).write_all (cols.map
          (fun (i : Nat) => (.integer (i : Int),
            .string ((fields.map typename_text).getD (i - 1) "")))) := by
  induction cols generalizing W with
  | nil => rfl
  | cons i cols ih =>
    have hi := hc i (List.mem_cons_self _ _)
    have hlt : i - 1 < fields.length := by omega
    have hstep : create_colinfo_loop fields names types (i :: cols) W
        = create_colinfo_loop fields names types cols
          ((W.write_all names [(.integer (i : Int), .string fields[i - 1].name)]).write_all types
            [(.integer (i : Int), .string (typename_text fields[i - 1]))]) := by
      rw [create_colinfo_loop]
      unfold create_colinfo_step
      rw [List.getElem?_eq_getElem hlt]
      simp only [sprintf_typename_ok, create_colinfo_type, lua_rawseti_eq, typename_text]
    rw [hstep, ih _ (by rw [World.write_all_length, World.write_all_length]; exact hty)
      (fun j hj => hc j (List.mem_cons_of_mem _ hj))]
    have hty2 : types < (W.write_all names
        [(.integer (i : Int), .string fields[i - 1].name)]).tables.length := by
      rw [World.write_all_length]; exact hty
    simp only [World.write_all] at hty2 ⊢
    rw [getD_set_self _ _ _ hty2, getD_set_ne _ _ _ _ hnt]
    simp only [List.map_cons, LuaTable.write_all, List.foldl_cons, List.foldl_nil,
      List.getD_eq_getElem?_getD, List.getElem?_map, List.getElem?_eq_getElem hlt,
      Option.map_some', Option.getD_some]

theorem sprintf_typename_fits (type len : Nat) (h : len < 2 ^ 63) :
    sprintf_typename (getcolumntype type) len
      = .ok (getcolumntype type ++ "(" ++ toString len ++ ")")
    ∧ (getcolumntype type ++ "(" ++ toString len ++ ")").length + 1 ≤ 50 := by
  have h1 := sprintf_typename_ok (getcolumntype type) len
  have h2 : String.mk ((getcolumntype type).toList.take 20) ++ "(" ++ toString (to_long len) ++ ")"
      = getcolumntype type ++ "(" ++ toString len ++ ")" := by
    rw [(label_fits type).1, to_long_of_lt _ h]
    rfl
  rw [h2] at h1
  refine ⟨h1, ?_⟩
  have h3 := (label_fits type).2
  have h4 : (toString len).length ≤ 19 :=
    Nat.repr_length len 19 (by norm_num) (by norm_num at h ⊢; omega)
  have h5 : "(".length = 1 := rfl
  have h6 : ")".length = 1 := rfl
  simp only [String.length_append]
  omega

theorem registry_get_second (W : World) (r1 r2 : Int) (v1 v2 : LuaValue)
    (rest : List (Int × LuaValue)) (h : r2 ≠ r1) :
    registry_get { W with registry := (r2, v2) :: (r1, v1) :: rest } r1 = v1 := by
  simp [registry_get, List.find?, h]

/-- C13: for a cursor with `n` columns whose result the client library
describes by `n` fields, `create_colinfo` succeeds and builds two new tables.
The names table has exactly the keys `1..n`, key `i+1` holding the name of
field `i`; the types table has exactly the keys `1..n`, key `i+1` holding the
text written by `sprintf`, which, for a field length below `2^63`, is the
label `getcolumntype` gives the field's type, "(", the length in decimal and
")".  For every type code and every length below `2^63` that text is produced
whole and, with its terminator, takes at most 50 bytes.  The reference stored
in `colnames` leads to the names table and the one stored in `coltypes` to
the types table; no other member of the cursor changes. -/
theorem create_colinfo_lists (W : World) (cur : cur_data) (A : Answers) (n : Nat)
    (hcols : cur.numcols = (n : Int)) (hf : A.mysql_fetch_fields.length = n) :
    (∀ type len : Nat, len < 2 ^ 63 →
      sprintf_typename (getcolumntype type) len
        = .ok (getcolumntype type ++ "(" ++ toString len ++ ")")
      ∧ (getcolumntype type ++ "(" ++ toString len ++ ")").length + 1 ≤ 50)
    ∧ ∃ cur1 W1, create_colinfo W cur A = (.ok (), cur1, W1)
      ∧ registry_get W1 cur1.colnames = .table W.tables.length
      ∧ registry_get W1 cur1.coltypes = .table (W.tables.length + 1)
      ∧ cur1 = { cur with colnames := cur1.colnames, coltypes := cur1.coltypes }
      ∧ (∀ i, i < n → ∃ f, A.mysql_fetch_fields[i]? = some f
          ∧ W1.rawget W.tables.length (.integer ((i : Int) + 1)) = .string f.name
          ∧ W1.rawget (W.tables.length + 1) (.integer ((i : Int) + 1))
              = .string (typename_text f)
          ∧ (f.length < 2 ^ 63 →
              typename_text f = getcolumntype f.type ++ "(" ++ toString f.length ++ ")"))
      ∧ (∀ k : LuaValue, (∀ i, i < n → k ≠ .integer ((i : Int) + 1)) →
          W1.rawget W.tables.length k = .nil ∧ W1.rawget (W.tables.length + 1) k = .nil) := by
  refine ⟨sprintf_typename_fits, ?_⟩
  have hW0 : ∃ W0 : World, W0 = World.mk (W.tables ++ [[]] ++ [[]]) W.registry W.udata
      W.stack_free (W.trace ++ [.mysql_fetch_fields cur.my_res]) := ⟨_, rfl⟩
  obtain ⟨W0, hW0⟩ := hW0
  have hlen0 : W0.tables.length = W.tables.length + 2 := by
    rw [hW0]; simp
  have hc : ∀ i ∈ (List.range n).map (fun i => i + 1),
      1 ≤ i ∧ i ≤ A.mysql_fetch_fields.length := by
    intro i hi
    simp only [List.mem_map, List.mem_range] at hi
    obtain ⟨j, hj, rfl⟩ := hi
    omega
  obtain ⟨W1, h1, h2, h3, h4, h5, h6, h7, h8⟩ :=
    create_colinfo_loop_spec A.mysql_fetch_fields W.tables.length (W.tables.length + 1)
      (by omega) ((List.range n).map (fun i => i + 1)) W0 (by omega) hc
  have h9 := create_colinfo_loop_types A.mysql_fetch_fields W.tables.length
    (W.tables.length + 1) (by omega) ((List.range n).map (fun i => i + 1)) W0 (by omega) hc
  rw [h1] at h9
  have hn0 : W0.tables.getD W.tables.length [] = [] := by
    rw [hW0]
    simp only [List.getD_eq_getElem?_getD, List.append_assoc]
    rw [List.getElem?_append_right (le_refl _)]
    simp
  have ht0 : W0.tables.getD (W.tables.length + 1) [] = [] := by
    rw [hW0]
    simp only [List.getD_eq_getElem?_getD, List.append_assoc]
    rw [List.getElem?_append_right (by omega)]
    simp
  rw [hn0] at h8
  rw [ht0] at h9
  obtain ⟨f1, f2, f3⟩ := luaL_ref_fresh W1 (.table (W.tables.length + 1)) (by simp)
  obtain ⟨g1, g2, g3⟩ := luaL_ref_fresh (luaL_ref W1 (.table (W.tables.length + 1))).2
    (.table W.tables.length) (by simp)
  have hrun : create_colinfo W cur A
      = (.ok (), { cur with
            coltypes := (luaL_ref W1 (.table (W.tables.length + 1))).1,
            colnames := (luaL_ref (luaL_ref W1 (.table (W.tables.length + 1))).2
              (.table W.tables.length)).1 },
          (luaL_ref (luaL_ref W1 (.table (W.tables.length + 1))).2 (.table W.tables.length)).2) := by
    unfold create_colinfo
    simp only [lua_newtable, hcols, Int.toNat_ofNat, World.call, List.length_append,
      List.length_singleton]
    rw [hW0] at h1
    rw [h1]
  have htab : (luaL_ref (luaL_ref W1 (.table (W.tables.length + 1))).2
      (.table W.tables.length)).2.tables = W1.tables := by
    rw [g3, f3]
  refine ⟨_, _, hrun, ?_, ?_, rfl, ?_, ?_⟩
  · rw [g3]
    exact registry_get_cons _ _ _ _
  · rw [g3, f3]
    apply registry_get_second
    have := g2 ((luaL_ref W1 (.table (W.tables.length + 1))).1, .table (W.tables.length + 1))
      (by rw [f3]; exact List.mem_cons_self _ _)
    rw [f3] at this
    exact ne_of_gt this
  · intro i hi
    have hlt : i < A.mysql_fetch_fields.length := by omega
    refine ⟨A.mysql_fetch_fields[i], List.getElem?_eq_getElem hlt, ?_, ?_,
      typename_text_eq _⟩
    · simp only [World.rawget, htab, h8]
      apply LuaTable.rawget_write_all_last _ _ i
      · simp [List.getElem?_map, List.getElem?_range hi, List.getD_eq_getElem?_getD,
          List.getElem?_eq_getElem hlt]
      · intro j e hj he
        by_cases hjn : j < n
        · simp [List.getElem?_map, List.getElem?_range hjn] at he
          rw [← he]
          simp
          omega
        · rw [List.getElem?_eq_none (by simp; omega)] at he
          simp at he
    · simp only [World.rawget, htab, h9]
      apply LuaTable.rawget_write_all_last _ _ i
      · simp [List.getElem?_map, List.getElem?_range hi, List.getD_eq_getElem?_getD,
          List.getElem?_eq_getElem hlt]
      · intro j e hj he
        by_cases hjn : j < n
        · simp [List.getElem?_map, List.getElem?_range hjn] at he
          rw [← he]
          simp
          omega
        · rw [List.getElem?_eq_none (by simp; omega)] at he
          simp at he
  · intro k hk
    simp only [World.rawget, htab, h8, h9]
    constructor
    · rw [LuaTable.rawget_write_all_other]
      · rfl
      · intro e he hek
        simp only [List.mem_map, List.mem_range] at he
        obtain ⟨i1, ⟨j, hj, rfl⟩, rfl⟩ := he
        exact hk j hj (by rw [← hek]; simp)
    · rw [LuaTable.rawget_write_all_other]
      · rfl
      · intro e he hek
        simp only [List.mem_map, List.mem_range] at he
        obtain ⟨i1, ⟨j, hj, rfl⟩, rfl⟩ := he
        exact hk j hj (by rw [← hek]; simp)

/-- Witness of C13: for the example cursor and its two fields, the names are
stored under `colnames` and the types under `coltypes`. -/
theorem create_colinfo_lists_witness :
    example_cursor.numcols = 2 ∧ example_answers.mysql_fetch_fields.length = 2
    ∧ ∃ cur1 W1, create_colinfo example_world example_cursor example_answers = (.ok (), cur1, W1)
      ∧ registry_get W1 cur1.colnames = .table 1
      ∧ registry_get W1 cur1.coltypes = .table 2 :=
  ⟨rfl, rfl,
    (create_colinfo_lists example_world example_cursor example_answers 2 rfl rfl).2.imp
      (fun _ h => h.imp (fun _ h2 => ⟨h2.1, h2.2.1, h2.2.2.1⟩))⟩

/-! ## Statement cursors -/

set_option maxRecDepth 100000 in
theorem example_stmt_cursor_eq :
    example_stmt_cursor
      = { closed := 0, stmt := 300, num_fields := 1, bind := 0, my_res := 100,
          fields := [⟨"bio", 253, 1024⟩], row_data := [some (List.replicate 1024 'z')],
          lengths := [0], is_null := [false], stmt_ref := 2 } := by
  rfl

set_option maxRecDepth 100000 in
theorem stmt_cur_fetch_example_text :
    (stmt_cur_fetch example_stmt_world example_stmt_cursor none example_fetch_text).ret
      = .ok [.table 1]
    ∧ (stmt_cur_fetch example_stmt_world example_stmt_cursor none
        example_fetch_text).W.tables.getD 1 [] = [(.integer 1, .string "abc")]
    ∧ (stmt_cur_fetch example_stmt_world example_stmt_cursor (some "a")
        example_fetch_text).W.tables.getD 1 [] = [(.string "bio", .string "abc")] := by
  refine ⟨rfl, rfl, rfl⟩

theorem write_block_length (old written : List Char) :
    (write_block old written).length = old.length := by
  unfold write_block
  simp only [List.length_take, List.length_append, List.length_drop]
  omega

theorem write_blocks_get (bs : List (Option (List Char))) (ws : List (List Char)) (i : Nat)
    (block : List Char) (h : (write_blocks bs ws)[i]? = some (some block)) :
    ∃ old, bs[i]? = some (some old) ∧ block.length = old.length := by
  induction bs generalizing ws i with
  | nil => simp [write_blocks] at h
  | cons b bs ih =>
    cases ws with
    | nil => exact ⟨block, h, rfl⟩
    | cons w ws =>
      cases i with
      | zero =>
        simp only [write_blocks, List.getElem?_cons_zero, Option.some.injEq] at h ⊢
        cases b with
        | none => simp at h
        | some old =>
          simp only [Option.map_some', Option.some.injEq] at h
          exact ⟨old, rfl, by rw [← h, write_block_length]⟩
      | succ i =>
        simp only [write_blocks, List.getElem?_cons_succ] at h ⊢
        exact ih ws i h

theorem create_stmt_cursor_blocks (W : World) (self : LuaValue) (stmt result : Nat)
    (num_fields : Int) (fields : List MYSQL_FIELD) (closed0 : Int) (fill : Char) (i : Nat)
    (hi : (i : Int) < num_fields) :
    ∃ block,
      (create_stmt_cursor W self stmt result num_fields fields false closed0 fill).obj.row_data[i]?
        = some (some block) ∧ block.length = 1024 := by
  refine ⟨List.replicate 1024 fill, ?_, List.length_replicate _ _⟩
  have hi2 : i < num_fields.toNat := by omega
  unfold create_stmt_cursor
  simp only [Bool.false_eq_true, if_false, List.getElem?_map, List.getElem?_range hi2,
    Option.map_some']

/-- The terminator write of `stmt_cur_fetch` for a column that is not null:
it is past the end of the column buffer exactly when `lengths[i]` is at
least the size of the buffer. -/
theorem stmt_cur_fetch_value_terminator (cur : stmt_cur_data) (i len : Nat) (block : List Char)
    (h1 : cur.is_null[i]? = some false) (h2 : cur.lengths[i]? = some len)
    (h3 : cur.row_data[i]? = some (some block)) :
    ((stmt_cur_fetch_value cur i).1 = .error (.undefined "write past the end of the column buffer")
      ↔ block.length ≤ len)
    ∧ (len < block.length →
        (stmt_cur_fetch_value cur i).1
          = .ok (.string (String.mk (c_bytes (block.set len (Char.ofNat 0)))))) := by
  unfold stmt_cur_fetch_value
  simp only [h1, h2, h3]
  by_cases h : len < block.length
  · simp only [h, if_true, true_implies, and_true]
    constructor
    · intro hc; cases hc
    · intro hc; omega
  · simp only [h, if_false, false_implies, and_true, true_iff]
    omega

set_option maxRecDepth 100000 in
/-- C14 fails on the code: a column value of exactly 1024 bytes fills the
1024-byte column buffer that `create_stmt_cursor` allocated,
`mysql_stmt_fetch` succeeds with `lengths[0] = 1024`, and the terminator write
of `stmt_cur_fetch` then goes to index 1024, one past the last byte of the
buffer; with 1023 it would be the last byte. -/
theorem stmt_cur_fetch_terminator_past_buffer :
    example_stmt_cursor.row_data.map (Option.map List.length) = [some 1024]
    ∧ (stmt_fetch_write example_stmt_cursor example_fetch_full).row_data.map
        (Option.map List.length) = [some 1024]
    ∧ (stmt_fetch_write example_stmt_cursor example_fetch_full).lengths = [1024]
    ∧ example_fetch_full.status = 0
    ∧ (stmt_cur_fetch example_stmt_world example_stmt_cursor none example_fetch_full).ret
        = .error (.undefined "write past the end of the column buffer") := by
  refine ⟨rfl, rfl, rfl, rfl, rfl⟩

set_option maxRecDepth 100000 in
/-- C11 fails on the code: after a successful `mysql_stmt_fetch` of a column
value of three bytes `a`, zero, `b` (`lengths[0] = 3`, not null),
`stmt_cur_fetch` returns a new table whose entry for the column is the string
"a", not the string of the first three bytes of the column buffer: the value
is read as a C string and stops at the first zero byte. -/
theorem stmt_cur_fetch_stops_at_zero_byte :
    (stmt_fetch_write example_stmt_cursor example_fetch_zero).lengths = [3]
    ∧ (stmt_fetch_write example_stmt_cursor example_fetch_zero).row_data.map
        (Option.map (List.take 3)) = [some ['a', Char.ofNat 0, 'b']]
    ∧ (stmt_cur_fetch example_stmt_world example_stmt_cursor none example_fetch_zero).ret
        = .ok [.table 1]
    ∧ (stmt_cur_fetch example_stmt_world example_stmt_cursor none
        example_fetch_zero).W.tables.getD 1 [] = [(.integer 1, .string "a")]
    ∧ LuaValue.string "a" ≠ .string (String.mk ['a', Char.ofNat 0, 'b']) := by
  refine ⟨rfl, rfl, rfl, rfl, by decide⟩

theorem stmt_cur_fetch_closed_no_data (W : World) (cur : stmt_cur_data) (arg2 : Option String)
    (F : stmt_fetch_answer) (hc : cur.closed ≠ 0) (hs : F.status ≠ 0) :
    (stmt_cur_fetch W cur arg2 F).ret = .ok [.nil]
    ∧ (stmt_cur_fetch W cur arg2 F).W.trace = W.trace ++ [.mysql_stmt_fetch cur.stmt] := by
  simp [stmt_cur_fetch, hs, stmt_cur_nullify, stmt_fetch_write, hc, World.call]

set_option maxRecDepth 100000 in
/-- C16 fails on the code: on the example statement cursor closed by
`stmt_cur_close` (closed is 1, the column buffer and the result are freed), a
later `stmt_cur_fetch` does call `mysql_stmt_fetch`; when that reports no
data the call returns nil without any error, and when it reports a row the
call goes on to read `is_null`, `lengths` and the freed column buffer; a
later `stmt_cur_fields` returns a table with the name read from `fields`. -/
theorem stmt_cur_use_after_close :
    example_stmt_closed.closed = 1
    ∧ example_stmt_closed.row_data = [none]
    ∧ example_stmt_closed_world.trace = [.mysql_stmt_bind_result 300, .mysql_free_result 100]
    ∧ (stmt_cur_fetch example_stmt_closed_world example_stmt_closed none example_fetch_end).ret
        = .ok [.nil]
    ∧ (stmt_cur_fetch example_stmt_closed_world example_stmt_closed none
        example_fetch_end).W.trace
        = [.mysql_stmt_bind_result 300, .mysql_free_result 100, .mysql_stmt_fetch 300]
    ∧ (stmt_cur_fetch example_stmt_closed_world example_stmt_closed none example_fetch_text).ret
        = .error (.undefined "use of a freed column buffer")
    ∧ (stmt_cur_fetch example_stmt_closed_world example_stmt_closed none
        example_fetch_text).W.trace
        = [.mysql_stmt_bind_result 300, .mysql_free_result 100, .mysql_stmt_fetch 300]
    ∧ (stmt_cur_fields example_stmt_closed_world example_stmt_closed).ret = .ok [.table 1]
    ∧ (stmt_cur_fields example_stmt_closed_world example_stmt_closed).W.tables.getD 1 []
        = [(.integer 1, .string "bio")] := by
  refine ⟨rfl, rfl, rfl, rfl, rfl, rfl, rfl, rfl, rfl⟩

/-! ## Statement cursors: where the fetch gives the column bytes -/

theorem c_bytes_set (block : List Char) (len : Nat) (h : len < block.length)
    (hz : ∀ c ∈ block.take len, c ≠ Char.ofNat 0) :
    c_bytes (block.set len (Char.ofNat 0)) = block.take len := by
  induction block generalizing len with
  | nil => simp at h
  | cons b bs ih =>
    cases len with
    | zero => simp [c_bytes, List.takeWhile]
    | succ n =>
      have hb : b ≠ Char.ofNat 0 := hz b (by simp)
      have := ih n (by simpa using h) (fun c hc => hz c (by simp [hc]))
      simp only [c_bytes] at this ⊢
      rw [List.set_cons_succ, List.takeWhile_cons, List.take_succ_cons, ← this]
      simp [hb]

/-- The value `stmt_cur_fetch` pushes for a column that is not null, whose
length is less than the size of the column buffer and whose bytes hold no
zero byte: the string of the first `lengths[i]` bytes of the buffer. -/
theorem stmt_cur_fetch_value_text (cur : stmt_cur_data) (i len : Nat) (block : List Char)
    (h1 : cur.is_null[i]? = some false) (h2 : cur.lengths[i]? = some len)
    (h3 : cur.row_data[i]? = some (some block)) (hlen : len < block.length)
    (hz : ∀ c ∈ block.take len, c ≠ Char.ofNat 0) :
    (stmt_cur_fetch_value cur i).1 = .ok (.string (String.mk (block.take len))) := by
  rw [(stmt_cur_fetch_value_terminator cur i len block h1 h2 h3).2 hlen,
    c_bytes_set block len hlen hz]

/-- When `mysql_stmt_fetch` returns non-zero on an open statement cursor,
`stmt_cur_fetch` returns the single value nil and closes the cursor. -/
theorem stmt_cur_fetch_no_data (W : World) (cur : stmt_cur_data) (arg2 : Option String)
    (F : stmt_fetch_answer) (hc : cur.closed = 0) (hs : F.status ≠ 0) :
    (stmt_cur_fetch W cur arg2 F).ret = .ok [.nil]
    ∧ (stmt_cur_fetch W cur arg2 F).obj.closed = 1 := by
  by_cases hr : cur.my_res = 0 <;>
    simp [stmt_cur_fetch, hs, stmt_cur_nullify, stmt_fetch_write, hc, hr]

/-! ## The lifetime of a cursor -/

theorem Quiet.refl (W : World) : Quiet W W :=
  ⟨[], by simp, by simp, fun _ h => h⟩

theorem Quiet.trans {W1 W2 W3 : World} (h1 : Quiet W1 W2) (h2 : Quiet W2 W3) : Quiet W1 W3 := by
  obtain ⟨d1, e1, q1, r1⟩ := h1
  obtain ⟨d2, e2, q2, r2⟩ := h2
  refine ⟨d1 ++ d2, by rw [e2, e1, List.append_assoc], ?_, fun e he => r2 e (r1 e he)⟩
  intro c hc
  rcases List.mem_append.mp hc with h | h
  · exact q1 c h
  · exact q2 c h

theorem Quiet.of_eq {W W1 : World} (ht : W1.trace = W.trace) (hr : W1.registry = W.registry) :
    Quiet W W1 :=
  ⟨[], by simp [ht], by simp, fun e he => by rw [hr]; exact he⟩

theorem Quiet.call (W : World) (c : Call) (hc : c.isRelease = false) : Quiet W (W.call c) :=
  ⟨[c], rfl, by simpa using hc, fun _ h => h⟩

theorem RefInv.of_quiet {cur cur1 : cur_data} {W W1 : World} (h : RefInv cur W)
    (hq : Quiet W W1) (h1 : cur1.conn = cur.conn) (h2 : cur1.colnames = cur.colnames)
    (h3 : cur1.coltypes = cur.coltypes) : RefInv cur1 W1 := by
  obtain ⟨a, b, c⟩ := h
  obtain ⟨_, _, _, hr⟩ := hq
  refine ⟨by rw [h1, h2]; exact a, by rw [h1, h3]; exact b, ?_⟩
  rw [h1]
  intro h0
  obtain ⟨v, hv⟩ := c h0
  exact ⟨v, hr _ hv⟩

theorem fetch_numeric_quiet (row : MYSQL_ROW) (lengths : List Nat) (t : Nat) (cols : List Nat)
    (W : World) :
    (fetch_numeric row lengths t cols W).2.trace = W.trace
    ∧ (fetch_numeric row lengths t cols W).2.registry = W.registry := by
  induction cols generalizing W with
  | nil => exact ⟨rfl, rfl⟩
  | cons i cols ih =>
    rw [fetch_numeric]
    cases fetch_column row lengths i with
    | error e => exact ⟨rfl, rfl⟩
    | ok v => exact ih _

theorem fetch_alpha_quiet (row : MYSQL_ROW) (lengths : List Nat) (t : Nat) (names : LuaValue)
    (cols : List Nat) (W : World) :
    (fetch_alpha row lengths t names cols W).2.trace = W.trace
    ∧ (fetch_alpha row lengths t names cols W).2.registry = W.registry := by
  induction cols generalizing W with
  | nil => exact ⟨rfl, rfl⟩
  | cons i cols ih =>
    rw [fetch_alpha]
    cases lua_rawgeti W names (↑i + 1) with
    | error e => exact ⟨rfl, rfl⟩
    | ok name =>
      cases fetch_column row lengths i with
      | error e => exact ⟨rfl, rfl⟩
      | ok v =>
        by_cases hk : name = .nil
        · simp [lua_rawset, hk]
        · simp only [lua_rawset, hk, if_false]
          exact ih _

theorem create_colinfo_loop_quiet (fields : List MYSQL_FIELD) (names types : Nat)
    (cols : List Nat) (W : World) :
    (create_colinfo_loop fields names types cols W).2.trace = W.trace
    ∧ (create_colinfo_loop fields names types cols W).2.registry = W.registry := by
  induction cols generalizing W with
  | nil => exact ⟨rfl, rfl⟩
  | cons i cols ih =>
    rw [create_colinfo_loop]
    unfold create_colinfo_step
    cases fields[i - 1]? with
    | none => exact ⟨rfl, rfl⟩
    | some f =>
      simp only [sprintf_typename_ok, create_colinfo_type]
      exact ih _

theorem create_colinfo_quiet (W : World) (cur : cur_data) (A : Answers) :
    Quiet W (create_colinfo W cur A).2.2
    ∧ (create_colinfo W cur A).2.1.closed = cur.closed
    ∧ (create_colinfo W cur A).2.1.conn = cur.conn
    ∧ (create_colinfo W cur A).2.1.my_res = cur.my_res
    ∧ (RefInv cur W → RefInv (create_colinfo W cur A).2.1 (create_colinfo W cur A).2.2) := by
  unfold create_colinfo
  simp only [lua_newtable]
  obtain ⟨ht, hr⟩ := create_colinfo_loop_quiet A.mysql_fetch_fields
    (W.call (.mysql_fetch_fields cur.my_res)).tables.length
    (World.mk ((W.call (.mysql_fetch_fields cur.my_res)).tables ++ [[]])
      (W.call (.mysql_fetch_fields cur.my_res)).registry
      (W.call (.mysql_fetch_fields cur.my_res)).udata
      (W.call (.mysql_fetch_fields cur.my_res)).stack_free
      (W.call (.mysql_fetch_fields cur.my_res)).trace).tables.length
    ((List.range cur.numcols.toNat).map (fun i => i + 1))
    (World.mk ((W.call (.mysql_fetch_fields cur.my_res)).tables ++ [[]] ++ [[]])
      (W.call (.mysql_fetch_fields cur.my_res)).registry
      (W.call (.mysql_fetch_fields cur.my_res)).udata
      (W.call (.mysql_fetch_fields cur.my_res)).stack_free
      (W.call (.mysql_fetch_fields cur.my_res)).trace)
  revert ht hr
  rcases create_colinfo_loop A.mysql_fetch_fields _ _ _ _ with ⟨r, W1⟩
  intro ht hr
  simp only [World.call] at ht hr
  have hq1 : Quiet W W1 :=
    ⟨[.mysql_fetch_fields cur.my_res], ht, by simp [Call.isRelease], fun e he => by
      rw [hr]; exact he⟩
  cases r with
  | error e => exact ⟨hq1, rfl, rfl, rfl, fun h => h.of_quiet hq1 rfl rfl rfl⟩
  | ok u =>
    obtain ⟨a1, a2, a3⟩ := luaL_ref_fresh W1
      (.table (World.mk ((W.call (.mysql_fetch_fields cur.my_res)).tables ++ [[]])
      (W.call (.mysql_fetch_fields cur.my_res)).registry
      (W.call (.mysql_fetch_fields cur.my_res)).udata
      (W.call (.mysql_fetch_fields cur.my_res)).stack_free
      (W.call (.mysql_fetch_fields cur.my_res)).trace).tables.length) (by simp)
    obtain ⟨b1, b2, b3⟩ := luaL_ref_fresh (luaL_ref W1
      (.table (World.mk ((W.call (.mysql_fetch_fields cur.my_res)).tables ++ [[]])
      (W.call (.mysql_fetch_fields cur.my_res)).registry
      (W.call (.mysql_fetch_fields cur.my_res)).udata
      (W.call (.mysql_fetch_fields cur.my_res)).stack_free
      (W.call (.mysql_fetch_fields cur.my_res)).trace).tables.length)).2
      (.table (W.call (.mysql_fetch_fields cur.my_res)).tables.length) (by simp)
    have hq2 : Quiet W1 (luaL_ref (luaL_ref W1
      (.table (World.mk ((W.call (.mysql_fetch_fields cur.my_res)).tables ++ [[]])
      (W.call (.mysql_fetch_fields cur.my_res)).registry
      (W.call (.mysql_fetch_fields cur.my_res)).udata
      (W.call (.mysql_fetch_fields cur.my_res)).stack_free
      (W.call (.mysql_fetch_fields cur.my_res)).trace).tables.length)).2
      (.table (W.call (.mysql_fetch_fields cur.my_res)).tables.length)).2 := by
      refine ⟨[], ?_, by simp, ?_⟩
      · rw [b3, a3]; simp
      · intro e he
        rw [b3, a3]
        simp [he]
    refine ⟨hq1.trans hq2, rfl, rfl, rfl, ?_⟩
    intro hinv
    obtain ⟨i1, i2, i3⟩ := hinv
    have key : ∀ r : Int, 1 ≤ r → (∀ e ∈ W1.registry, e.1 < r) → r ≠ cur.conn := by
      intro r h1 h2 heq
      by_cases h0 : 0 ≤ cur.conn
      · obtain ⟨v, hv⟩ := i3 h0
        have := h2 _ (by rw [hr]; exact hv)
        simp only at this
        omega
      · omega
    refine ⟨?_, ?_, ?_⟩
    · refine key _ b1 (fun e he => b2 e ?_)
      rw [a3]
      simp [he]
    · exact key _ a1 a2
    · intro h0
      obtain ⟨v, hv⟩ := i3 h0
      obtain ⟨_, _, _, hsub⟩ := hq1.trans hq2
      exact ⟨v, hsub _ hv⟩

theorem Keeps.same {W W1 : World} (cur : cur_data) (hq : Quiet W W1) : Keeps cur W cur W1 :=
  ⟨hq, rfl, rfl, rfl, fun h => h.of_quiet hq rfl rfl rfl⟩

theorem Keeps.step {cur cur1 cur2 : cur_data} {W W1 W2 : World} (h1 : Keeps cur W cur1 W1)
    (h2 : Keeps cur1 W1 cur2 W2) : Keeps cur W cur2 W2 := by
  obtain ⟨q1, a1, b1, c1, i1⟩ := h1
  obtain ⟨q2, a2, b2, c2, i2⟩ := h2
  exact ⟨q1.trans q2, a2.trans a1, b2.trans b1, c2.trans c1, fun h => i2 (i1 h)⟩

theorem create_colinfo_keeps (W : World) (cur : cur_data) (A : Answers) :
    Keeps cur W (create_colinfo W cur A).2.1 (create_colinfo W cur A).2.2 :=
  create_colinfo_quiet W cur A

theorem _pushtable_keeps (W : World) (cur : cur_data) (m : ColInfo) (A : Answers) :
    Keeps cur W (_pushtable W cur m A).2.1 (_pushtable W cur m A).2.2 := by
  unfold _pushtable
  by_cases h : m.ref cur = LUA_NOREF
  · simp only [h, if_true]
    have := create_colinfo_keeps W cur A
    revert this
    rcases create_colinfo W cur A with ⟨r, c, W1⟩
    cases r <;> exact fun h => h
  · simp only [h, if_false]
    exact Keeps.same cur (Quiet.refl W)

theorem cur_fetch_table_keeps (W : World) (cur : cur_data) (t : Nat) (opts : List Char)
    (row : MYSQL_ROW) (lengths : List Nat) (A : Answers) :
    Keeps cur W (cur_fetch_table W cur t opts row lengths A).obj
      (cur_fetch_table W cur t opts row lengths A).W := by
  unfold cur_fetch_table
  dsimp only
  have h1 : ∀ s : Except Raise Unit × World,
      s = (if strchr opts 'n' = true then
        fetch_numeric row lengths t (List.range cur.numcols.toNat) W else (.ok (), W)) →
      Quiet W s.2 := by
    intro s hs
    by_cases hn : strchr opts 'n' = true
    · rw [if_pos hn] at hs
      rw [hs]
      exact Quiet.of_eq (fetch_numeric_quiet _ _ _ _ _).1 (fetch_numeric_quiet _ _ _ _ _).2
    · rw [if_neg hn] at hs
      rw [hs]
      exact Quiet.refl W
  have h1 := h1 _ rfl
  revert h1
  generalize (if strchr opts 'n' = true then
        fetch_numeric row lengths t (List.range cur.numcols.toNat) W else (.ok (), W)) = s
  rcases s with ⟨r, W1⟩
  intro h1
  cases r with
  | error e => exact Keeps.same cur h1
  | ok u =>
    simp only
    by_cases ha : strchr opts 'a' = true
    · simp only [ha, if_true]
      have h2 : ∀ s : Except Raise Unit × cur_data × World,
          s = (if cur.colnames = LUA_NOREF then create_colinfo W1 cur A else (.ok (), cur, W1)) →
          Keeps cur W1 s.2.1 s.2.2 := by
        intro s hs
        by_cases hc : cur.colnames = LUA_NOREF
        · rw [if_pos hc] at hs
          rw [hs]
          exact create_colinfo_keeps W1 cur A
        · rw [if_neg hc] at hs
          rw [hs]
          exact Keeps.same cur (Quiet.refl W1)
      have h2 := h2 _ rfl
      revert h2
      generalize (if cur.colnames = LUA_NOREF then create_colinfo W1 cur A
        else (.ok (), cur, W1)) = s
      rcases s with ⟨r, cur2, W2⟩
      intro h2
      cases r with
      | error e => exact (Keeps.same cur h1).step h2
      | ok u =>
        dsimp only
        have h3 := fetch_alpha_quiet row lengths t (registry_get W2 cur2.colnames)
          (List.range cur.numcols.toNat) W2
        revert h3
        rcases fetch_alpha row lengths t (registry_get W2 cur2.colnames)
          (List.range cur.numcols.toNat) W2 with ⟨r, W3⟩
        intro h3
        have k3 : Keeps cur2 W2 cur2 W3 := Keeps.same cur2 (Quiet.of_eq h3.1 h3.2)
        cases r with
        | error e => exact ((Keeps.same cur h1).step h2).step k3
        | ok u => exact ((Keeps.same cur h1).step h2).step k3
    · simp only [ha]
      exact Keeps.same cur h1

theorem Quiet.call_call (W : World) (c1 c2 : Call) (h1 : c1.isRelease = false)
    (h2 : c2.isRelease = false) : Quiet W ((W.call c1).call c2) :=
  (Quiet.call W c1 h1).trans (Quiet.call _ c2 h2)

theorem cur_getcolnames_keeps (W : World) (cur : cur_data) (A : Answers) :
    Keeps cur W (cur_getcolnames W cur A).obj (cur_getcolnames W cur A).W := by
  unfold cur_getcolnames
  cases getcursor cur with
  | error e => exact Keeps.same cur (Quiet.refl W)
  | ok c =>
    dsimp only
    have := _pushtable_keeps W cur .colnames A
    revert this
    rcases _pushtable W cur .colnames A with ⟨r, c, W1⟩
    cases r <;> exact fun h => h

theorem cur_getcoltypes_keeps (W : World) (cur : cur_data) (A : Answers) :
    Keeps cur W (cur_getcoltypes W cur A).obj (cur_getcoltypes W cur A).W := by
  unfold cur_getcoltypes
  cases getcursor cur with
  | error e => exact Keeps.same cur (Quiet.refl W)
  | ok c =>
    dsimp only
    have := _pushtable_keeps W cur .coltypes A
    revert this
    rcases _pushtable W cur .coltypes A with ⟨r, c, W1⟩
    cases r <;> exact fun h => h

theorem cur_numrows_keeps (W : World) (cur : cur_data) (A : Answers) :
    Keeps cur W (cur_numrows W cur A).obj (cur_numrows W cur A).W := by
  unfold cur_numrows
  cases getcursor cur with
  | error e => exact Keeps.same cur (Quiet.refl W)
  | ok c => exact Keeps.same cur (Quiet.call W _ rfl)

theorem cur_seek_keeps (W : World) (cur : cur_data) (rownum : Int) :
    Keeps cur W (cur_seek W cur rownum).obj (cur_seek W cur rownum).W := by
  unfold cur_seek
  cases getcursor cur with
  | error e => exact Keeps.same cur (Quiet.refl W)
  | ok c => exact Keeps.same cur (Quiet.call W _ rfl)

theorem cur_has_next_result_keeps (W : World) (cur : cur_data) (A : Answers) :
    Keeps cur W (cur_has_next_result W cur A).obj (cur_has_next_result W cur A).W := by
  unfold cur_has_next_result
  cases getcursor cur with
  | error e => exact Keeps.same cur (Quiet.refl W)
  | ok c => exact Keeps.same cur (Quiet.call W _ rfl)

theorem cur_fetch_row_keeps (H : luasql_h) (W : World) (cur : cur_data) (arg2 : LuaValue)
    (arg3 : Option String) (A : Answers) (row : MYSQL_ROW) (hrow : A.mysql_fetch_row = some row) :
    Keeps cur W (cur_fetch H W cur arg2 arg3 A).obj (cur_fetch H W cur arg2 arg3 A).W := by
  unfold cur_fetch
  cases getcursor cur with
  | error e => exact Keeps.same cur (Quiet.refl W)
  | ok c =>
    simp only [hrow]
    have hq : Quiet W ((W.call (.mysql_fetch_row cur.my_res)).call
        (.mysql_fetch_lengths cur.my_res)) := Quiet.call_call W _ _ rfl rfl
    cases arg2 with
    | table t =>
      exact (Keeps.same cur hq).step (cur_fetch_table_keeps _ cur t _ row _ A)
    | _ =>
      dsimp only
      split_ifs
      · cases fetch_values row A.mysql_fetch_lengths (List.range cur.numcols.toNat) <;>
          exact Keeps.same cur hq
      · cases fetch_values row A.mysql_fetch_lengths (List.range cur.numcols.toNat) <;>
          exact Keeps.same cur hq
      · exact Keeps.same cur hq

theorem cur_nullify_releases (W : World) (cur : cur_data) (pre : List Call)
    (hpre : ∀ c ∈ pre, c.isRelease = false) (W0 : World) (h0 : W0.trace = W.trace ++ pre) :
    ∃ d, (cur_nullify W0 cur).2.trace = W.trace ++ d
      ∧ d.filterMap Call.freed = [cur.my_res]
      ∧ d.filter Call.isUnref
        = [.luaL_unref cur.conn, .luaL_unref cur.colnames, .luaL_unref cur.coltypes]
      ∧ (cur_nullify W0 cur).1 = { cur with closed := 1 } := by
  refine ⟨pre ++ [.mysql_free_result cur.my_res, .luaL_unref cur.conn,
    .luaL_unref cur.colnames, .luaL_unref cur.coltypes], ?_, ?_, ?_, rfl⟩
  · rw [(cur_nullify_spec W0 cur).2.1, h0, List.append_assoc]
  · have : pre.filterMap Call.freed = [] := by
      rw [List.filterMap_eq_nil_iff]
      intro c hc
      have := hpre c hc
      cases c <;> simp_all [Call.isRelease, Call.freed]
    rw [List.filterMap_append, this]
    rfl
  · have : pre.filter Call.isUnref = [] := by
      rw [List.filter_eq_nil_iff]
      intro c hc
      have := hpre c hc
      cases c <;> simp_all [Call.isRelease, Call.isUnref]
    rw [List.filter_append, this]
    rfl

/-- What one method call does to an open cursor: it keeps the cursor as it is
and releases nothing, or (`nextresult`) it frees the result the cursor holds
and installs the one `mysql_store_result` returned, or it runs `cur_nullify`,
which frees the result, releases the three references and sets closed to 1. -/
theorem CursorOp.run_open (H : luasql_h) (op : CursorOp) (W : World) (cur : cur_data)
    (hopen : cur.closed = 0) :
    Keeps cur W (op.run H W cur).obj (op.run H W cur).W
    ∨ (∃ d, (op.run H W cur).W.trace = W.trace ++ d
        ∧ d.filterMap Call.freed = [cur.my_res] ∧ d.filter Call.isUnref = []
        ∧ (op.run H W cur).W.registry = W.registry
        ∧ (op.run H W cur).obj = { cur with my_res := (op.run H W cur).obj.my_res }
        ∧ op.stored = some (op.run H W cur).obj.my_res)
    ∨ (∃ d, (op.run H W cur).W.trace = W.trace ++ d
        ∧ d.filterMap Call.freed = [cur.my_res]
        ∧ d.filter Call.isUnref
          = [.luaL_unref cur.conn, .luaL_unref cur.colnames, .luaL_unref cur.coltypes]
        ∧ (op.run H W cur).obj = { cur with closed := 1 }) := by
  cases op with
  | gc =>
    right; right
    simp only [CursorOp.run, cur_gc, hopen, if_true]
    exact cur_nullify_releases W cur [] (by simp) W (by simp)
  | close =>
    right; right
    simp only [CursorOp.run, cur_close, hopen, ne_eq, not_true_eq_false, if_false]
    exact cur_nullify_releases W cur [] (by simp) W (by simp)
  | getcolnames A => exact Or.inl (cur_getcolnames_keeps W cur A)
  | getcoltypes A => exact Or.inl (cur_getcoltypes_keeps W cur A)
  | numrows A => exact Or.inl (cur_numrows_keeps W cur A)
  | seek n => exact Or.inl (cur_seek_keeps W cur n)
  | hasnextresult A => exact Or.inl (cur_has_next_result_keeps W cur A)
  | fetch arg2 arg3 A =>
    cases hrow : A.mysql_fetch_row with
    | some row => exact Or.inl (cur_fetch_row_keeps H W cur arg2 arg3 A row hrow)
    | none =>
      right; right
      simp only [CursorOp.run, cur_fetch, getcursor, hopen, ne_eq, not_true_eq_false, if_false,
        hrow]
      exact cur_nullify_releases W cur [.mysql_fetch_row cur.my_res]
        (by simp [Call.isRelease]) (W.call (.mysql_fetch_row cur.my_res)) rfl
  | nextresult A =>
    by_cases hm : A.mysql_more_results = true
    · by_cases hs : A.mysql_next_result = 0
      · right; left
        have hst : CursorOp.stored (.nextresult A) = some A.mysql_store_result := by
          simp [CursorOp.stored, hm, hs]
        by_cases hz : A.mysql_store_result = 0
        · have e : cur_next_result W cur A
              = ⟨.ok [.boolean false, .integer A.mysql_errno, .string A.mysql_error],
                { cur with my_res := A.mysql_store_result },
                { W with trace := W.trace ++ [.mysql_more_results cur.my_conn,
                    .mysql_next_result cur.my_conn, .mysql_free_result cur.my_res,
                    .mysql_store_result cur.my_conn, .mysql_errno cur.my_conn,
                    .mysql_error cur.my_conn] }⟩ := by
            simp [cur_next_result, getcursor, hopen, hm, hs, hz, World.call]
          simp only [CursorOp.run]
          rw [e]
          exact ⟨_, rfl, rfl, rfl, rfl, rfl, hst⟩
        · have e : cur_next_result W cur A
              = ⟨.ok [.boolean true], { cur with my_res := A.mysql_store_result },
                { W with trace := W.trace ++ [.mysql_more_results cur.my_conn,
                    .mysql_next_result cur.my_conn, .mysql_free_result cur.my_res,
                    .mysql_store_result cur.my_conn] }⟩ := by
            simp [cur_next_result, getcursor, hopen, hm, hs, hz, World.call]
          simp only [CursorOp.run]
          rw [e]
          exact ⟨_, rfl, rfl, rfl, rfl, rfl, hst⟩
      · left
        simp only [CursorOp.run, cur_next_result, getcursor, hopen, ne_eq, not_true_eq_false,
          if_false, hm, hs, if_true]
        exact Keeps.same cur (Quiet.call_call W _ _ rfl rfl)
    · left
      simp only [CursorOp.run, cur_next_result, getcursor, hopen, ne_eq, not_true_eq_false,
        if_false, hm]
      exact Keeps.same cur (Quiet.call W _ rfl)

theorem quiet_no_release (d : List Call) (h : ∀ c ∈ d, c.isRelease = false) :
    d.filterMap Call.freed = [] ∧ d.filter Call.isUnref = [] := by
  constructor
  · rw [List.filterMap_eq_nil_iff]
    intro c hc
    have := h c hc
    cases c <;> simp_all [Call.isRelease, Call.freed]
  · rw [List.filter_eq_nil_iff]
    intro c hc
    have := h c hc
    cases c <;> simp_all [Call.isRelease, Call.isUnref]

theorem CursorOp.runAll_append (H : luasql_h) (ops1 ops2 : List CursorOp) (W : World)
    (cur : cur_data) :
    CursorOp.runAll H (ops1 ++ ops2) W cur
      = CursorOp.runAll H ops2 (CursorOp.runAll H ops1 W cur).2 (CursorOp.runAll H ops1 W cur).1 := by
  induction ops1 generalizing W cur with
  | nil => rfl
  | cons op ops ih => exact ih _ _

/-- The releases made by a sequence of method calls on an open cursor: the
handles given to `mysql_free_result` are, in order, among the handle the
cursor holds followed by the handles `nextresult` installs, each used once;
the calls of `luaL_unref` are none while the cursor stays open, and the three
of the one run of `cur_nullify` once it is closed. -/
theorem CursorOp.runAll_releases (H : luasql_h) (ops : List CursorOp) (W : World)
    (cur : cur_data) (hopen : cur.closed = 0) (hinv : RefInv cur W) :
    ∃ d, (CursorOp.runAll H ops W cur).2.trace = W.trace ++ d
      ∧ (CursorOp.runAll H ops W cur).1.conn = cur.conn
      ∧ List.Sublist (d.filterMap Call.freed) (cur.my_res :: ops.filterMap CursorOp.stored)
      ∧ ((d.filter Call.isUnref = [] ∧ (CursorOp.runAll H ops W cur).1.closed = 0)
        ∨ (d.filter Call.isUnref = [.luaL_unref cur.conn,
              .luaL_unref (CursorOp.runAll H ops W cur).1.colnames,
              .luaL_unref (CursorOp.runAll H ops W cur).1.coltypes]
          ∧ (CursorOp.runAll H ops W cur).1.closed = 1
          ∧ (CursorOp.runAll H ops W cur).1.colnames ≠ cur.conn
          ∧ (CursorOp.runAll H ops W cur).1.coltypes ≠ cur.conn)) := by
  induction ops generalizing W cur with
  | nil =>
    exact ⟨[], by simp [CursorOp.runAll], rfl, List.nil_sublist _, Or.inl ⟨rfl, hopen⟩⟩
  | cons op ops ih =>
    simp only [CursorOp.runAll]
    rcases CursorOp.run_open H op W cur hopen with hk | ⟨d1, e1, f1, u1, r1, o1, s1⟩
      | ⟨d1, e1, f1, u1, o1⟩
    · obtain ⟨⟨d1, e1, q1, _⟩, c1, n1, m1, i1⟩ := hk
      obtain ⟨d2, e2, n2, s2, u2⟩ := ih (op.run H W cur).W (op.run H W cur).obj
        (c1.trans hopen) (i1 hinv)
      obtain ⟨f1, u1⟩ := quiet_no_release d1 q1
      refine ⟨d1 ++ d2, by rw [e2, e1, List.append_assoc], n2.trans n1, ?_, ?_⟩
      · rw [List.filterMap_append, f1, List.nil_append]
        rw [m1] at s2
        exact s2.trans (List.Sublist.cons₂ _
          ((List.sublist_cons_self op ops).filterMap CursorOp.stored))
      · rw [List.filter_append, u1, List.nil_append]
        rw [n1] at u2
        exact u2
    · have c1 : (op.run H W cur).obj.closed = 0 := by rw [o1]; exact hopen
      have n1 : (op.run H W cur).obj.conn = cur.conn := by rw [o1]
      have i1 : RefInv (op.run H W cur).obj (op.run H W cur).W := by
        obtain ⟨a, b, c⟩ := hinv
        rw [o1]
        exact ⟨a, b, fun h0 => by rw [r1]; exact c h0⟩
      obtain ⟨d2, e2, n2, s2, u2⟩ := ih (op.run H W cur).W (op.run H W cur).obj c1 i1
      refine ⟨d1 ++ d2, by rw [e2, e1, List.append_assoc], n2.trans n1, ?_, ?_⟩
      · rw [List.filterMap_append, f1, List.filterMap_cons, s1]
        exact List.Sublist.cons₂ _ s2
      · rw [List.filter_append, u1, List.nil_append]
        rw [n1] at u2
        exact u2
    · have c1 : (op.run H W cur).obj.closed ≠ 0 := by rw [o1]; exact one_ne_zero
      rw [CursorOp.runAll_closed H ops _ _ c1]
      refine ⟨d1, e1, by rw [o1], ?_, Or.inr ?_⟩
      · rw [f1]
        exact List.Sublist.cons₂ _ (List.nil_sublist _)
      · rw [o1]
        exact ⟨u1, rfl, hinv.1, hinv.2.1⟩

theorem create_cursor_open (W : World) (my_conn : Nat) (conn : LuaValue) (result : Nat)
    (cols : Int) :
    (create_cursor W my_conn conn result cols).2.1.closed = 0
    ∧ (create_cursor W my_conn conn result cols).2.1.my_res = result
    ∧ RefInv (create_cursor W my_conn conn result cols).2.1
        (create_cursor W my_conn conn result cols).2.2 := by
  by_cases hn : conn = .nil
  · subst hn
    refine ⟨rfl, rfl, ?_, ?_, ?_⟩ <;> simp [create_cursor, luaL_ref, LUA_NOREF, LUA_REFNIL]
  · obtain ⟨a1, a2, a3⟩ := luaL_ref_fresh (World.mk W.tables W.registry (W.udata + 1)
      W.stack_free W.trace) conn hn
    refine ⟨rfl, rfl, ?_, ?_, ?_⟩
    · simp only [create_cursor, LUA_NOREF]
      omega
    · simp only [create_cursor, LUA_NOREF]
      omega
    · intro _
      refine ⟨conn, ?_⟩
      simp only [create_cursor]
      rw [a3]
      simp

theorem count_free_eq (d : List Call) (h : Nat) :
    d.count (.mysql_free_result h) = (d.filterMap Call.freed).count h := by
  induction d with
  | nil => rfl
  | cons c d ih =>
    cases c <;> simp [List.count_cons, Call.freed, ih]

theorem count_unref_eq (d : List Call) (r : Int) :
    d.count (.luaL_unref r) = (d.filter Call.isUnref).count (.luaL_unref r) := by
  rw [List.count_filter]
  rfl

/-- C17: take the cursor `cur0` that `create_cursor` makes for the result
`result`, and any finite sequence `ops` of calls of fetch, close, the
finalizer, getcolnames, getcoltypes, numrows, seek, nextresult and
hasnextresult on it, where the client library hands out each result handle
other than `NULL` once.  Let `d` be the calls made during the sequence.
`cur_nullify` is the only function that calls `luaL_unref`, three times in a
run; the calls of `luaL_unref` in `d` are none, or exactly three: so
`cur_nullify` runs at most once.  Every result handle other than `NULL` is
passed to `mysql_free_result` at most once, the connection reference is
passed to `luaL_unref` at most once (the two other references released
differ from it), and after the first `j` calls of the sequence closed is 0 or
1 and, when it is 1, it is still 1 after the first `k` calls for every
`k ≥ j`: it never goes back from 1 to 0. -/
theorem cursor_released_at_most_once (H : luasql_h) (W : World) (my_conn : Nat)
    (conn : LuaValue) (result : Nat) (cols : Int) (ops : List CursorOp)
    (ud : LuaValue) (cur0 : cur_data) (W0 : World)
    (hcur : create_cursor W my_conn conn result cols = (ud, cur0, W0))
    (hfresh : ((result :: ops.filterMap CursorOp.stored).filter (fun h => h ≠ 0)).Nodup) :
    ∃ d, (CursorOp.runAll H ops W0 cur0).2.trace = W0.trace ++ d
      ∧ (d.filter Call.isUnref = []
        ∨ ∃ a b, d.filter Call.isUnref = [.luaL_unref cur0.conn, .luaL_unref a, .luaL_unref b]
            ∧ a ≠ cur0.conn ∧ b ≠ cur0.conn)
      ∧ (∀ h, h ≠ 0 → d.count (.mysql_free_result h) ≤ 1)
      ∧ d.count (.luaL_unref cur0.conn) ≤ 1
      ∧ ∀ j k, j ≤ k →
          ((CursorOp.runAll H (ops.take j) W0 cur0).1.closed = 0
            ∨ (CursorOp.runAll H (ops.take j) W0 cur0).1.closed = 1)
          ∧ ((CursorOp.runAll H (ops.take j) W0 cur0).1.closed = 1 →
              (CursorOp.runAll H (ops.take k) W0 cur0).1.closed = 1) := by
  obtain ⟨h0, hres, hinv⟩ := create_cursor_open W my_conn conn result cols
  rw [hcur] at h0 hres hinv
  simp only at h0 hres hinv
  obtain ⟨d, e, _, s, u⟩ := CursorOp.runAll_releases H ops W0 cur0 h0 hinv
  refine ⟨d, e, ?_, ?_, ?_, ?_⟩
  · rcases u with ⟨u1, _⟩ | ⟨u1, _, a, b⟩
    · exact Or.inl u1
    · exact Or.inr ⟨_, _, u1, a, b⟩
  · intro h hh
    rw [count_free_eq]
    have c1 := s.count_le h
    have c2 : List.count h ((cur0.my_res :: ops.filterMap CursorOp.stored).filter
        (fun h => h ≠ 0)) = List.count h (cur0.my_res :: ops.filterMap CursorOp.stored) :=
      List.count_filter (by simpa using hh)
    rw [hres] at c1 c2
    have c3 := List.nodup_iff_count_le_one.mp hfresh h
    omega
  · rw [count_unref_eq]
    rcases u with ⟨u1, _⟩ | ⟨u1, _, a, b⟩
    · rw [u1]
      simp
    · rw [u1]
      have a1 : ¬ (Call.luaL_unref (CursorOp.runAll H ops W0 cur0).1.colnames
          = Call.luaL_unref cur0.conn) := by
        intro h
        exact a (Call.luaL_unref.inj h)
      have b1 : ¬ (Call.luaL_unref (CursorOp.runAll H ops W0 cur0).1.coltypes
          = Call.luaL_unref cur0.conn) := by
        intro h
        exact b (Call.luaL_unref.inj h)
      simp [List.count_cons, a, b]
  · intro j k hjk
    obtain ⟨_, _, _, _, u1⟩ := CursorOp.runAll_releases H (ops.take j) W0 cur0 h0 hinv
    refine ⟨?_, ?_⟩
    · rcases u1 with ⟨_, c⟩ | ⟨_, c, _⟩
      · exact Or.inl c
      · exact Or.inr c
    · intro h1
      obtain ⟨m, rfl⟩ := Nat.exists_eq_add_of_le hjk
      rw [List.take_add, CursorOp.runAll_append,
        CursorOp.runAll_closed H _ _ _ (by rw [h1]; exact one_ne_zero)]
      exact h1

/-- Witness of C17: the cursor made for the result 100 over `example_world`,
with the calls of `example_ops`; the handles 100 and 101 are freed at most
once and the connection reference, slot 2, is released at most once. -/
theorem cursor_released_at_most_once_witness :
    create_cursor example_world 200 (.userdata 0) 100 2
      = (.userdata 1,
        { closed := 0, conn := 2, numcols := 2, colnames := LUA_NOREF, coltypes := LUA_NOREF,
          my_res := 100, my_conn := 200 },
        { example_world with udata := 2, registry := [(2, .userdata 0), (1, .userdata 0)] })
    ∧ ((100 :: example_ops.filterMap CursorOp.stored).filter (fun h => h ≠ 0)).Nodup
    ∧ ∃ d, (CursorOp.runAll example_luasql example_ops
          { example_world with udata := 2, registry := [(2, .userdata 0), (1, .userdata 0)] }
          { closed := 0, conn := 2, numcols := 2, colnames := LUA_NOREF, coltypes := LUA_NOREF,
            my_res := 100, my_conn := 200 }).2.trace = example_world.trace ++ d
      ∧ d.count (.mysql_free_result 100) ≤ 1 ∧ d.count (.mysql_free_result 101) ≤ 1
      ∧ d.count (.luaL_unref 2) ≤ 1 := by
  refine ⟨rfl, by decide, ?_⟩
  obtain ⟨d, h1, _, h3, h4, _⟩ := cursor_released_at_most_once example_luasql example_world 200
    (.userdata 0) 100 2 example_ops (.userdata 1)
    { closed := 0, conn := 2, numcols := 2, colnames := LUA_NOREF, coltypes := LUA_NOREF,
      my_res := 100, my_conn := 200 }
    { example_world with udata := 2, registry := [(2, .userdata 0), (1, .userdata 0)] }
    rfl (by decide)
  exact ⟨d, h1, h3 100 (by decide), h3 101 (by decide), h4⟩

set_option maxRecDepth 100000 in
/-- The calls made by `example_ops` on that cursor, in order: the result 100
is freed by `nextresult`, the result 101 and the three references by `close`;
the finalizer and the last fetch make no call. -/
theorem cursor_example_trace :
    (CursorOp.runAll example_luasql example_ops
      { example_world with udata := 2, registry := [(2, .userdata 0), (1, .userdata 0)] }
      { closed := 0, conn := 2, numcols := 2, colnames := LUA_NOREF, coltypes := LUA_NOREF,
        my_res := 100, my_conn := 200 }).2.trace
      = [.mysql_fetch_row 100, .mysql_fetch_lengths 100, .mysql_more_results 200,
          .mysql_next_result 200, .mysql_free_result 100, .mysql_store_result 200,
          .mysql_free_result 101, .luaL_unref 2, .luaL_unref LUA_NOREF,
          .luaL_unref LUA_NOREF] := by
  rfl

end LuaSQL
